import Mathlib

/-!
License server: a shallow embedding of `src/server.js`.

The license collection of the server is a list of documents; a request
handler is a function from the store, the request and the ambient inputs of
one call (clock readings, random bytes, random draws) to the new store and
the HTTP response.

Platform functions that the handlers call but that are not part of the
repository (`String.prototype.toUpperCase`, `JSON.stringify`, SHA-256, the
text of a thrown error) are the fields of a `Runtime` record, and every
general theorem below holds for every runtime.
-/

namespace LicenseServer

/-! ## Data model -/

/-- The object built by `getSystemFingerprint` in `src/main.js` and posted as
`systemFingerprint`; the server reads its `hostname` and `platform` and
serialises the whole object. -/
structure Fingerprint where
  cpu : String
  platform : String
  arch : String
  hostname : String
  totalMemory : Nat
  networkInterfaces : List String
  motherboard : String
deriving DecidableEq, Repr

/-- Exceptions that the modelled handlers can raise. -/
inductive Thrown where
  /-- The call `licenseKey.toUpperCase()` on a value that is not a string. -/
  | notAString
  /-- The unique index on `licenseKey` rejects an insert (E11000). -/
  | duplicateKey (key : String)
deriving DecidableEq, Repr

/-- Platform functions used by the handlers. -/
structure Runtime where
  /-- The method `String.prototype.toUpperCase`. -/
  toUpperCase : String → String
  /-- The function `JSON.stringify` applied to a fingerprint object. -/
  jsonStringify : Fingerprint → String
  /-- The digest `crypto.createHash('sha256').update(s).digest('hex')`. -/
  sha256Hex : String → String
  /-- The `message` property of a thrown error. -/
  errorMessage : Thrown → String

/-- The nested `metadata` path of `licenseSchema`; an unset path is `none`. -/
structure Metadata where
  ip : Option String
  userAgent : Option String
  hostname : Option String
  platform : Option String
deriving DecidableEq, Repr

/-- A document of the `License` collection (`licenseSchema`, lines 49-93).
Dates are milliseconds; `updatedAt` is the field that the schema option
`timestamps: true` adds and maintains. -/
structure License where
  _id : Nat
  licenseKey : String
  isActivated : Bool
  systemFingerprint : Option String
  machineId : Option String
  activatedAt : Option Nat
  createdAt : Nat
  lastValidated : Option Nat
  validationCount : Nat
  metadata : Metadata
  updatedAt : Nat
deriving DecidableEq, Repr

/-- The `License` collection, in insertion order. -/
abbrev Store := List License

/-- The status code and JSON body of a response; a field that the body does
not carry (or carries as `null`) is `none`. -/
structure Response where
  status : Nat
  success : Option Bool
  message : Option String
  error : Option String
  machineId : Option String
  activatedAt : Option Nat
  keys : Option (List String)
deriving DecidableEq, Repr

/-- The ambient inputs of one handler call. -/
structure Ambient where
  /-- The value of the `i`-th reading of the clock (`new Date()`, `Date.now`,
  the timestamp that Mongoose writes) during the call. -/
  clock : Nat → Nat
  /-- The bytes returned by `crypto.randomBytes(8)`. -/
  randomBytes : List Nat
  /-- The value of `Math.floor(Math.random() * chars.length)` at the `i`-th
  draw of the call. -/
  random : Nat → Nat

/-- The `licenseKey` member of a request body. -/
inductive KeyField where
  /-- The member is absent or `null`. -/
  | missing
  /-- The member is a number, boolean, array or object, with its truthiness. -/
  | nonString (truthy : Bool)
  /-- The member is a string. -/
  | str (s : String)
deriving DecidableEq, Repr

/-- A `POST /api/validate` request: the two body members, the value of
`req.ip || req.connection.remoteAddress` and the `User-Agent` header. -/
structure ValidateRequest where
  licenseKey : KeyField
  systemFingerprint : Option Fingerprint
  ip : Option String
  userAgent : Option String
deriving DecidableEq, Repr

/-- A `POST /api/admin/revoke` request body. -/
structure RevokeRequest where
  licenseKey : KeyField
deriving DecidableEq, Repr

/-- A `POST /api/admin/generate` request: the value of
`parseInt(req.body.count)`, with `none` for `NaN`. -/
structure GenerateRequest where
  count : Option Int
deriving DecidableEq, Repr

/-! ## Store operations (Mongoose) -/

/-- The query `License.findOne({ licenseKey: key })`. -/
def findOne (st : Store) (key : String) : Option License :=
  st.find? (fun l => decide (l.licenseKey = key))

/-- The call `License.updateOne(filter, update)`: the first document that
matches the filter is updated; the second component is `matchedCount`. -/
def updateOne (filter : License → Bool) (update : License → License) :
    Store → Store × Nat
  | [] => ([], 0)
  | l :: rest =>
    if filter l then (update l :: rest, 1)
    else ((updateOne filter update rest).1 |>.cons l, (updateOne filter update rest).2)

/-- A document as `insertMany` creates it from `{ licenseKey: key }`: the
schema defaults. -/
def newLicense (id : Nat) (key : String) (created updated : Nat) : License :=
  { _id := id, licenseKey := key, isActivated := false,
    systemFingerprint := none, machineId := none, activatedAt := none,
    createdAt := created, lastValidated := none, validationCount := 0,
    metadata := { ip := none, userAgent := none, hostname := none, platform := none },
    updatedAt := updated }

/-- A fresh `_id` (an `ObjectId` never equals one already in the collection). -/
def freshId (st : Store) : Nat :=
  (st.map (fun l => l._id)).foldr max 0 + 1

/-- The call `License.insertMany(licenses)` for `licenses = keys.map(...)`:
ordered insertion, which stops at the first key that the unique index on
`licenseKey` rejects; `i` counts the documents inserted so far. -/
def insertMany (clock : Nat → Nat) : Nat → Store → List String → Store × Option Thrown
  | _, st, [] => (st, none)
  | i, st, key :: keys =>
    if st.any (fun l => decide (l.licenseKey = key)) then (st, some (Thrown.duplicateKey key))
    else insertMany clock (i + 1)
      (st ++ [newLicense (freshId st) key (clock (2 * i)) (clock (2 * i + 1))]) keys

/-! ## Utility functions (lines 129-163) -/

/-- The alphabet `chars` of `generateLicenseKey`. -/
def chars : List Char := "ABCDEFGHIJKLMNOPQRSTUVWXYZ0123456789".toList

/-- The call `chars.charAt(i)`: the empty string when `i` is out of range. -/
def charAt (i : Nat) : String :=
  match chars.get? i with
  | some c => String.singleton c
  | none => ""

/-- Function `generateLicenseKey`: four groups of four characters, the draws
taken from position `pos` of the random stream. -/
def generateLicenseKey (random : Nat → Nat) (pos : Nat) : String :=
  (List.range 4).foldl
    (fun key i =>
      (List.range 4).foldl
        (fun key j => key ++ charAt (random (pos + 4 * i + j)))
        (if i > 0 then key ++ "-" else key))
    ""

/-- Function `generateUniqueKeys`: the `while` loop runs for at most `fuel`
iterations; `keys` is the `Set` in insertion order. The result is `none`
when the loop has not finished within the fuel. -/
def generateUniqueKeys (random : Nat → Nat) (count : Int) :
    Nat → Nat → List String → Option (List String)
  | 0, _, keys => if (keys.length : Int) < count then none else some keys
  | fuel + 1, pos, keys =>
    if (keys.length : Int) < count then
      generateUniqueKeys random count fuel (pos + 16)
        (if generateLicenseKey random pos ∈ keys then keys
         else keys ++ [generateLicenseKey random pos])
    else some keys

/-- Function `hashSystemFingerprint`. -/
def hashSystemFingerprint (rt : Runtime) (fingerprint : Fingerprint) : String :=
  rt.sha256Hex (rt.jsonStringify fingerprint ++ "SALT_2024_SECURE")

/-- An upper-case hexadecimal digit. -/
def hexDigitUpper (n : Nat) : Char :=
  ("0123456789ABCDEF".toList).getD n '0'

/-- Function `generateMachineId` on the bytes that `crypto.randomBytes(8)`
returned: `.toString('hex').toUpperCase()`, two digits per byte. -/
def generateMachineId (bytes : List Nat) : String :=
  String.mk (bytes.flatMap (fun b => [hexDigitUpper (b / 16 % 16), hexDigitUpper (b % 16)]))

/-! ## Responses -/

/-- A response with the given status and an empty body. -/
def emptyResponse (status : Nat) : Response :=
  { status := status, success := none, message := none, error := none,
    machineId := none, activatedAt := none, keys := none }

/-- A body `{ success, message }`. -/
def messageResponse (status : Nat) (success : Bool) (message : String) : Response :=
  { emptyResponse status with success := some success, message := some message }

/-- A body `{ error }`. -/
def errorResponse (status : Nat) (error : String) : Response :=
  { emptyResponse status with error := some error }

/-- The text that a template literal gives for `license.machineId`. -/
def machineIdText (machineId : Option String) : String :=
  machineId.getD "null"

/-- The 409 message of line 257. -/
def conflictMessage (machineId : Option String) : String :=
  "This license is already activated on machine " ++ machineIdText machineId ++
    ". Each license can only be used on one computer."

/-! ## `POST /api/validate` (lines 229-319) -/

/-- The response of lines 234-237. -/
def fieldsRequired : Response :=
  messageResponse 400 false "License key and system fingerprint are required"

/-- The response of lines 247-250. -/
def invalidLicenseKey : Response :=
  messageResponse 404 false "Invalid license key"

/-- The response of the `catch` block, lines 314-317. -/
def validationServerError : Response :=
  messageResponse 500 false "Server error during validation"

/-- What the handler has decided when `License.findOne` has returned, before
any write. -/
inductive Plan where
  /-- Respond at once (400, 404, 409, 500). -/
  | reply (r : Response)
  /-- The branch of line 262, with the document that `findOne` returned. -/
  | revalidate (license : License)
  /-- The branch of line 281, with the document that `findOne` returned, the
  hash and the fingerprint. -/
  | activate (license : License) (hashedFingerprint : String) (fingerprint : Fingerprint)
  /-- None of the three `if`s of lines 254, 262, 281 is taken: no response. -/
  | noReply
deriving DecidableEq, Repr

/-- Lines 231-281 of the handler: the checks, the hash, `findOne` and the
choice of the branch. -/
def validateRead (rt : Runtime) (st : Store) (req : ValidateRequest) : Plan :=
  match req.licenseKey, req.systemFingerprint with
  | KeyField.missing, _ => Plan.reply fieldsRequired
  | KeyField.nonString false, _ => Plan.reply fieldsRequired
  | _, none => Plan.reply fieldsRequired
  | KeyField.nonString true, some _ => Plan.reply validationServerError
  | KeyField.str licenseKey, some systemFingerprint =>
    if licenseKey = "" then Plan.reply fieldsRequired
    else
      match findOne st (rt.toUpperCase licenseKey) with
      | none => Plan.reply invalidLicenseKey
      | some license =>
        if license.isActivated && license.systemFingerprint !=
            some (hashSystemFingerprint rt systemFingerprint) then
          Plan.reply (messageResponse 409 false (conflictMessage license.machineId))
        else if license.isActivated && license.systemFingerprint ==
            some (hashSystemFingerprint rt systemFingerprint) then
          Plan.revalidate license
        else if !license.isActivated then
          Plan.activate license (hashSystemFingerprint rt systemFingerprint) systemFingerprint
        else Plan.noReply

/-- The update document of lines 266-269, with the `updatedAt` of the schema
timestamps. -/
def revalidateUpdate (env : Ambient) (l : License) : License :=
  { l with
    lastValidated := some (env.clock 0),
    validationCount := l.validationCount + 1,
    updatedAt := env.clock 1 }

/-- The update document of lines 286-299, with the `updatedAt` of the schema
timestamps. -/
def activateUpdate (req : ValidateRequest) (env : Ambient) (hashedFingerprint : String)
    (fingerprint : Fingerprint) (l : License) : License :=
  { l with
    isActivated := true,
    systemFingerprint := some hashedFingerprint,
    machineId := some (generateMachineId env.randomBytes),
    activatedAt := some (env.clock 0),
    lastValidated := some (env.clock 1),
    validationCount := l.validationCount + 1,
    metadata :=
      { ip := req.ip, userAgent := req.userAgent,
        hostname := some fingerprint.hostname, platform := some fingerprint.platform },
    updatedAt := env.clock 2 }

/-- Lines 262-310 of the handler: the `updateOne` keyed on `_id` and the
response, run on the store as it is at the time of the write. The response is
`none` when the handler sends none. -/
def validateWrite (st : Store) (req : ValidateRequest) (env : Ambient) :
    Plan → Store × Option Response
  | Plan.reply r => (st, some r)
  | Plan.revalidate license =>
    ((updateOne (fun l => decide (l._id = license._id)) (revalidateUpdate env) st).1,
      some { messageResponse 200 true "License validated successfully" with
        machineId := license.machineId, activatedAt := license.activatedAt })
  | Plan.activate license hashedFingerprint fingerprint =>
    ((updateOne (fun l => decide (l._id = license._id))
        (activateUpdate req env hashedFingerprint fingerprint) st).1,
      some { messageResponse 200 true "License activated successfully" with
        machineId := some (generateMachineId env.randomBytes),
        activatedAt := some (env.clock 3) })
  | Plan.noReply => (st, none)

/-- The handler of `POST /api/validate`, served without another request in
between: the read and the write on the same store. -/
def apiValidate (rt : Runtime) (st : Store) (req : ValidateRequest) (env : Ambient) :
    Store × Option Response :=
  validateWrite st req env (validateRead rt st req)

/-- Two validate requests `A` and `B` interleaved at their store operations:
`findOne` of `A`, `findOne` of `B`, `updateOne` of `A`, `updateOne` of `B`.
The result is the final store, the response to `A` and the response to `B`. -/
def validateRace (rt : Runtime) (st : Store) (reqA : ValidateRequest) (envA : Ambient)
    (reqB : ValidateRequest) (envB : Ambient) :
    Store × Option Response × Option Response :=
  ((validateWrite (validateWrite st reqA envA (validateRead rt st reqA)).1 reqB envB
      (validateRead rt st reqB)).1,
    (validateWrite st reqA envA (validateRead rt st reqA)).2,
    (validateWrite (validateWrite st reqA envA (validateRead rt st reqA)).1 reqB envB
      (validateRead rt st reqB)).2)

/-! ## `POST /api/admin/revoke` (lines 405-431) -/

/-- The update document of lines 412-417, with the `updatedAt` of the schema
timestamps. -/
def revokeUpdate (env : Ambient) (l : License) : License :=
  { l with
    isActivated := false,
    systemFingerprint := none,
    machineId := none,
    activatedAt := none,
    updatedAt := env.clock 0 }

/-- The handler of `POST /api/admin/revoke` (behind `requireAdmin`). -/
def apiAdminRevoke (rt : Runtime) (st : Store) (req : RevokeRequest) (env : Ambient) :
    Store × Option Response :=
  match req.licenseKey with
  | KeyField.str licenseKey =>
    ((updateOne (fun l => decide (l.licenseKey = rt.toUpperCase licenseKey))
        (revokeUpdate env) st).1,
      if (updateOne (fun l => decide (l.licenseKey = rt.toUpperCase licenseKey))
          (revokeUpdate env) st).2 = 0 then
        some (errorResponse 404 "License key not found")
      else some (messageResponse 200 true "License revoked successfully"))
  | _ => (st, some (errorResponse 500 (rt.errorMessage Thrown.notAString)))

/-! ## `POST /api/admin/generate` (lines 377-403) -/

/-- The expression `parseInt(req.body.count) || 100`. -/
def parsedCount (req : GenerateRequest) : Int :=
  match req.count with
  | none => 100
  | some n => if n = 0 then 100 else n

/-- The handler of `POST /api/admin/generate` (behind `requireAdmin`); `none`
when the loop of `generateUniqueKeys` has not finished within the fuel. -/
def apiAdminGenerate (rt : Runtime) (st : Store) (req : GenerateRequest) (env : Ambient)
    (fuel : Nat) : Option (Store × Option Response) :=
  if parsedCount req > 10000 then
    some (st, some (errorResponse 400 "Cannot generate more than 10,000 keys at once"))
  else
    match generateUniqueKeys env.random (parsedCount req) fuel 0 [] with
    | none => none
    | some keys =>
      match insertMany env.clock 0 st keys with
      | (st1, some thrown) => some (st1, some (errorResponse 500 (rt.errorMessage thrown)))
      | (st1, none) =>
        some (st1, some
          { messageResponse 200 true
              ("Generated " ++ toString (parsedCount req) ++ " new license keys") with
            keys := some keys })

/-! ## Sequences of operations -/

/-- One request to the server. -/
inductive Op where
  | validate (req : ValidateRequest) (env : Ambient)
  | revoke (req : RevokeRequest) (env : Ambient)
  | generate (req : GenerateRequest) (env : Ambient) (fuel : Nat)

/-- The effect of one request served alone. -/
def step (rt : Runtime) (st : Store) : Op → Option (Store × Option Response)
  | Op.validate req env => some (apiValidate rt st req env)
  | Op.revoke req env => some (apiAdminRevoke rt st req env)
  | Op.generate req env fuel => apiAdminGenerate rt st req env fuel

/-- The stores that the server reaches from a collection of freshly generated
licenses by validate, revoke and generate requests. -/
inductive Reachable (rt : Runtime) : Store → Prop where
  | fresh (st : Store)
      (h : ∀ l ∈ st, ∃ id key created updated, l = newLicense id key created updated) :
      Reachable rt st
  | step (st st1 : Store) (op : Op) (r : Option Response)
      (h : Reachable rt st) (hs : step rt st op = some (st1, r)) : Reachable rt st1

/-- The invariant of the data model on one license. -/
def ActivationInv (l : License) : Prop :=
  l.isActivated = true ↔ (l.systemFingerprint ≠ none ∧ l.machineId ≠ none)

/-! ## A runtime for concrete evaluation -/

/-- ASCII upper-casing, as `toUpperCase` acts on ASCII text. -/
def asciiUpper (s : String) : String :=
  String.mk (s.toList.map Char.toUpper)

/-- A stand-in serialisation: the fields in the order of the object literal. -/
def plainStringify (f : Fingerprint) : String :=
  String.intercalate ","
    ([f.cpu, f.platform, f.arch, f.hostname, toString f.totalMemory] ++
      f.networkInterfaces ++ [f.motherboard])

/-- A runtime used to evaluate the handlers on concrete inputs: ASCII
upper-casing, and an injective stand-in for the digest. -/
def evalRuntime : Runtime :=
  { toUpperCase := asciiUpper,
    jsonStringify := plainStringify,
    sha256Hex := fun s => s,
    errorMessage := fun t =>
      match t with
      | Thrown.notAString => "licenseKey.toUpperCase is not a function"
      | Thrown.duplicateKey key => "E11000 duplicate key error: " ++ key }

/-! ## The concrete scenario of the specification -/

/-- The key of the scenario. -/
def scenarioKey : String := "TEST-0001-AAAA-BBBB"

/-- The fingerprint `F1` of the scenario (hostname `host-a`). -/
def scenarioF1 : Fingerprint :=
  { cpu := "cpu", platform := "linux", arch := "x64", hostname := "host-a",
    totalMemory := 1024, networkInterfaces := ["aa:bb:cc:dd:ee:ff"],
    motherboard := "unknown" }

/-- The fingerprint `F2` of the scenario (hostname `host-b`). -/
def scenarioF2 : Fingerprint :=
  { scenarioF1 with hostname := "host-b" }

/-- A collection with the freshly generated license of the scenario. -/
def scenarioStore : Store := [newLicense 1 scenarioKey 0 0]

/-- Ambient inputs: the clock reads `t`, `t + 1`, ... and `randomBytes`
returns `bytes`. -/
def scenarioEnv (t : Nat) (bytes : List Nat) : Ambient :=
  { clock := fun i => t + i, randomBytes := bytes, random := fun i => i % 36 }

/-- A validate request of the scenario key, typed in lower case. -/
def scenarioValidate (fp : Fingerprint) : ValidateRequest :=
  { licenseKey := KeyField.str "test-0001-aaaa-bbbb", systemFingerprint := some fp,
    ip := some "10.0.0.1", userAgent := some "License-Protection-Client/1.0" }

/-- A revoke request of the scenario key. -/
def scenarioRevoke : RevokeRequest :=
  { licenseKey := KeyField.str scenarioKey }

/-- The random bytes of the first activation in the scenario. -/
def scenarioBytes1 : List Nat := [1, 35, 69, 103, 137, 171, 205, 239]

/-- Other random bytes. -/
def scenarioBytes2 : List Nat := [254, 220, 186, 152, 118, 84, 50, 16]

/-- The scenario store after `validate(K, F1)` at time 10. -/
def scenarioActivated : Store :=
  (apiValidate evalRuntime scenarioStore (scenarioValidate scenarioF1)
    (scenarioEnv 10 scenarioBytes1)).1

/-- The license of the scenario as `validate(K, F1)` at time 10 leaves it. -/
def scenarioLicense1 : License :=
  { _id := 1, licenseKey := scenarioKey, isActivated := true,
    systemFingerprint := some (hashSystemFingerprint evalRuntime scenarioF1),
    machineId := some "0123456789ABCDEF", activatedAt := some 10, createdAt := 0,
    lastValidated := some 11, validationCount := 1,
    metadata :=
      { ip := some "10.0.0.1", userAgent := some "License-Protection-Client/1.0",
        hostname := some "host-a", platform := some "linux" },
    updatedAt := 12 }

/-- The scenario store after `validate(K, F1)` and `revoke(K)` at time 20. -/
def scenarioRevoked : Store :=
  (apiAdminRevoke evalRuntime scenarioActivated scenarioRevoke (scenarioEnv 20 [])).1

/-! ## The key format and the CLI generator (`src/generate-keys.js`) -/

/-- A character of the class `[A-Z0-9]`. -/
def isKeyChar (c : Char) : Bool :=
  c.isUpper || c.isDigit

/-- The regular expression `[A-Z0-9]{4}-[A-Z0-9]{4}-[A-Z0-9]{4}-[A-Z0-9]{4}` as
the sequence of its nineteen single-character classes. -/
def keyPattern : List (Char → Bool) :=
  List.replicate 4 isKeyChar ++ [fun c => c == '-'] ++
  List.replicate 4 isKeyChar ++ [fun c => c == '-'] ++
  List.replicate 4 isKeyChar ++ [fun c => c == '-'] ++
  List.replicate 4 isKeyChar

/-- The call `/^[A-Z0-9]{4}-[A-Z0-9]{4}-[A-Z0-9]{4}-[A-Z0-9]{4}$/.test(s)`. -/
def keyFormatTest (s : String) : Bool :=
  s.toList.length == keyPattern.length &&
    (List.zipWith (fun p c => p c) keyPattern s.toList).all (fun b => b)

/-- The shape of a license key: nineteen characters, a hyphen at positions 4,
9 and 14 and a character of `[A-Z0-9]` at every other position. -/
def KeyShape (k : String) : Prop :=
  k.toList.length = 19 ∧
  ∀ i < 19, ∀ c, k.toList[i]? = some c →
    if i = 4 ∨ i = 9 ∨ i = 14 then c = '-' else isKeyChar c = true

/-- White space and line terminators of ECMAScript, which `trim` removes. -/
def isJsSpace (c : Char) : Bool :=
  [0x9, 0xA, 0xB, 0xC, 0xD, 0x20, 0xA0, 0x1680, 0x2000, 0x2001, 0x2002, 0x2003, 0x2004,
    0x2005, 0x2006, 0x2007, 0x2008, 0x2009, 0x200A, 0x2028, 0x2029, 0x202F, 0x205F,
    0x3000, 0xFEFF].contains c.toNat

/-- The method `String.prototype.trim`. -/
def jsTrim (s : String) : String :=
  String.mk ((s.toList.dropWhile isJsSpace).reverse.dropWhile isJsSpace).reverse

/-- The law of `toUpperCase` on ASCII text: it is ASCII upper-casing. -/
def UpperCasesAscii (rt : Runtime) : Prop :=
  ∀ s : String, (∀ c ∈ s.toList, c.toNat < 128) → rt.toUpperCase s = asciiUpper s

/-- Method `KeyGenerator.generateUniqueKeys` (lines 310-326): the loop of the
server function with the key built in place. -/
def KeyGenerator.generateUniqueKeys (random : Nat → Nat) (count : Int) :
    Nat → Nat → List String → Option (List String)
  | 0, _, keys => if (keys.length : Int) < count then none else some keys
  | fuel + 1, pos, keys =>
    if (keys.length : Int) < count then
      KeyGenerator.generateUniqueKeys random count fuel (pos + 16)
        (if (List.range 4).foldl
              (fun key i =>
                (List.range 4).foldl
                  (fun key j => key ++ charAt (random (pos + 4 * i + j)))
                  (if i > 0 then key ++ "-" else key))
              "" ∈ keys then keys
         else keys ++ [(List.range 4).foldl
              (fun key i =>
                (List.range 4).foldl
                  (fun key j => key ++ charAt (random (pos + 4 * i + j)))
                  (if i > 0 then key ++ "-" else key))
              ""])
    else some keys

/-- Method `KeyGenerator.validateKeyFormat` (lines 344-346). -/
def KeyGenerator.validateKeyFormat (rt : Runtime) (key : String) : Bool :=
  keyFormatTest (rt.toUpperCase key)

/-- What `generateOfflineKeys` has done when it returns. -/
inductive OfflineGeneration where
  /-- The count is refused (lines 280-283): nothing is generated. -/
  | invalidCount
  /-- The keys that were generated and passed to `saveKeysToFile`. -/
  | saved (keys : List String)
deriving DecidableEq, Repr

/-- Method `KeyGenerator.generateOfflineKeys` (lines 273-308) for the value
`count = parseInt(countStr)`, `none` for `NaN`. The result is `none` when the
loop of `generateUniqueKeys` has not finished within the fuel. -/
def KeyGenerator.generateOfflineKeys (random : Nat → Nat) (count : Option Int) (fuel : Nat) :
    Option OfflineGeneration :=
  match count with
  | none => some OfflineGeneration.invalidCount
  | some n =>
    if n < 1 ∨ n > 10000 then some OfflineGeneration.invalidCount
    else
      match KeyGenerator.generateUniqueKeys random n fuel 0 [] with
      | none => none
      | some keys => some (OfflineGeneration.saved keys)

/-- Method `KeyGenerator.generateKeys` (lines 107-124) for the value
`count = parseInt(countStr)`: the body that it posts to `/admin/generate`, or
`none` when the count is refused (lines 114-117). -/
def KeyGenerator.generateKeys (count : Option Int) : Option GenerateRequest :=
  match count with
  | none => none
  | some n => if n < 1 ∨ n > 1000 then none else some { count := some n }

/-- The characters of a key whose `j`-th alphabet character is `g j`. -/
def keyList (g : Nat → Char) : List Char :=
  [g 0, g 1, g 2, g 3, '-', g 4, g 5, g 6, g 7, '-', g 8, g 9, g 10, g 11, '-',
    g 12, g 13, g 14, g 15]

/-- A random stream whose `b`-th key starts with the two base-36 digits of
`b`; its first 1296 keys are distinct. -/
def digitStream (i : Nat) : Nat :=
  if i % 16 = 0 then i / 16 % 36 else if i % 16 = 1 then i / 16 / 36 % 36 else 0

/-- A store that already holds the second key of the stream `i % 36`. -/
def collisionStore : Store := [newLicense 1 "QRST-UVWX-YZ01-2345" 0 0]

/-! ## JSON values -/

/-- A JSON value. Numbers are integers, which is what this program stores. -/
inductive Json where
  | null
  | bool (b : Bool)
  | num (n : Int)
  | str (s : String)
  | arr (items : List Json)
  | obj (members : List (String × Json))
deriving Repr

/-- The JSON value of a nullable string. -/
def Json.ofOptString : Option String → Json
  | none => Json.null
  | some s => Json.str s

/-- The JSON value of a nullable date. -/
def Json.ofOptNat : Option Nat → Json
  | none => Json.null
  | some n => Json.num n

/-- The members of an object whose values are set. -/
def Json.setMembers (members : List (String × Option String)) : List (String × Json) :=
  members.filterMap (fun m => m.2.map (fun v => (m.1, Json.str v)))

/-! ## Admin routes (lines 321-454) -/

/-- A document of the `Admin` collection (`adminSchema`, lines 102-125). -/
structure Admin where
  username : String
  passwordHash : String
  apiKey : String
  permissions : List String
  createdAt : Nat
deriving DecidableEq, Repr

/-- Middleware `requireAdmin` (lines 322-340) for the value of the header
`x-api-key`: the response that it sends, or `none` when it calls `next()`. -/
def requireAdmin (admins : List Admin) (apiKey : Option String) : Option Response :=
  match apiKey with
  | none => some (errorResponse 401 "API key required")
  | some key =>
    if key = "" then some (errorResponse 401 "API key required")
    else
      match admins.find? (fun a => decide (a.apiKey = key)) with
      | none => some (errorResponse 401 "Invalid API key")
      | some _ => none

/-- The query string of `GET /api/admin/licenses`: the values of
`parseInt(req.query.page)` and `parseInt(req.query.limit)` (`none` for `NaN`)
and the string `req.query.activated`. -/
structure ListQuery where
  page : Option Int
  limit : Option Int
  activated : Option String
deriving DecidableEq, Repr

/-- The member `pagination` of the list response. -/
structure Pagination where
  current : Int
  total : Int
  count : Nat
  totalRecords : Nat
deriving DecidableEq, Repr

/-- An error of the database driver. -/
inductive QueryError where
  /-- The query has a negative `skip`. -/
  | negativeSkip
deriving DecidableEq, Repr

/-- The response of `GET /api/admin/licenses`: either the body
`{ licenses, pagination }` or the body `{ error }` of status 500. -/
structure ListResponse where
  status : Nat
  licenses : List Json
  pagination : Option Pagination
  error : Option QueryError
deriving Repr

/-- The expression `parseInt(req.query.page) || 1` of line 345. -/
def listPage (q : ListQuery) : Int :=
  match q.page with
  | none => 1
  | some p => if p = 0 then 1 else p

/-- The expression `parseInt(req.query.limit) || 50` of line 346. -/
def listLimit (q : ListQuery) : Int :=
  match q.limit with
  | none => 50
  | some n => if n = 0 then 50 else n

/-- The filter of lines 349-351 as a predicate on documents. -/
def listFilter (q : ListQuery) (l : License) : Bool :=
  if q.activated = some "true" then l.isActivated
  else if q.activated = some "false" then !l.isActivated
  else true

/-- A stored license as the plain object that `.lean()` returns. -/
def licenseDocument (l : License) : Json :=
  Json.obj
    [("_id", Json.num l._id),
      ("licenseKey", Json.str l.licenseKey),
      ("isActivated", Json.bool l.isActivated),
      ("systemFingerprint", Json.ofOptString l.systemFingerprint),
      ("machineId", Json.ofOptString l.machineId),
      ("activatedAt", Json.ofOptNat l.activatedAt),
      ("createdAt", Json.num l.createdAt),
      ("lastValidated", Json.ofOptNat l.lastValidated),
      ("validationCount", Json.num l.validationCount),
      ("metadata", Json.obj (Json.setMembers
        [("ip", l.metadata.ip), ("userAgent", l.metadata.userAgent),
          ("hostname", l.metadata.hostname), ("platform", l.metadata.platform)])),
      ("updatedAt", Json.num l.updatedAt),
      ("__v", Json.num 0)]

/-- The projection `.select('-' + field)`: the documents without the field. -/
def selectExclude (field : String) : Json → Json
  | Json.obj members => Json.obj (members.filter (fun m => decide (m.1 ≠ field)))
  | j => j

/-- The order of `.sort({ createdAt: -1 })`: newest first; documents with the
same `createdAt` keep the order of the collection. -/
def newestFirst (st : Store) : Store :=
  st.insertionSort (fun a b => a.createdAt ≥ b.createdAt)

/-- The handler of `GET /api/admin/licenses` (lines 343-375, behind
`requireAdmin`). A negative `skip` is refused by the database; a negative
`limit` is sent by the driver as its absolute value. -/
def apiAdminLicenses (st : Store) (q : ListQuery) : ListResponse :=
  if (listPage q - 1) * listLimit q < 0 then
    { status := 500, licenses := [], pagination := none, error := some QueryError.negativeSkip }
  else
    { status := 200,
      licenses :=
        (((newestFirst (st.filter (listFilter q))).drop
            ((listPage q - 1) * listLimit q).toNat).take (listLimit q).natAbs).map
          (fun l => selectExclude "systemFingerprint" (licenseDocument l)),
      pagination := some
        { current := listPage q,
          total := - Int.fdiv (- ((st.filter (listFilter q)).length : Int)) (listLimit q),
          count := (((newestFirst (st.filter (listFilter q))).drop
            ((listPage q - 1) * listLimit q).toNat).take (listLimit q).natAbs).length,
          totalRecords := (st.filter (listFilter q)).length },
      error := none }

/-- The response of `GET /api/admin/stats`. -/
structure StatsResponse where
  status : Nat
  total : Nat
  activated : Nat
  available : Int
  recentActivations : Nat
  activationRate : String
deriving DecidableEq, Repr

/-- The handler of `GET /api/admin/stats` (lines 434-454, behind
`requireAdmin`); `toFixed2 activated total` is the text of
`(activated / total * 100).toFixed(2)`, and `env.clock 0` is `Date.now()`. -/
def apiAdminStats (toFixed2 : Nat → Nat → String) (st : Store) (env : Ambient) :
    StatsResponse :=
  { status := 200,
    total := st.length,
    activated := (st.filter (fun l => l.isActivated)).length,
    available := (st.length : Int) - ((st.filter (fun l => l.isActivated)).length : Int),
    recentActivations :=
      (st.filter (fun l =>
        decide ((env.clock 0 : Int) - 24 * 60 * 60 * 1000 ≤ (l.createdAt : Int)))).length,
    activationRate :=
      if st.length > 0 then
        toFixed2 (st.filter (fun l => l.isActivated)).length st.length ++ "%"
      else "0%" }

/-- The route `POST /api/admin/revoke`: `requireAdmin`, then the handler. -/
def adminRevokeRoute (rt : Runtime) (admins : List Admin) (st : Store)
    (apiKey : Option String) (req : RevokeRequest) (env : Ambient) :
    Store × Option Response :=
  match requireAdmin admins apiKey with
  | some r => (st, some r)
  | none => apiAdminRevoke rt st req env

/-- The route `POST /api/admin/generate`: `requireAdmin`, then the handler. -/
def adminGenerateRoute (rt : Runtime) (admins : List Admin) (st : Store)
    (apiKey : Option String) (req : GenerateRequest) (env : Ambient) (fuel : Nat) :
    Option (Store × Option Response) :=
  match requireAdmin admins apiKey with
  | some r => some (st, some r)
  | none => apiAdminGenerate rt st req env fuel

/-- The route `GET /api/admin/licenses`: the response of `requireAdmin`, or
the response of the handler. The route has no write to the store. -/
def adminLicensesRoute (admins : List Admin) (st : Store) (apiKey : Option String)
    (q : ListQuery) : Except Response ListResponse :=
  match requireAdmin admins apiKey with
  | some r => Except.error r
  | none => Except.ok (apiAdminLicenses st q)

/-- The route `GET /api/admin/stats`: the response of `requireAdmin`, or the
response of the handler. The route has no write to the store. -/
def adminStatsRoute (toFixed2 : Nat → Nat → String) (admins : List Admin) (st : Store)
    (apiKey : Option String) (env : Ambient) : Except Response StatsResponse :=
  match requireAdmin admins apiKey with
  | some r => Except.error r
  | none => Except.ok (apiAdminStats toFixed2 st env)

/-- The admin that `initializeDefaultKeys` creates, with an API key. -/
def scenarioAdmin : Admin :=
  { username := "admin", passwordHash := "$2b$12$hash", apiKey := "secret-api-key",
    permissions := ["read", "write", "admin"], createdAt := 0 }

/-- A license without its fingerprint hash. -/
def withoutFingerprint (l : License) : License :=
  { l with systemFingerprint := none }

/-! ## JavaScript values on the client -/

/-- Truthiness of a JSON value. -/
def Json.truthy : Json → Bool
  | Json.null => false
  | Json.bool b => b
  | Json.num n => decide (n ≠ 0)
  | Json.str s => decide (s ≠ "")
  | Json.arr _ => true
  | Json.obj _ => true

/-- Whether a value (`none` for `undefined`) is truthy. -/
def truthyValue : Option Json → Bool
  | none => false
  | some j => j.truthy

/-- The test `value === s` for a string `s`. -/
def isString (value : Option Json) (s : String) : Bool :=
  match value with
  | some (Json.str t) => decide (t = s)
  | _ => false

/-- The number that a canonical array index denotes: a decimal numeral without
leading zero, below `2^32 - 1`. -/
def arrayIndex (key : String) : Option Nat :=
  match key.toList with
  | [] => none
  | c :: cs =>
    if (c :: cs).all Char.isDigit && (decide (c ≠ '0') || cs.isEmpty) &&
        decide ((c :: cs).foldl (fun n d => 10 * n + (d.toNat - 48)) 0 < 4294967295) then
      some ((c :: cs).foldl (fun n d => 10 * n + (d.toNat - 48)) 0)
    else none

/-- The read `value[key]` on a value other than `null`, `none` for
`undefined`: an own member of an object, an element of an array. The
properties of a string or an array other than its elements, and inherited
methods, have none of the members that this program reads from them
(`message`, `machineId`, `systemHash`), and are read as `undefined`. -/
def Json.prop : Json → String → Option Json
  | Json.obj members, key => (members.find? (fun m => decide (m.1 = key))).map (fun m => m.2)
  | Json.arr items, key =>
    match arrayIndex key with
    | some i => items[i]?
    | none => none
  | _, _ => none

/-- The members of an object after the assignment `object[key] = value` of a
new key: an array index goes among the array indices in ascending order, any
other key to the end. -/
def insertMember (members : List (String × Json)) (key : String) (value : Json) :
    List (String × Json) :=
  match arrayIndex key with
  | none => members ++ [(key, value)]
  | some i =>
    members.takeWhile (fun m => match arrayIndex m.1 with | some j => decide (j < i) | none => false)
      ++ (key, value) ::
    members.dropWhile (fun m => match arrayIndex m.1 with | some j => decide (j < i) | none => false)

/-- The assignment `target[key] = value` of an object `value` in strict mode,
as `JSON.stringify(target)` sees it afterwards; `none` when it throws (on
`null`, on a primitive, on the `length` of an array). A key `__proto__` that
is not an own member sets the prototype and adds no member; an array keeps
only its elements, with `null` for the holes. -/
def Json.setProp : Json → String → Json → Option Json
  | Json.obj members, key, value =>
    if members.any (fun m => decide (m.1 = key)) then
      some (Json.obj (members.map (fun m => if m.1 = key then (key, value) else m)))
    else if key = "__proto__" then some (Json.obj members)
    else some (Json.obj (insertMember members key value))
  | Json.arr items, key, value =>
    match arrayIndex key with
    | some i =>
      if i < items.length then some (Json.arr (items.set i value))
      else some (Json.arr (items ++ List.replicate (i - items.length) Json.null ++ [value]))
    | none => if key = "length" then none else some (Json.arr items)
  | _, _, _ => none

/-! ## The client (`src/main.js`) -/

/-- Exceptions that the modelled client code can raise. -/
inductive ClientThrown where
  /-- The call `inputLicenseKey.toUpperCase()` on a value that is not a string. -/
  | notAString
  /-- The read `os.cpus()[0].model` when `os.cpus()` is empty. -/
  | noCpuInfo
  /-- The call `new URL` of line 307 on a server URL that is no URL. -/
  | invalidUrl
deriving DecidableEq, Repr

/-- Platform functions of the client. -/
structure ClientRuntime where
  /-- The function `JSON.parse`, `none` when it throws. -/
  jsonParse : String → Option Json
  /-- The function `JSON.stringify` on a JSON value. -/
  jsonStringify : Json → String
  /-- AES-256-CBC decryption under the key of line 474 with the given IV, from
  hex to UTF-8 text: `createDecipheriv`, `update`, `final`; `none` when one of
  them throws. -/
  decipher : List Nat → String → Option String
  /-- AES-256-CBC encryption under the key of line 461 with the given IV, from
  UTF-8 text to hex: `createCipheriv`, `update`, `final`. -/
  cipher : List Nat → String → String
  /-- The `message` property of a thrown error. -/
  errorMessage : ClientThrown → String

/-- An address of a network interface, as `os.networkInterfaces()` reports it. -/
structure NetworkAddress where
  internal : Bool
  mac : String
deriving DecidableEq, Repr

/-- The outcome of the `wmic` command of `getMotherboardInfo`. -/
inductive MotherboardProbe where
  /-- The command fails: the promise is rejected. -/
  | failed
  /-- The command prints text; the group of `/SerialNumber=(.+)/` in it, if
  the pattern matches. -/
  | output (serial : Option String)
deriving DecidableEq, Repr

/-- What the client reads from the operating system. -/
structure OsInfo where
  /-- The `model` of each entry of `os.cpus()`. -/
  cpus : List String
  platform : String
  arch : String
  hostname : String
  totalmem : Nat
  /-- The interfaces of `os.networkInterfaces()` in the order of enumeration. -/
  networkInterfaces : List (String × List NetworkAddress)
  /-- The value of `process.platform`. -/
  processPlatform : String
  motherboard : MotherboardProbe
deriving DecidableEq, Repr

/-- Method `getMacAddresses` (lines 216-231). -/
def ProtectionLayer.getMacAddresses (os : OsInfo) : List String :=
  os.networkInterfaces.flatMap (fun networkInterface =>
    (networkInterface.2.filter (fun addr =>
      !addr.internal && decide (addr.mac ≠ "") &&
        decide (addr.mac ≠ "00:00:00:00:00:00"))).map (fun addr => addr.mac))

/-- Method `getMotherboardInfo` (lines 233-244) with the `try` of lines
203-208 around it. -/
def ProtectionLayer.getMotherboardInfo (probe : MotherboardProbe) : String :=
  match probe with
  | MotherboardProbe.failed => "unknown"
  | MotherboardProbe.output none => "unknown"
  | MotherboardProbe.output (some serial) => jsTrim serial

/-- Method `getSystemFingerprint` (lines 191-214); `none` when it throws
(`os.cpus()` is empty). -/
def ProtectionLayer.getSystemFingerprint (os : OsInfo) : Option Fingerprint :=
  match os.cpus with
  | [] => none
  | model :: _ =>
    some
      { cpu := model,
        platform := os.platform,
        arch := os.arch,
        hostname := os.hostname,
        totalMemory := os.totalmem,
        networkInterfaces := ProtectionLayer.getMacAddresses os,
        motherboard :=
          if os.processPlatform = "win32" then
            ProtectionLayer.getMotherboardInfo os.motherboard
          else "unknown" }

/-- Method `hashSystemFingerprint` of the client (lines 490-494). -/
def ProtectionLayer.hashSystemFingerprint (rt : Runtime) (fingerprint : Fingerprint) :
    String :=
  rt.sha256Hex (rt.jsonStringify fingerprint ++ "SYSTEM_SALT_2024")

/-- What the HTTP request of `validateWithServer` ends with, when it ends with
one of the three events that the method listens to (`RequestFate` has the
other cases). -/
inductive Transport where
  /-- The event `end` of a response with its status code and body. -/
  | response (statusCode : Nat) (data : String)
  /-- The event `error` of the request. -/
  | error
  /-- The event `timeout` of the request. -/
  | timeout
deriving DecidableEq, Repr

/-- The value that `validateWithServer` resolves to; `source` is always
`'server'`, and `offline` is true when the member is present. -/
structure ServerResult where
  success : Bool
  message : Option Json
  machineId : Option Json
  offline : Bool
deriving Repr

/-- Method `validateWithServer` (lines 300-381) on the outcome of its one
request: the value that its promise is resolved with when the request ends
with one of the three events that it listens to. The promise itself, with a
request that cannot be built or a response that never ends, is
`ProtectionLayer.validateWithServerPromise`. -/
def ProtectionLayer.validateWithServer (crt : ClientRuntime) (transport : Transport) :
    ServerResult :=
  match transport with
  | Transport.response statusCode data =>
    match crt.jsonParse data with
    | none =>
      { success := false, message := some (Json.str "Invalid server response format"),
        machineId := none, offline := false }
    | some Json.null =>
      { success := false, message := some (Json.str "Invalid server response format"),
        machineId := none, offline := false }
    | some response =>
      if statusCode = 200 then
        { success := true, message := response.prop "message",
          machineId := response.prop "machineId", offline := false }
      else
        { success := false,
          message :=
            if truthyValue (response.prop "message") then response.prop "message"
            else some (Json.str "Server validation failed"),
          machineId := none, offline := false }
  | Transport.error =>
    { success := false, message := some (Json.str "Unable to connect to license server"),
      machineId := none, offline := true }
  | Transport.timeout =>
    { success := false, message := some (Json.str "Server request timeout"),
      machineId := none, offline := true }

/-- The file `.offline_licenses.dat`. -/
inductive FileState where
  /-- The file does not exist. -/
  | missing
  /-- The file exists and `readFileSync` throws. -/
  | unreadable
  /-- The file exists with this text. -/
  | content (text : String)
deriving DecidableEq, Repr

/-- The call `s.split(c)` on the characters of `s`. -/
def splitOn (c : Char) : List Char → List (List Char)
  | [] => [[]]
  | x :: xs =>
    if x = c then [] :: splitOn c xs
    else
      match splitOn c xs with
      | [] => [[x]]
      | part :: parts => (x :: part) :: parts

/-- The value of a hexadecimal digit. -/
def hexValue (c : Char) : Option Nat :=
  if c.isDigit then some (c.toNat - 48)
  else if 'a'.toNat ≤ c.toNat ∧ c.toNat ≤ 'f'.toNat then some (c.toNat - 87)
  else if 'A'.toNat ≤ c.toNat ∧ c.toNat ≤ 'F'.toNat then some (c.toNat - 55)
  else none

/-- The call `Buffer.from(s, 'hex')`: the bytes of the leading pairs of
hexadecimal digits. -/
def bufferFromHex : List Char → List Nat
  | a :: b :: rest =>
    match hexValue a, hexValue b with
    | some x, some y => (16 * x + y) :: bufferFromHex rest
    | _, _ => []
  | _ => []

/-- A lower-case hexadecimal digit. -/
def hexDigitLower (n : Nat) : Char :=
  ("0123456789abcdef".toList).getD n '0'

/-- The call `buffer.toString('hex')`. -/
def bufferToHex (bytes : List Nat) : String :=
  String.mk (bytes.flatMap (fun b => [hexDigitLower (b / 16 % 16), hexDigitLower (b % 16)]))

/-- Method `decryptOfflineData` (lines 472-487); `none` when it throws. -/
def ProtectionLayer.decryptOfflineData (crt : ClientRuntime) (encryptedData : String) :
    Option String :=
  match splitOn ':' encryptedData.toList with
  | [iv, encrypted] => crt.decipher (bufferFromHex iv) (String.mk encrypted)
  | _ => none

/-- Method `encryptOfflineData` (lines 459-469) with the bytes `iv` that
`crypto.randomBytes(16)` returns. -/
def ProtectionLayer.encryptOfflineData (crt : ClientRuntime) (iv : List Nat) (data : String) :
    String :=
  bufferToHex iv ++ ":" ++ crt.cipher iv data

/-- The value that `validateOffline` returns; `source` is always `'offline'`. -/
structure OfflineResult where
  success : Bool
  message : String
  machineId : Option Json
deriving Repr

/-- Method `validateOffline` (lines 384-423). -/
def ProtectionLayer.validateOffline (crt : ClientRuntime) (offlineFile : FileState)
    (licenseKey systemHash : String) : OfflineResult :=
  match offlineFile with
  | FileState.missing =>
    { success := false,
      message := "No offline licenses available. Internet connection required.",
      machineId := none }
  | FileState.unreadable =>
    { success := false, message := "Offline validation failed", machineId := none }
  | FileState.content encryptedData =>
    match ProtectionLayer.decryptOfflineData crt encryptedData with
    | none => { success := false, message := "Offline validation failed", machineId := none }
    | some decryptedData =>
      match crt.jsonParse decryptedData with
      | none => { success := false, message := "Offline validation failed", machineId := none }
      | some Json.null =>
        { success := false, message := "Offline validation failed", machineId := none }
      | some offlineLicenses =>
        match offlineLicenses.prop licenseKey with
        | none =>
          { success := false, message := "License not found in offline cache",
            machineId := none }
        | some entry =>
          if entry.truthy && isString (entry.prop "systemHash") systemHash then
            { success := true, message := "License validated offline",
              machineId := entry.prop "machineId" }
          else
            { success := false, message := "License not found in offline cache",
              machineId := none }

/-- The object of lines 443-447 as `JSON.stringify` writes it: a `machineId`
that is `undefined` is left out. -/
def offlineEntry (systemHash : String) (machineId : Option Json) (now : Nat) : Json :=
  Json.obj
    ([("systemHash", Json.str systemHash)] ++
      (match machineId with
        | some m => [("machineId", m)]
        | none => []) ++
      [("validatedAt", Json.num now)])

/-- Method `saveOfflineLicense` (lines 426-456): the file afterwards. `now` is
`Date.now()`, `iv` the bytes of `crypto.randomBytes(16)`, and `writeFails`
tells whether `writeFileSync` throws. -/
def ProtectionLayer.saveOfflineLicense (crt : ClientRuntime) (offlineFile : FileState)
    (licenseKey systemHash : String) (machineId : Option Json) (now : Nat) (iv : List Nat)
    (writeFails : Bool) : FileState :=
  match
    (match offlineFile with
      | FileState.missing => some (Json.obj [])
      | FileState.unreadable => none
      | FileState.content encryptedData =>
        match ProtectionLayer.decryptOfflineData crt encryptedData with
        | none => some (Json.obj [])
        | some decryptedData =>
          match crt.jsonParse decryptedData with
          | none => some (Json.obj [])
          | some parsed => some parsed) with
  | none => offlineFile
  | some offlineLicenses =>
    match offlineLicenses.setProp licenseKey (offlineEntry systemHash machineId now) with
    | none => offlineFile
    | some updated =>
      if writeFails then offlineFile
      else
        FileState.content
          (ProtectionLayer.encryptOfflineData crt iv (crt.jsonStringify updated))

/-- How `launchProtectedExe` ends. -/
inductive LaunchOutcome where
  /-- There is no embedded executable (line 575). -/
  | notFound
  /-- The executable is extracted and started (line 702). -/
  | launched
  /-- An exception is caught (line 707), with its message. -/
  | failed (message : String)
deriving DecidableEq, Repr

/-- The object that `validateAndLaunch` returns. -/
structure ClientResult where
  success : Bool
  message : Json
  source : Option String
  warning : Option String
deriving Repr

/-- Method `launchProtectedExe` (lines 572-709): its result. -/
def ProtectionLayer.launchProtectedExe (outcome : LaunchOutcome) : Bool × String :=
  match outcome with
  | LaunchOutcome.notFound => (false, "Protected application not found")
  | LaunchOutcome.launched => (true, "Application launched successfully")
  | LaunchOutcome.failed message => (false, "Failed to launch application: " ++ message)

/-- The state of the client: the flag `isValidated` and the cache file. -/
structure ClientState where
  isValidated : Bool
  offlineFile : FileState
deriving DecidableEq, Repr

/-- The surroundings of one call of `validateAndLaunch`. -/
structure ClientEnv where
  os : OsInfo
  transport : Transport
  launch : LaunchOutcome
  now : Nat
  iv : List Nat
  writeFails : Bool
deriving DecidableEq, Repr

/-- The calls that `validateAndLaunch` makes to its collaborators. -/
inductive ClientEvent where
  /-- The call of `getSystemFingerprint`. -/
  | fingerprint
  /-- The request of `validateWithServer` with its body. -/
  | request (licenseKey : String) (systemFingerprint : Fingerprint)
  /-- The call of `validateOffline`. -/
  | cacheRead
  /-- The call of `saveOfflineLicense`. -/
  | cacheWrite
  /-- The call of `launchProtectedExe`. -/
  | launch
deriving DecidableEq, Repr

/-- The result of the `catch` block of lines 562-568. -/
def validationError (crt : ClientRuntime) (thrown : ClientThrown) : ClientResult :=
  { success := false,
    message := Json.str ("An error occurred during validation: " ++ crt.errorMessage thrown),
    source := none, warning := none }

/-- Method `validateAndLaunch` (lines 497-569): the result, the state
afterwards and the calls made, in order, when the request ends with the event
`env.transport`. The promise of the method for every fate of the request is
`ProtectionLayer.validateAndLaunchPromise`. -/
def ProtectionLayer.validateAndLaunch (rt : Runtime) (crt : ClientRuntime)
    (state : ClientState) (env : ClientEnv) (inputLicenseKey : KeyField) :
    ClientResult × ClientState × List ClientEvent :=
  match inputLicenseKey with
  | KeyField.str input =>
    if !keyFormatTest (jsTrim (rt.toUpperCase input)) then
      ({ success := false,
         message :=
           Json.str "Invalid license key format. Please use format: XXXX-XXXX-XXXX-XXXX",
         source := none, warning := none }, state, [])
    else
      match ProtectionLayer.getSystemFingerprint env.os with
      | none => (validationError crt ClientThrown.noCpuInfo, state, [ClientEvent.fingerprint])
      | some systemFingerprint =>
        if (ProtectionLayer.validateWithServer crt env.transport).success then
          ({ success := (ProtectionLayer.launchProtectedExe env.launch).1,
             message := Json.str (ProtectionLayer.launchProtectedExe env.launch).2,
             source := none, warning := none },
            { isValidated := true,
              offlineFile :=
                ProtectionLayer.saveOfflineLicense crt state.offlineFile
                  (jsTrim (rt.toUpperCase input))
                  (ProtectionLayer.hashSystemFingerprint rt systemFingerprint)
                  (ProtectionLayer.validateWithServer crt env.transport).machineId
                  env.now env.iv env.writeFails },
            [ClientEvent.fingerprint,
              ClientEvent.request (jsTrim (rt.toUpperCase input)) systemFingerprint,
              ClientEvent.cacheWrite, ClientEvent.launch])
        else if (ProtectionLayer.validateWithServer crt env.transport).offline then
          if (ProtectionLayer.validateOffline crt state.offlineFile
              (jsTrim (rt.toUpperCase input))
              (ProtectionLayer.hashSystemFingerprint rt systemFingerprint)).success then
            ({ success := (ProtectionLayer.launchProtectedExe env.launch).1,
               message := Json.str
                 ((ProtectionLayer.launchProtectedExe env.launch).2 ++ " (Validated offline)"),
               source := none,
               warning := some "Running in offline mode. Some features may be limited." },
              { state with isValidated := true },
              [ClientEvent.fingerprint,
                ClientEvent.request (jsTrim (rt.toUpperCase input)) systemFingerprint,
                ClientEvent.cacheRead, ClientEvent.launch])
          else
            ({ success := false,
               message := Json.str
                 ((ProtectionLayer.validateOffline crt state.offlineFile
                    (jsTrim (rt.toUpperCase input))
                    (ProtectionLayer.hashSystemFingerprint rt systemFingerprint)).message ++
                   " Please connect to the internet and try again."),
               source := none, warning := none },
              state,
              [ClientEvent.fingerprint,
                ClientEvent.request (jsTrim (rt.toUpperCase input)) systemFingerprint,
                ClientEvent.cacheRead])
        else
          ({ success := false,
             message :=
               ((ProtectionLayer.validateWithServer crt env.transport).message).getD Json.null,
             source := some "server", warning := none },
            state,
            [ClientEvent.fingerprint,
              ClientEvent.request (jsTrim (rt.toUpperCase input)) systemFingerprint])
  | _ => (validationError crt ClientThrown.notAString, state, [])

/-- The requests to the server among the calls. -/
def serverCalls (events : List ClientEvent) : List ClientEvent :=
  events.filter (fun e =>
    match e with
    | ClientEvent.request _ _ => true
    | _ => false)

/-! ## A client runtime and a client scenario for concrete evaluation -/

/-- The machine of the scenario, whose fingerprint is `scenarioF1`. -/
def scenarioOs : OsInfo :=
  { cpus := ["cpu"], platform := "linux", arch := "x64", hostname := "host-a",
    totalmem := 1024,
    networkInterfaces :=
      [("lo", [{ internal := true, mac := "00:00:00:00:00:00" }]),
        ("eth0", [{ internal := false, mac := "aa:bb:cc:dd:ee:ff" }])],
    processPlatform := "linux", motherboard := MotherboardProbe.failed }

/-- A machine on which `os.cpus()` is empty. -/
def scenarioOsNoCpu : OsInfo :=
  { scenarioOs with cpus := [] }

/-- The cache map with the entry of the scenario key for the machine of the
scenario. -/
def scenarioCache : Json :=
  Json.obj
    [(scenarioKey,
      Json.obj
        [("systemHash", Json.str (ProtectionLayer.hashSystemFingerprint evalRuntime scenarioF1)),
          ("machineId", Json.str "0123456789ABCDEF"),
          ("validatedAt", Json.num 12)])]

/-- The body of the 409 response of the scenario. -/
def scenarioConflictBody : Json :=
  Json.obj
    [("success", Json.bool false),
      ("message", Json.str (conflictMessage (some "0123456789ABCDEF")))]

/-- A client runtime used to evaluate the client on concrete inputs: the
texts `cache` and `conflict` stand for the JSON texts of `scenarioCache` and
`scenarioConflictBody`, and the cipher is the identity under an IV of sixteen
bytes. -/
def evalClientRuntime : ClientRuntime :=
  { jsonParse := fun s =>
      if s = "cache" then some scenarioCache
      else if s = "conflict" then some scenarioConflictBody
      else none,
    jsonStringify := fun _ => "cache",
    decipher := fun iv encrypted => if iv.length = 16 then some encrypted else none,
    cipher := fun _ data => data,
    errorMessage := fun t =>
      match t with
      | ClientThrown.notAString => "inputLicenseKey.toUpperCase is not a function"
      | ClientThrown.noCpuInfo => "Cannot read properties of undefined"
      | ClientThrown.invalidUrl => "Invalid URL" }

/-- A cache file that holds `scenarioCache`. -/
def scenarioCacheFile : FileState :=
  FileState.content "000102030405060708090a0b0c0d0e0f:cache"

/-- A client that is not validated and has the cache file of the scenario. -/
def scenarioClient : ClientState :=
  { isValidated := false, offlineFile := scenarioCacheFile }

/-- The surroundings in which the request ends as given. -/
def scenarioClientEnv (os : OsInfo) (transport : Transport) : ClientEnv :=
  { os := os, transport := transport, launch := LaunchOutcome.launched, now := 50,
    iv := [0, 1, 2, 3, 4, 5, 6, 7, 8, 9, 10, 11, 12, 13, 14, 15], writeFails := false }

/-! ## The offline cache: platform facts and the steps of a write -/

/-- The bytes that `crypto.randomBytes(16)` can return: sixteen bytes. -/
def IsIv (iv : List Nat) : Prop :=
  iv.length = 16 ∧ ∀ b ∈ iv, b < 256

/-- What `encryptOfflineData` and `decryptOfflineData` rely on at the text
`data` and the bytes `iv`: the text that `cipher.update(data, 'utf8', 'hex')`
and `cipher.final('hex')` return is made of hexadecimal digits, and
deciphering it under the same IV gives `data` back. -/
def Deciphers (crt : ClientRuntime) (iv : List Nat) (data : String) : Prop :=
  (∀ c ∈ (crt.cipher iv data).toList, (hexValue c).isSome = true) ∧
    crt.decipher iv (crt.cipher iv data) = some data

/-- What the cache relies on at the value `v`: `JSON.parse` reads the text
that `JSON.stringify` writes for `v` back as `v`. -/
def ParsesBack (crt : ClientRuntime) (v : Json) : Prop :=
  crt.jsonParse (crt.jsonStringify v) = some v

/-- Lines 430-441 of `saveOfflineLicense`: the value of `offlineLicenses`
before the assignment of line 443; `none` when `readFileSync` throws. -/
def offlineLicensesBefore (crt : ClientRuntime) (offlineFile : FileState) : Option Json :=
  match offlineFile with
  | FileState.missing => some (Json.obj [])
  | FileState.unreadable => none
  | FileState.content encryptedData =>
    match ProtectionLayer.decryptOfflineData crt encryptedData with
    | none => some (Json.obj [])
    | some decryptedData =>
      match crt.jsonParse decryptedData with
      | none => some (Json.obj [])
      | some parsed => some parsed

/-- Lines 430-447 of `saveOfflineLicense`: the value that line 449 passes to
`JSON.stringify`; `none` when an exception is raised before. -/
def offlineLicensesAfter (crt : ClientRuntime) (offlineFile : FileState)
    (licenseKey systemHash : String) (machineId : Option Json) (now : Nat) : Option Json :=
  match offlineLicensesBefore crt offlineFile with
  | none => none
  | some offlineLicenses =>
    offlineLicenses.setProp licenseKey (offlineEntry systemHash machineId now)

/-- The platform facts that one call of `saveOfflineLicense` relies on: the
JSON text of the map that it writes parses back to that map, and the cipher
text of that JSON text deciphers back to it. -/
def WriteLaws (crt : ClientRuntime) (offlineFile : FileState)
    (licenseKey systemHash : String) (machineId : Option Json) (now : Nat) (iv : List Nat) :
    Prop :=
  ∀ updated, offlineLicensesAfter crt offlineFile licenseKey systemHash machineId now =
      some updated →
    ParsesBack crt updated ∧ Deciphers crt iv (crt.jsonStringify updated)

/-- The cache files that the client itself produces: the file is absent, or it
is what a call of `saveOfflineLicense` for a license key leaves behind, on a
platform that reads its own texts back. -/
inductive Written (crt : ClientRuntime) : FileState → Prop where
  | absent : Written crt FileState.missing
  | write (offlineFile : FileState) (licenseKey systemHash : String)
      (machineId : Option Json) (now : Nat) (iv : List Nat) (writeFails : Bool)
      (h : Written crt offlineFile) (hkey : keyFormatTest licenseKey = true)
      (hiv : IsIv iv)
      (hlaws : WriteLaws crt offlineFile licenseKey systemHash machineId now iv) :
      Written crt
        (ProtectionLayer.saveOfflineLicense crt offlineFile licenseKey systemHash machineId
          now iv writeFails)

/-! ## A client runtime with a cipher, and cache files for it -/

/-- The body of the 200 response of the scenario. -/
def scenarioSuccessBody : Json :=
  Json.obj
    [("success", Json.bool true),
      ("message", Json.str "License activated successfully"),
      ("machineId", Json.str "0123456789ABCDEF"),
      ("activatedAt", Json.str "1970-01-01T00:00:00.010Z")]

/-- A client runtime used to evaluate the cache on concrete inputs: the texts
`cache`, `list`, `null`, `empty` and `activated` stand for the JSON texts of
`scenarioCache`, of an empty array, of `null`, of an empty object and of
`scenarioSuccessBody`; the cipher text is the hexadecimal dump of the text,
and it is deciphered under every IV of sixteen bytes. -/
def hexClientRuntime : ClientRuntime :=
  { jsonParse := fun s =>
      if s = "cache" then some scenarioCache
      else if s = "list" then some (Json.arr [])
      else if s = "null" then some Json.null
      else if s = "empty" then some (Json.obj [])
      else if s = "activated" then some scenarioSuccessBody
      else none,
    jsonStringify := fun v =>
      match v with
      | Json.arr [] => "list"
      | Json.null => "null"
      | Json.obj [] => "empty"
      | _ => "cache",
    decipher := fun iv encrypted =>
      if iv.length = 16 then
        some (String.mk ((bufferFromHex encrypted.toList).map Char.ofNat))
      else none,
    cipher := fun _ data => bufferToHex (data.toList.map Char.toNat),
    errorMessage := evalClientRuntime.errorMessage }

/-- The sixteen bytes of the scenario. -/
def scenarioIv : List Nat := [0, 1, 2, 3, 4, 5, 6, 7, 8, 9, 10, 11, 12, 13, 14, 15]

/-- The cache file that holds the text `cache` under `hexClientRuntime`. -/
def hexCacheFile : FileState :=
  FileState.content "000102030405060708090a0b0c0d0e0f:6361636865"

/-- A cache file that holds the text `list`: a JSON array. -/
def listCacheFile : FileState :=
  FileState.content "000102030405060708090a0b0c0d0e0f:6c697374"

/-- A cache file that holds the text `null`. -/
def nullCacheFile : FileState :=
  FileState.content "000102030405060708090a0b0c0d0e0f:6e756c6c"

/-- The surroundings of a call at time 12 in which the server answers 200 with
the body of the scenario. -/
def scenarioOnlineEnv : ClientEnv :=
  { os := scenarioOs, transport := Transport.response 200 "activated",
    launch := LaunchOutcome.launched, now := 12, iv := scenarioIv, writeFails := false }

/-- The surroundings of a later call in which the request fails. -/
def scenarioOfflineEnv : ClientEnv :=
  { os := scenarioOs, transport := Transport.error,
    launch := LaunchOutcome.launched, now := 99, iv := scenarioIv, writeFails := false }

/-! ## Interface reports -/

/-- The hardware addresses of a report of `os.networkInterfaces()` that line
224 keeps (not internal, not empty, not the zero address), in the order of
enumeration. -/
def reportedMacs (report : List (String × List NetworkAddress)) : List String :=
  ((report.flatMap (fun networkInterface => networkInterface.2)).filter (fun addr =>
    !addr.internal && decide (addr.mac ≠ "") &&
      decide (addr.mac ≠ "00:00:00:00:00:00"))).map (fun addr => addr.mac)

/-- A report of two interfaces. -/
def scenarioReport : List (String × List NetworkAddress) :=
  [("lo", [{ internal := true, mac := "00:00:00:00:00:00" }]),
    ("wlan0", [{ internal := false, mac := "aa:bb:cc:dd:ee:ff" }]),
    ("eth0", [{ internal := false, mac := "11:22:33:44:55:66" }])]

/-- The same interfaces, enumerated in another order. -/
def scenarioReportSwapped : List (String × List NetworkAddress) :=
  [("lo", [{ internal := true, mac := "00:00:00:00:00:00" }]),
    ("eth0", [{ internal := false, mac := "11:22:33:44:55:66" }]),
    ("wlan0", [{ internal := false, mac := "aa:bb:cc:dd:ee:ff" }])]

/-! ## Statistics -/

/-- The number of licenses that were activated within the last 24 hours
before `now`, as the claim on `recentActivations` words it; the handler
computes `recentActivations` from `createdAt` (see `apiAdminStats`). -/
def activatedWithinDay (st : Store) (now : Nat) : Nat :=
  (st.filter (fun l =>
    match l.activatedAt with
    | some t => decide ((now : Int) - 24 * 60 * 60 * 1000 ≤ (t : Int))
    | none => false)).length

/-- Three days in milliseconds: the time of the statistics scenario. -/
def scenarioNow : Nat := 259200000

/-- A license created at time 0 and activated one hour before `scenarioNow`. -/
def scenarioOldActivated : License :=
  { scenarioLicense1 with
    activatedAt := some 255600000,
    lastValidated := some 255600000,
    updatedAt := 255600000 }

/-- A license created one hour before `scenarioNow` and never activated. -/
def scenarioNewUnactivated : License :=
  newLicense 2 "NEWK-0000-0000-0001" 255600000 255600000

/-- Ambient inputs in which the clock reads `scenarioNow`. -/
def scenarioStatsEnv : Ambient :=
  { clock := fun _ => scenarioNow, randomBytes := [], random := fun _ => 0 }

/-! ## The count of a generate request -/

/-- Ambient inputs whose draws are `digitStream`. -/
def digitEnv : Ambient :=
  { clock := fun i => i, randomBytes := [], random := digitStream }

/-- A store that already holds the second key of `digitStream`. -/
def digitCollisionStore : Store := [newLicense 1 "BAAA-AAAA-AAAA-AAAA" 0 0]

/-! ## The promises of the client -/

/-- How a promise ends. -/
inductive Settlement (α : Type) where
  /-- The promise is resolved with a value. -/
  | resolved (value : α)
  /-- The promise is rejected with an error: an `await` on it throws. -/
  | rejected (thrown : ClientThrown)
  /-- The promise is never settled: an `await` on it never returns. -/
  | pending

/-- How the request of `validateWithServer` goes. -/
inductive RequestFate where
  /-- Building the request throws inside the executor of the promise (the call
  `new URL` of line 307 on a server URL that is no URL): no request is made. -/
  | notBuilt
  /-- The request is made and ends with one of the three events that the
  method listens to. -/
  | ends (transport : Transport)
  /-- The request is made, the response starts and the connection is closed
  before the event `end`: none of the listeners of lines 323-376 is called. -/
  | cut
deriving DecidableEq, Repr

/-- The promise that `validateWithServer` returns (lines 300-381): the
executor has `resolve` only; an exception inside it rejects the promise, and a
response that never ends leaves it unsettled. -/
def ProtectionLayer.validateWithServerPromise (crt : ClientRuntime) (fate : RequestFate) :
    Settlement ServerResult :=
  match fate with
  | RequestFate.notBuilt => Settlement.rejected ClientThrown.invalidUrl
  | RequestFate.ends transport =>
    Settlement.resolved (ProtectionLayer.validateWithServer crt transport)
  | RequestFate.cut => Settlement.pending

/-- The `try` block of `validateAndLaunch` (lines 498-560) with its exceptions
and its `await`s: how the block ends (a returned object, a thrown error, or
never), the state, and the calls made, in order. The request goes as `fate`
says; the field `transport` of `env` is not read. -/
def ProtectionLayer.validateAndLaunchTry (rt : Runtime) (crt : ClientRuntime)
    (state : ClientState) (env : ClientEnv) (fate : RequestFate)
    (inputLicenseKey : KeyField) :
    Settlement ClientResult × ClientState × List ClientEvent :=
  match inputLicenseKey with
  | KeyField.str input =>
    if !keyFormatTest (jsTrim (rt.toUpperCase input)) then
      (Settlement.resolved
        { success := false,
          message :=
            Json.str "Invalid license key format. Please use format: XXXX-XXXX-XXXX-XXXX",
          source := none, warning := none }, state, [])
    else
      match ProtectionLayer.getSystemFingerprint env.os with
      | none => (Settlement.rejected ClientThrown.noCpuInfo, state, [ClientEvent.fingerprint])
      | some systemFingerprint =>
        match ProtectionLayer.validateWithServerPromise crt fate with
        | Settlement.rejected thrown =>
          (Settlement.rejected thrown, state, [ClientEvent.fingerprint])
        | Settlement.pending =>
          (Settlement.pending, state,
            [ClientEvent.fingerprint,
              ClientEvent.request (jsTrim (rt.toUpperCase input)) systemFingerprint])
        | Settlement.resolved serverResult =>
          if serverResult.success then
            (Settlement.resolved
              { success := (ProtectionLayer.launchProtectedExe env.launch).1,
                message := Json.str (ProtectionLayer.launchProtectedExe env.launch).2,
                source := none, warning := none },
              { isValidated := true,
                offlineFile :=
                  ProtectionLayer.saveOfflineLicense crt state.offlineFile
                    (jsTrim (rt.toUpperCase input))
                    (ProtectionLayer.hashSystemFingerprint rt systemFingerprint)
                    serverResult.machineId env.now env.iv env.writeFails },
              [ClientEvent.fingerprint,
                ClientEvent.request (jsTrim (rt.toUpperCase input)) systemFingerprint,
                ClientEvent.cacheWrite, ClientEvent.launch])
          else if serverResult.offline then
            if (ProtectionLayer.validateOffline crt state.offlineFile
                (jsTrim (rt.toUpperCase input))
                (ProtectionLayer.hashSystemFingerprint rt systemFingerprint)).success then
              (Settlement.resolved
                { success := (ProtectionLayer.launchProtectedExe env.launch).1,
                  message := Json.str
                    ((ProtectionLayer.launchProtectedExe env.launch).2 ++
                      " (Validated offline)"),
                  source := none,
                  warning := some "Running in offline mode. Some features may be limited." },
                { state with isValidated := true },
                [ClientEvent.fingerprint,
                  ClientEvent.request (jsTrim (rt.toUpperCase input)) systemFingerprint,
                  ClientEvent.cacheRead, ClientEvent.launch])
            else
              (Settlement.resolved
                { success := false,
                  message := Json.str
                    ((ProtectionLayer.validateOffline crt state.offlineFile
                       (jsTrim (rt.toUpperCase input))
                       (ProtectionLayer.hashSystemFingerprint rt systemFingerprint)).message ++
                      " Please connect to the internet and try again."),
                  source := none, warning := none },
                state,
                [ClientEvent.fingerprint,
                  ClientEvent.request (jsTrim (rt.toUpperCase input)) systemFingerprint,
                  ClientEvent.cacheRead])
          else
            (Settlement.resolved
              { success := false,
                message := (serverResult.message).getD Json.null,
                source := some "server", warning := none },
              state,
              [ClientEvent.fingerprint,
                ClientEvent.request (jsTrim (rt.toUpperCase input)) systemFingerprint])
  | _ => (Settlement.rejected ClientThrown.notAString, state, [])

/-- The promise that the `async` method `validateAndLaunch` returns (lines
497-569): the `try` block, and the `catch` block of lines 562-568, which
returns an object for every error thrown in the `try` block. -/
def ProtectionLayer.validateAndLaunchPromise (rt : Runtime) (crt : ClientRuntime)
    (state : ClientState) (env : ClientEnv) (fate : RequestFate)
    (inputLicenseKey : KeyField) :
    Settlement ClientResult × ClientState × List ClientEvent :=
  match ProtectionLayer.validateAndLaunchTry rt crt state env fate inputLicenseKey with
  | (Settlement.rejected thrown, after, events) =>
    (Settlement.resolved (validationError crt thrown), after, events)
  | (Settlement.resolved result, after, events) => (Settlement.resolved result, after, events)
  | (Settlement.pending, after, events) => (Settlement.pending, after, events)

/-- Whether the call reaches the request: the input is a string that matches
the key pattern after upper-casing and trimming, and the fingerprint is
collected. -/
def reachesRequest (rt : Runtime) (env : ClientEnv) (inputLicenseKey : KeyField) : Bool :=
  match inputLicenseKey with
  | KeyField.str input =>
    keyFormatTest (jsTrim (rt.toUpperCase input)) &&
      (ProtectionLayer.getSystemFingerprint env.os).isSome
  | _ => false

/-! ## Lemmas on the store operations -/

theorem findOne_split {st : Store} {key : String} {l : License}
    (h : findOne st key = some l) :
    l.licenseKey = key ∧
      ∃ pre post, st = pre ++ l :: post ∧ ∀ x ∈ pre, x.licenseKey ≠ key := by
  unfold findOne at h
  rw [List.find?_eq_some] at h
  obtain ⟨hl, pre, post, hst, hpre⟩ := h
  refine ⟨by simpa using hl, pre, post, hst, ?_⟩
  intro x hx
  simpa using hpre x hx

theorem findOne_of_split {pre post : Store} {key : String} {l : License}
    (hl : l.licenseKey = key) (hpre : ∀ x ∈ pre, x.licenseKey ≠ key) :
    findOne (pre ++ l :: post) key = some l := by
  unfold findOne
  rw [List.find?_eq_some]
  refine ⟨by simpa using hl, pre, post, rfl, ?_⟩
  intro x hx
  simpa using hpre x hx

theorem findOne_eq_none {st : Store} {key : String} :
    findOne st key = none ↔ ∀ l ∈ st, l.licenseKey ≠ key := by
  unfold findOne
  simp

theorem updateOne_split (filter : License → Bool) (update : License → License)
    (pre post : Store) (l : License)
    (hpre : ∀ x ∈ pre, filter x = false) (hl : filter l = true) :
    updateOne filter update (pre ++ l :: post) = (pre ++ update l :: post, 1) := by
  induction pre with
  | nil => simp [updateOne, hl]
  | cons a rest ih =>
    have ha : filter a = false := hpre a (List.mem_cons_self a rest)
    have hrest : ∀ x ∈ rest, filter x = false :=
      fun x hx => hpre x (List.mem_cons_of_mem a hx)
    simp [updateOne, ha, ih hrest]

theorem updateOne_none (filter : License → Bool) (update : License → License)
    (st : Store) (h : ∀ x ∈ st, filter x = false) :
    updateOne filter update st = (st, 0) := by
  induction st with
  | nil => rfl
  | cons a rest ih =>
    have ha : filter a = false := h a (List.mem_cons_self a rest)
    have hrest : ∀ x ∈ rest, filter x = false :=
      fun x hx => h x (List.mem_cons_of_mem a hx)
    simp [updateOne, ha, ih hrest]

/-- Whatever holds of every document and is kept by the update holds of every
document after `updateOne`. -/
theorem updateOne_forall (P : License → Prop) (filter : License → Bool)
    (update : License → License) (st : Store)
    (hst : ∀ l ∈ st, P l) (hup : ∀ l, P l → P (update l)) :
    ∀ l ∈ (updateOne filter update st).1, P l := by
  induction st with
  | nil => simp [updateOne]
  | cons a rest ih =>
    have ha : P a := hst a (List.mem_cons_self a rest)
    have hrest : ∀ x ∈ rest, P x := fun x hx => hst x (List.mem_cons_of_mem a hx)
    intro l hl
    by_cases hf : filter a = true
    · simp [updateOne, hf] at hl
      rcases hl with rfl | hl
      · exact hup a ha
      · exact hrest l hl
    · simp [updateOne, hf] at hl
      rcases hl with rfl | hl
      · exact ha
      · exact ih hrest l hl

/-- Position by position, `updateOne` relates each document to itself or to
its update. -/
theorem updateOne_pointwise (R : License → License → Prop) (filter : License → Bool)
    (update : License → License) (hrefl : ∀ l, R l l) (hup : ∀ l, R l (update l)) :
    ∀ (st : Store) (i : Nat) (l : License), st[i]? = some l →
      ∃ l1, (updateOne filter update st).1[i]? = some l1 ∧ R l l1 := by
  intro st
  induction st with
  | nil => intro i l h; simp at h
  | cons a rest ih =>
    intro i l h
    by_cases hf : filter a = true
    · cases i with
      | zero =>
        simp at h
        subst h
        exact ⟨update a, by simp [updateOne, hf], hup a⟩
      | succ n =>
        simp at h
        exact ⟨l, by simp [updateOne, hf, h], hrefl l⟩
    · cases i with
      | zero =>
        simp at h
        subst h
        exact ⟨a, by simp [updateOne, hf], hrefl a⟩
      | succ n =>
        simp at h
        obtain ⟨l1, h1, h2⟩ := ih n l h
        exact ⟨l1, by simp [updateOne, hf, h1], h2⟩

/-- Documents before a document of a collection with distinct `_id`s have
another `_id`. -/
theorem ids_before_ne {pre post : Store} {l : License}
    (h : ((pre ++ l :: post).map (fun x => x._id)).Nodup) :
    ∀ x ∈ pre, x._id ≠ l._id := by
  intro x hx hxl
  rw [List.map_append, List.map_cons, List.nodup_append] at h
  obtain ⟨_, _, hdisj⟩ := h
  exact hdisj (List.mem_map_of_mem (fun x => x._id) hx)
    (by rw [hxl]; exact List.mem_cons_self _ _)

/-- The write of a validate or revoke on the document that `findOne` returned,
in a collection with distinct `_id`s. -/
theorem updateOne_id_split (update : License → License) {pre post : Store} {l : License}
    (h : ((pre ++ l :: post).map (fun x => x._id)).Nodup) :
    updateOne (fun x => decide (x._id = l._id)) update (pre ++ l :: post) =
      (pre ++ update l :: post, 1) := by
  apply updateOne_split
  · intro x hx
    simpa using ids_before_ne h x hx
  · simp

/-- The documents that `insertMany` adds are appended, each with the schema
defaults. -/
theorem insertMany_append (clock : Nat → Nat) (keys : List String) :
    ∀ (i : Nat) (st : Store), ∃ extra : Store,
      (insertMany clock i st keys).1 = st ++ extra ∧
      ∀ l ∈ extra, ∃ id key created updated, l = newLicense id key created updated := by
  induction keys with
  | nil => intro i st; exact ⟨[], by simp [insertMany], by simp⟩
  | cons key keys ih =>
    intro i st
    by_cases hdup : st.any (fun l => decide (l.licenseKey = key)) = true
    · exact ⟨[], by simp only [insertMany, hdup, if_true, List.append_nil], by simp⟩
    · obtain ⟨extra, h1, h2⟩ := ih (i + 1)
        (st ++ [newLicense (freshId st) key (clock (2 * i)) (clock (2 * i + 1))])
      refine ⟨newLicense (freshId st) key (clock (2 * i)) (clock (2 * i + 1)) :: extra, ?_, ?_⟩
      · simp only [insertMany, hdup]
        simpa using h1
      · intro l hl
        rcases List.mem_cons.mp hl with rfl | hl
        · exact ⟨_, _, _, _, rfl⟩
        · exact h2 l hl

/-- A generate that answers leaves the existing documents alone and appends
documents with the schema defaults. -/
theorem apiAdminGenerate_append (rt : Runtime) (st st1 : Store) (req : GenerateRequest)
    (env : Ambient) (fuel : Nat) (r : Option Response)
    (h : apiAdminGenerate rt st req env fuel = some (st1, r)) :
    ∃ extra : Store, st1 = st ++ extra ∧
      ∀ l ∈ extra, ∃ id key created updated, l = newLicense id key created updated := by
  unfold apiAdminGenerate at h
  split at h
  · cases h
    exact ⟨[], by simp, by simp⟩
  · split at h
    · cases h
    · rename_i keys _
      obtain ⟨extra, h1, h2⟩ := insertMany_append env.clock keys 0 st
      split at h
      · rename_i st2 thrown hins
        cases h
        rw [hins] at h1
        exact ⟨extra, h1, h2⟩
      · rename_i st2 hins
        cases h
        rw [hins] at h1
        exact ⟨extra, h1, h2⟩

/-! ## The branches of the validate handler -/

theorem validateRead_notFound (rt : Runtime) (st : Store) (key : String)
    (fp : Fingerprint) (ip ua : Option String) (hkey : key ≠ "")
    (h : findOne st (rt.toUpperCase key) = none) :
    validateRead rt st
        { licenseKey := KeyField.str key, systemFingerprint := some fp, ip := ip,
          userAgent := ua } =
      Plan.reply invalidLicenseKey := by
  simp [validateRead, hkey, h]

theorem validateRead_activate (rt : Runtime) (st : Store) (key : String)
    (fp : Fingerprint) (ip ua : Option String) (l : License) (hkey : key ≠ "")
    (h : findOne st (rt.toUpperCase key) = some l) (hun : l.isActivated = false) :
    validateRead rt st
        { licenseKey := KeyField.str key, systemFingerprint := some fp, ip := ip,
          userAgent := ua } =
      Plan.activate l (hashSystemFingerprint rt fp) fp := by
  simp [validateRead, hkey, h, hun]

theorem validateRead_revalidate (rt : Runtime) (st : Store) (key : String)
    (fp : Fingerprint) (ip ua : Option String) (l : License) (hkey : key ≠ "")
    (h : findOne st (rt.toUpperCase key) = some l) (hact : l.isActivated = true)
    (hfp : l.systemFingerprint = some (hashSystemFingerprint rt fp)) :
    validateRead rt st
        { licenseKey := KeyField.str key, systemFingerprint := some fp, ip := ip,
          userAgent := ua } =
      Plan.revalidate l := by
  simp [validateRead, hkey, h, hact, hfp]

theorem validateRead_conflict (rt : Runtime) (st : Store) (key : String)
    (fp : Fingerprint) (ip ua : Option String) (l : License) (hkey : key ≠ "")
    (h : findOne st (rt.toUpperCase key) = some l) (hact : l.isActivated = true)
    (hfp : l.systemFingerprint ≠ some (hashSystemFingerprint rt fp)) :
    validateRead rt st
        { licenseKey := KeyField.str key, systemFingerprint := some fp, ip := ip,
          userAgent := ua } =
      Plan.reply (messageResponse 409 false (conflictMessage l.machineId)) := by
  simp [validateRead, hkey, h, hact, hfp]

/-- First activation served alone on a collection with distinct `_id`s: the
store and the response. -/
theorem apiValidate_activate (rt : Runtime) (key : String) (fp : Fingerprint)
    (ip ua : Option String) (env : Ambient) (pre post : Store) (l : License)
    (hid : ((pre ++ l :: post).map (fun x => x._id)).Nodup) (hkey : key ≠ "")
    (hl : l.licenseKey = rt.toUpperCase key)
    (hpre : ∀ x ∈ pre, x.licenseKey ≠ rt.toUpperCase key)
    (hun : l.isActivated = false) :
    apiValidate rt (pre ++ l :: post)
        { licenseKey := KeyField.str key, systemFingerprint := some fp, ip := ip,
          userAgent := ua } env =
      (pre ++ activateUpdate
          { licenseKey := KeyField.str key, systemFingerprint := some fp, ip := ip,
            userAgent := ua } env (hashSystemFingerprint rt fp) fp l :: post,
        some { messageResponse 200 true "License activated successfully" with
          machineId := some (generateMachineId env.randomBytes),
          activatedAt := some (env.clock 3) }) := by
  unfold apiValidate
  rw [validateRead_activate rt _ key fp ip ua l hkey (findOne_of_split hl hpre) hun]
  simp only [validateWrite]
  rw [updateOne_id_split _ hid]

/-- Revalidation served alone on a collection with distinct `_id`s: the store
and the response. -/
theorem apiValidate_revalidate (rt : Runtime) (key : String) (fp : Fingerprint)
    (ip ua : Option String) (env : Ambient) (pre post : Store) (l : License)
    (hid : ((pre ++ l :: post).map (fun x => x._id)).Nodup) (hkey : key ≠ "")
    (hl : l.licenseKey = rt.toUpperCase key)
    (hpre : ∀ x ∈ pre, x.licenseKey ≠ rt.toUpperCase key)
    (hact : l.isActivated = true)
    (hfp : l.systemFingerprint = some (hashSystemFingerprint rt fp)) :
    apiValidate rt (pre ++ l :: post)
        { licenseKey := KeyField.str key, systemFingerprint := some fp, ip := ip,
          userAgent := ua } env =
      (pre ++ revalidateUpdate env l :: post,
        some { messageResponse 200 true "License validated successfully" with
          machineId := l.machineId, activatedAt := l.activatedAt }) := by
  unfold apiValidate
  rw [validateRead_revalidate rt _ key fp ip ua l hkey (findOne_of_split hl hpre) hact hfp]
  simp only [validateWrite]
  rw [updateOne_id_split _ hid]

/-- The response of a validate whose key is found is a 409 or a 200. -/
theorem apiValidate_found_status (rt : Runtime) (st : Store) (key : String)
    (fp : Fingerprint) (ip ua : Option String) (env : Ambient) (l : License)
    (hkey : key ≠ "") (hfind : findOne st (rt.toUpperCase key) = some l) :
    ∃ r : Response,
      (apiValidate rt st
        { licenseKey := KeyField.str key, systemFingerprint := some fp, ip := ip,
          userAgent := ua } env).2 = some r ∧
      (r.status = 409 ∨ r.status = 200) := by
  unfold apiValidate
  by_cases hact : l.isActivated = true
  · by_cases hfp : l.systemFingerprint = some (hashSystemFingerprint rt fp)
    · rw [validateRead_revalidate rt st key fp ip ua l hkey hfind hact hfp]
      exact ⟨_, rfl, Or.inr rfl⟩
    · rw [validateRead_conflict rt st key fp ip ua l hkey hfind hact hfp]
      exact ⟨_, rfl, Or.inl rfl⟩
  · rw [validateRead_activate rt st key fp ip ua l hkey hfind (by simpa using hact)]
    exact ⟨_, rfl, Or.inr rfl⟩

/-- A validate either answers with a status other than 200 and leaves the
store alone, or it has found the license and takes the first-activation or
the revalidation branch. -/
theorem validateRead_outcome (rt : Runtime) (st : Store) (req : ValidateRequest) :
    (∃ resp : Response, validateRead rt st req = Plan.reply resp ∧
      (resp.status = 400 ∨ resp.status = 404 ∨ resp.status = 409 ∨ resp.status = 500)) ∨
    (∃ (key : String) (fp : Fingerprint) (l : License),
      req.licenseKey = KeyField.str key ∧ key ≠ "" ∧ req.systemFingerprint = some fp ∧
      findOne st (rt.toUpperCase key) = some l ∧
      ((l.isActivated = false ∧
          validateRead rt st req = Plan.activate l (hashSystemFingerprint rt fp) fp) ∨
        (l.isActivated = true ∧
          l.systemFingerprint = some (hashSystemFingerprint rt fp) ∧
          validateRead rt st req = Plan.revalidate l))) := by
  obtain ⟨k, fpo, ip, ua⟩ := req
  cases k with
  | missing => exact Or.inl ⟨fieldsRequired, by simp [validateRead], Or.inl rfl⟩
  | nonString t =>
    cases t with
    | false => exact Or.inl ⟨fieldsRequired, by simp [validateRead], Or.inl rfl⟩
    | true =>
      cases fpo with
      | none => exact Or.inl ⟨fieldsRequired, by simp [validateRead], Or.inl rfl⟩
      | some fp =>
        exact Or.inl ⟨validationServerError, by simp [validateRead], Or.inr (Or.inr (Or.inr rfl))⟩
  | str key =>
    cases fpo with
    | none => exact Or.inl ⟨fieldsRequired, by simp [validateRead], Or.inl rfl⟩
    | some fp =>
      by_cases hkey : key = ""
      · exact Or.inl ⟨fieldsRequired, by simp [validateRead, hkey], Or.inl rfl⟩
      · cases hfind : findOne st (rt.toUpperCase key) with
        | none =>
          exact Or.inl ⟨_, validateRead_notFound rt st key fp ip ua hkey hfind,
            Or.inr (Or.inl rfl)⟩
        | some l =>
          by_cases hact : l.isActivated = true
          · by_cases hfp : l.systemFingerprint = some (hashSystemFingerprint rt fp)
            · exact Or.inr ⟨key, fp, l, rfl, hkey, rfl, hfind, Or.inr ⟨hact, hfp,
                validateRead_revalidate rt st key fp ip ua l hkey hfind hact hfp⟩⟩
            · exact Or.inl ⟨_, validateRead_conflict rt st key fp ip ua l hkey hfind hact hfp,
                Or.inr (Or.inr (Or.inl rfl))⟩
          · have hun : l.isActivated = false := by simpa using hact
            exact Or.inr ⟨key, fp, l, rfl, hkey, rfl, hfind, Or.inl ⟨hun,
              validateRead_activate rt st key fp ip ua l hkey hfind hun⟩⟩

/-! ## Invariants of the handlers -/

theorem activationInv_newLicense (id : Nat) (key : String) (created updated : Nat) :
    ActivationInv (newLicense id key created updated) := by
  simp [ActivationInv, newLicense]

theorem validateWrite_inv (st : Store) (req : ValidateRequest) (env : Ambient) (plan : Plan)
    (h : ∀ l ∈ st, ActivationInv l) :
    ∀ l ∈ (validateWrite st req env plan).1, ActivationInv l := by
  cases plan with
  | reply r => exact h
  | noReply => exact h
  | revalidate license =>
    exact updateOne_forall ActivationInv _ _ st h
      (fun l hl => by simpa [ActivationInv, revalidateUpdate] using hl)
  | activate license hashed fp =>
    exact updateOne_forall ActivationInv _ _ st h
      (fun l _ => by simp [ActivationInv, activateUpdate])

theorem apiAdminRevoke_inv (rt : Runtime) (st : Store) (req : RevokeRequest) (env : Ambient)
    (h : ∀ l ∈ st, ActivationInv l) :
    ∀ l ∈ (apiAdminRevoke rt st req env).1, ActivationInv l := by
  obtain ⟨k⟩ := req
  cases k with
  | missing => exact h
  | nonString t => exact h
  | str key =>
    exact updateOne_forall ActivationInv _ _ st h
      (fun l _ => by simp [ActivationInv, revokeUpdate])

/-- Position by position, a validate keeps `_id` and `licenseKey` of every
document and does not lower its `validationCount`. -/
theorem validateWrite_pointwise (st : Store) (req : ValidateRequest) (env : Ambient)
    (plan : Plan) (i : Nat) (l : License) (h : st[i]? = some l) :
    ∃ l1, (validateWrite st req env plan).1[i]? = some l1 ∧ l1._id = l._id ∧
      l1.licenseKey = l.licenseKey ∧ l.validationCount ≤ l1.validationCount := by
  cases plan with
  | reply r => exact ⟨l, h, rfl, rfl, le_refl _⟩
  | noReply => exact ⟨l, h, rfl, rfl, le_refl _⟩
  | revalidate license =>
    exact updateOne_pointwise
      (fun a b => b._id = a._id ∧ b.licenseKey = a.licenseKey ∧
        a.validationCount ≤ b.validationCount)
      (fun x => decide (x._id = license._id)) (revalidateUpdate env)
      (fun a => ⟨rfl, rfl, le_refl _⟩)
      (fun a => ⟨rfl, rfl, by simp [revalidateUpdate]⟩) st i l h
  | activate license hashed fp =>
    exact updateOne_pointwise
      (fun a b => b._id = a._id ∧ b.licenseKey = a.licenseKey ∧
        a.validationCount ≤ b.validationCount)
      (fun x => decide (x._id = license._id)) (activateUpdate req env hashed fp)
      (fun a => ⟨rfl, rfl, le_refl _⟩)
      (fun a => ⟨rfl, rfl, by simp [activateUpdate]⟩) st i l h

/-- Position by position, a revoke keeps `_id`, `licenseKey` and
`validationCount` of every document. -/
theorem apiAdminRevoke_pointwise (rt : Runtime) (st : Store) (req : RevokeRequest)
    (env : Ambient) (i : Nat) (l : License) (h : st[i]? = some l) :
    ∃ l1, (apiAdminRevoke rt st req env).1[i]? = some l1 ∧ l1._id = l._id ∧
      l1.licenseKey = l.licenseKey ∧ l.validationCount ≤ l1.validationCount := by
  obtain ⟨k⟩ := req
  cases k with
  | missing => exact ⟨l, h, rfl, rfl, le_refl _⟩
  | nonString t => exact ⟨l, h, rfl, rfl, le_refl _⟩
  | str key =>
    exact updateOne_pointwise
      (fun a b => b._id = a._id ∧ b.licenseKey = a.licenseKey ∧
        a.validationCount ≤ b.validationCount)
      (fun x => decide (x.licenseKey = rt.toUpperCase key)) (revokeUpdate env)
      (fun a => ⟨rfl, rfl, le_refl _⟩)
      (fun a => ⟨rfl, rfl, by simp [revokeUpdate]⟩) st i l h

/-- The `_id`s after `updateOne` with an update that keeps the `_id`. -/
theorem updateOne_ids (filter : License → Bool) (update : License → License)
    (hup : ∀ l, (update l)._id = l._id) (st : Store) :
    (updateOne filter update st).1.map (fun x => x._id) = st.map (fun x => x._id) := by
  induction st with
  | nil => rfl
  | cons a rest ih =>
    by_cases hf : filter a = true
    · simp [updateOne, hf, hup]
    · simp [updateOne, hf, ih]

/-- Every `_id` of the collection is below `freshId`. -/
theorem lt_freshId (st : Store) : ∀ l ∈ st, l._id < freshId st := by
  induction st with
  | nil => simp
  | cons a rest ih =>
    intro l hl
    simp only [freshId, List.map_cons, List.foldr_cons] at ih ⊢
    rcases List.mem_cons.mp hl with rfl | hl
    · omega
    · have := ih l hl
      omega

/-- Function `insertMany` keeps the `_id`s distinct. -/
theorem insertMany_ids_nodup (clock : Nat → Nat) (keys : List String) :
    ∀ (i : Nat) (st : Store), (st.map (fun x => x._id)).Nodup →
      ((insertMany clock i st keys).1.map (fun x => x._id)).Nodup := by
  induction keys with
  | nil => intro i st h; simpa [insertMany] using h
  | cons key keys ih =>
    intro i st h
    by_cases hdup : st.any (fun l => decide (l.licenseKey = key)) = true
    · simpa only [insertMany, hdup, if_true] using h
    · simp only [insertMany, hdup]
      apply ih
      rw [List.map_append, List.nodup_append]
      refine ⟨h, by simp, ?_⟩
      intro a ha hb
      simp only [List.map_cons, List.map_nil, List.mem_singleton, newLicense] at hb
      obtain ⟨l, hl, rfl⟩ := List.mem_map.mp ha
      have := lt_freshId st l hl
      omega

/-- Every answered request keeps the `_id`s of the collection distinct. -/
theorem step_ids_nodup (rt : Runtime) (st st1 : Store) (op : Op) (r : Option Response)
    (hs : step rt st op = some (st1, r)) (hid : (st.map (fun x => x._id)).Nodup) :
    (st1.map (fun x => x._id)).Nodup := by
  cases op with
  | validate req env =>
    simp only [step, Option.some.injEq] at hs
    unfold apiValidate at hs
    have h1 : (validateWrite st req env (validateRead rt st req)).1.map (fun x => x._id) =
        st.map (fun x => x._id) := by
      cases validateRead rt st req with
      | reply r => rfl
      | noReply => rfl
      | revalidate license =>
        exact updateOne_ids (fun x => decide (x._id = license._id)) (revalidateUpdate env)
          (fun _ => rfl) st
      | activate license hashed fp =>
        exact updateOne_ids (fun x => decide (x._id = license._id))
          (activateUpdate req env hashed fp) (fun _ => rfl) st
    rw [hs] at h1
    rw [h1]
    exact hid
  | revoke req env =>
    simp only [step, Option.some.injEq] at hs
    have h1 : (apiAdminRevoke rt st req env).1.map (fun x => x._id) =
        st.map (fun x => x._id) := by
      obtain ⟨k⟩ := req
      cases k with
      | missing => rfl
      | nonString t => rfl
      | str key =>
        exact updateOne_ids (fun x => decide (x.licenseKey = rt.toUpperCase key))
          (revokeUpdate env) (fun _ => rfl) st
    rw [hs] at h1
    rw [h1]
    exact hid
  | generate req env fuel =>
    simp only [step] at hs
    unfold apiAdminGenerate at hs
    split at hs
    · cases hs
      exact hid
    · split at hs
      · cases hs
      · rename_i keys _
        have h1 := insertMany_ids_nodup env.clock keys 0 st hid
        split at hs
        · rename_i st2 thrown hins
          cases hs
          rw [hins] at h1
          exact h1
        · rename_i st2 hins
          cases hs
          rw [hins] at h1
          exact h1

/-- The validate handler always sends a response. -/
theorem apiValidate_responds (rt : Runtime) (st : Store) (req : ValidateRequest)
    (env : Ambient) : ∃ r : Response, (apiValidate rt st req env).2 = some r := by
  unfold apiValidate
  rcases validateRead_outcome rt st req with ⟨resp, hplan, _⟩ | ⟨_, _, l, _, _, _, _, hbr⟩
  · rw [hplan]
    exact ⟨resp, rfl⟩
  · rcases hbr with ⟨_, hplan⟩ | ⟨_, _, hplan⟩
    · rw [hplan]
      exact ⟨_, rfl⟩
    · rw [hplan]
      exact ⟨_, rfl⟩

/-! ## Machine identifiers -/

theorem hexDigitUpper_injective :
    ∀ n < 16, ∀ m < 16, hexDigitUpper n = hexDigitUpper m → n = m := by
  decide

/-- The two digits of a byte determine the byte. -/
theorem hexByte_injective (a b : Nat) (ha : a < 256) (hb : b < 256)
    (h1 : hexDigitUpper (a / 16 % 16) = hexDigitUpper (b / 16 % 16))
    (h2 : hexDigitUpper (a % 16) = hexDigitUpper (b % 16)) : a = b := by
  have e1 := hexDigitUpper_injective _ (Nat.mod_lt _ (by decide)) _ (Nat.mod_lt _ (by decide)) h1
  have e2 := hexDigitUpper_injective _ (Nat.mod_lt _ (by decide)) _ (Nat.mod_lt _ (by decide)) h2
  omega

/-- The digits of a byte sequence determine the sequence. -/
theorem hexChars_injective :
    ∀ (b1 b2 : List Nat), (∀ b ∈ b1, b < 256) → (∀ b ∈ b2, b < 256) →
      b1.flatMap (fun b => [hexDigitUpper (b / 16 % 16), hexDigitUpper (b % 16)]) =
        b2.flatMap (fun b => [hexDigitUpper (b / 16 % 16), hexDigitUpper (b % 16)]) →
      b1 = b2 := by
  intro b1
  induction b1 with
  | nil =>
    intro b2 _ _ h
    cases b2 with
    | nil => rfl
    | cons c cs => simp at h
  | cons a as ih =>
    intro b2 h1 h2 h
    cases b2 with
    | nil => simp at h
    | cons c cs =>
      simp only [List.flatMap_cons, List.cons_append, List.nil_append, List.cons.injEq] at h
      obtain ⟨e1, e2, e3⟩ := h
      have hac : a = c := hexByte_injective a c (h1 a (List.mem_cons_self _ _))
        (h2 c (List.mem_cons_self _ _)) e1 e2
      have hrest : as = cs := ih cs (fun b hb => h1 b (List.mem_cons_of_mem _ hb))
        (fun b hb => h2 b (List.mem_cons_of_mem _ hb)) e3
      rw [hac, hrest]

/-- Function `generateMachineId` is injective on byte sequences. -/
theorem generateMachineId_injective (b1 b2 : List Nat) (h1 : ∀ b ∈ b1, b < 256)
    (h2 : ∀ b ∈ b2, b < 256) (h : generateMachineId b1 = generateMachineId b2) :
    b1 = b2 :=
  hexChars_injective b1 b2 h1 h2 (congrArg String.data h)

/-! ## Revalidation and conflict -/

/-- C1. Idempotent revalidation: when the license of key `K` exists and is
unactivated (in a collection with distinct `_id`s), a validate of `(K, F)`
followed at once by a second validate of `(K, F)` answers 200 with
`success: true` both times, and the second response carries the `machineId`
of the first. -/
theorem C1_idempotent_revalidation (rt : Runtime) (st : Store) (key : String)
    (fp : Fingerprint) (ip1 ua1 ip2 ua2 : Option String) (env1 env2 : Ambient)
    (l : License)
    (hid : (st.map (fun x => x._id)).Nodup) (hkey : key ≠ "")
    (hfind : findOne st (rt.toUpperCase key) = some l)
    (hun : l.isActivated = false) :
    ∃ r1 r2 : Response,
      (apiValidate rt st
        { licenseKey := KeyField.str key, systemFingerprint := some fp, ip := ip1,
          userAgent := ua1 } env1).2 = some r1 ∧
      (apiValidate rt
        (apiValidate rt st
          { licenseKey := KeyField.str key, systemFingerprint := some fp, ip := ip1,
            userAgent := ua1 } env1).1
        { licenseKey := KeyField.str key, systemFingerprint := some fp, ip := ip2,
          userAgent := ua2 } env2).2 = some r2 ∧
      r1.status = 200 ∧ r1.success = some true ∧
      r2.status = 200 ∧ r2.success = some true ∧
      r1.machineId = some (generateMachineId env1.randomBytes) ∧
      r2.machineId = r1.machineId := by
  obtain ⟨hl, pre, post, rfl, hpre⟩ := findOne_split hfind
  rw [apiValidate_activate rt key fp ip1 ua1 env1 pre post l hid hkey hl hpre hun]
  simp only
  rw [apiValidate_revalidate rt key fp ip2 ua2 env2 pre post _
    (by simpa [activateUpdate] using hid) hkey
    (by simpa [activateUpdate] using hl) hpre (by simp [activateUpdate])
    (by simp [activateUpdate])]
  refine ⟨_, _, rfl, rfl, ?_⟩
  simp [messageResponse, emptyResponse, activateUpdate]

/-- C1 at the scenario: the freshly generated license, validated twice with
`F1`. -/
theorem C1_idempotent_revalidation_witness :
    ((List.map (fun x => x._id) scenarioStore).Nodup ∧
      "test-0001-aaaa-bbbb" ≠ "" ∧
      findOne scenarioStore (evalRuntime.toUpperCase "test-0001-aaaa-bbbb") =
        some (newLicense 1 scenarioKey 0 0) ∧
      (newLicense 1 scenarioKey 0 0).isActivated = false) ∧
    ∃ r1 r2 : Response,
      (apiValidate evalRuntime scenarioStore
        { licenseKey := KeyField.str "test-0001-aaaa-bbbb",
          systemFingerprint := some scenarioF1, ip := none, userAgent := none }
        (scenarioEnv 10 scenarioBytes1)).2 = some r1 ∧
      (apiValidate evalRuntime
        (apiValidate evalRuntime scenarioStore
          { licenseKey := KeyField.str "test-0001-aaaa-bbbb",
            systemFingerprint := some scenarioF1, ip := none, userAgent := none }
          (scenarioEnv 10 scenarioBytes1)).1
        { licenseKey := KeyField.str "test-0001-aaaa-bbbb",
          systemFingerprint := some scenarioF1, ip := none, userAgent := none }
        (scenarioEnv 20 scenarioBytes2)).2 = some r2 ∧
      r1.status = 200 ∧ r1.success = some true ∧
      r2.status = 200 ∧ r2.success = some true ∧
      r1.machineId = some (generateMachineId (scenarioEnv 10 scenarioBytes1).randomBytes) ∧
      r2.machineId = r1.machineId :=
  ⟨⟨by decide, by decide, by decide, by decide⟩,
    C1_idempotent_revalidation evalRuntime scenarioStore "test-0001-aaaa-bbbb" scenarioF1
      none none none none (scenarioEnv 10 scenarioBytes1) (scenarioEnv 20 scenarioBytes2)
      (newLicense 1 scenarioKey 0 0) (by decide) (by decide) (by decide) (by decide)⟩

/-- C2. Conflict without mutation: when the license of key `K` is activated
with stored hash `hashSystemFingerprint(F1)` and the hash of `F2` is another
one, a validate of `(K, F2)` answers 409 with `success: false` (the message
names the bound `machineId`) and returns the store as it was, and a validate
of `(K, F1)` that follows answers 200 with `success: true` and the stored
`machineId`. -/
theorem C2_conflict_without_mutation (rt : Runtime) (st : Store) (key : String)
    (fp1 fp2 : Fingerprint) (ip1 ua1 ip2 ua2 : Option String) (env1 env2 : Ambient)
    (l : License) (hkey : key ≠ "")
    (hfind : findOne st (rt.toUpperCase key) = some l)
    (hact : l.isActivated = true)
    (hfp : l.systemFingerprint = some (hashSystemFingerprint rt fp1))
    (hne : hashSystemFingerprint rt fp2 ≠ hashSystemFingerprint rt fp1) :
    apiValidate rt st
        { licenseKey := KeyField.str key, systemFingerprint := some fp2, ip := ip2,
          userAgent := ua2 } env2 =
      (st, some (messageResponse 409 false (conflictMessage l.machineId))) ∧
    (messageResponse 409 false (conflictMessage l.machineId)).status = 409 ∧
    (messageResponse 409 false (conflictMessage l.machineId)).success = some false ∧
    ∃ r : Response,
      (apiValidate rt
        (apiValidate rt st
          { licenseKey := KeyField.str key, systemFingerprint := some fp2, ip := ip2,
            userAgent := ua2 } env2).1
        { licenseKey := KeyField.str key, systemFingerprint := some fp1, ip := ip1,
          userAgent := ua1 } env1).2 = some r ∧
      r.status = 200 ∧ r.success = some true ∧ r.machineId = l.machineId := by
  have hfp2 : l.systemFingerprint ≠ some (hashSystemFingerprint rt fp2) := by
    rw [hfp]
    intro h
    exact hne (Option.some.inj h).symm
  have h409 : apiValidate rt st
        { licenseKey := KeyField.str key, systemFingerprint := some fp2, ip := ip2,
          userAgent := ua2 } env2 =
      (st, some (messageResponse 409 false (conflictMessage l.machineId))) := by
    unfold apiValidate
    rw [validateRead_conflict rt st key fp2 ip2 ua2 l hkey hfind hact hfp2]
    rfl
  refine ⟨h409, rfl, rfl, ?_⟩
  rw [h409]
  unfold apiValidate
  rw [validateRead_revalidate rt st key fp1 ip1 ua1 l hkey hfind hact hfp]
  exact ⟨_, rfl, rfl, rfl, rfl⟩

/-- C2 at the scenario: the license activated under `F1` (host-a), validated
with `F2` (host-b) and then with `F1` again. -/
theorem C2_conflict_without_mutation_witness :
    ("test-0001-aaaa-bbbb" ≠ "" ∧
      findOne scenarioActivated (evalRuntime.toUpperCase "test-0001-aaaa-bbbb") =
        some scenarioLicense1 ∧
      scenarioLicense1.isActivated = true ∧
      scenarioLicense1.systemFingerprint =
        some (hashSystemFingerprint evalRuntime scenarioF1) ∧
      hashSystemFingerprint evalRuntime scenarioF2 ≠
        hashSystemFingerprint evalRuntime scenarioF1) ∧
    apiValidate evalRuntime scenarioActivated
        { licenseKey := KeyField.str "test-0001-aaaa-bbbb",
          systemFingerprint := some scenarioF2, ip := none, userAgent := none }
        (scenarioEnv 20 scenarioBytes2) =
      (scenarioActivated,
        some (messageResponse 409 false (conflictMessage scenarioLicense1.machineId))) ∧
    (messageResponse 409 false (conflictMessage scenarioLicense1.machineId)).status = 409 ∧
    (messageResponse 409 false (conflictMessage scenarioLicense1.machineId)).success =
      some false ∧
    ∃ r : Response,
      (apiValidate evalRuntime
        (apiValidate evalRuntime scenarioActivated
          { licenseKey := KeyField.str "test-0001-aaaa-bbbb",
            systemFingerprint := some scenarioF2, ip := none, userAgent := none }
          (scenarioEnv 20 scenarioBytes2)).1
        { licenseKey := KeyField.str "test-0001-aaaa-bbbb",
          systemFingerprint := some scenarioF1, ip := none, userAgent := none }
        (scenarioEnv 30 scenarioBytes2)).2 = some r ∧
      r.status = 200 ∧ r.success = some true ∧ r.machineId = scenarioLicense1.machineId :=
  ⟨⟨by decide, by decide, by decide, by decide, by decide⟩,
    C2_conflict_without_mutation evalRuntime scenarioActivated "test-0001-aaaa-bbbb"
      scenarioF1 scenarioF2 none none none none (scenarioEnv 30 scenarioBytes2)
      (scenarioEnv 20 scenarioBytes2) scenarioLicense1
      (by decide) (by decide) (by decide) (by decide) (by decide)⟩

/-! ## The activation invariant -/

/-- C3. Activation invariant: in every store that the server reaches from
freshly generated licenses by validate, revoke and generate requests, every
license has `isActivated = true` exactly when both `systemFingerprint` and
`machineId` are non-null. -/
theorem C3_activation_invariant (rt : Runtime) (st : Store) (h : Reachable rt st) :
    ∀ l ∈ st,
      (l.isActivated = true ↔ (l.systemFingerprint ≠ none ∧ l.machineId ≠ none)) := by
  induction h with
  | fresh st hst =>
    intro l hl
    obtain ⟨id, key, created, updated, rfl⟩ := hst l hl
    exact activationInv_newLicense id key created updated
  | step st st1 op r _ hs ih =>
    cases op with
    | validate req env =>
      simp only [step, Option.some.injEq] at hs
      have := validateWrite_inv st req env (validateRead rt st req) ih
      unfold apiValidate at hs
      rw [hs] at this
      exact this
    | revoke req env =>
      simp only [step, Option.some.injEq] at hs
      have := apiAdminRevoke_inv rt st req env ih
      rw [hs] at this
      exact this
    | generate req env fuel =>
      simp only [step] at hs
      obtain ⟨extra, rfl, hnew⟩ := apiAdminGenerate_append rt st st1 req env fuel r hs
      intro l hl
      rcases List.mem_append.mp hl with hl | hl
      · exact ih l hl
      · obtain ⟨id, key, created, updated, rfl⟩ := hnew l hl
        exact activationInv_newLicense id key created updated

/-- The scenario store after validate and revoke is reachable. -/
theorem scenarioRevoked_reachable : Reachable evalRuntime scenarioRevoked :=
  Reachable.step scenarioActivated scenarioRevoked
    (Op.revoke scenarioRevoke (scenarioEnv 20 []))
    (some (messageResponse 200 true "License revoked successfully"))
    (Reachable.step scenarioStore scenarioActivated
      (Op.validate (scenarioValidate scenarioF1) (scenarioEnv 10 scenarioBytes1))
      (apiValidate evalRuntime scenarioStore (scenarioValidate scenarioF1)
        (scenarioEnv 10 scenarioBytes1)).2
      (Reachable.fresh scenarioStore
        (fun l hl => ⟨1, scenarioKey, 0, 0, List.mem_singleton.mp hl⟩))
      rfl)
    (by decide)

/-- C3 at the scenario: the store after validate and revoke. -/
theorem C3_activation_invariant_witness :
    Reachable evalRuntime scenarioRevoked ∧
    ∀ l ∈ scenarioRevoked,
      (l.isActivated = true ↔ (l.systemFingerprint ≠ none ∧ l.machineId ≠ none)) :=
  ⟨scenarioRevoked_reachable,
    C3_activation_invariant evalRuntime scenarioRevoked scenarioRevoked_reachable⟩

/-! ## First activation -/

/-- C4. The check-then-write race of first activation: when the license of key
`K` is unactivated and two validate requests for `K` both run their `findOne`
before either runs its `updateOne`, both writes are applied (the filter of
`updateOne` is the `_id` alone) and both requests are answered 200 with
`success: true`, each with the `machineId` drawn for it; the store is left
bound to the fingerprint of the second writer, with the counter raised
twice. -/
theorem C4_race_double_activation (rt : Runtime) (st : Store) (key : String)
    (fpA fpB : Fingerprint) (ipA uaA ipB uaB : Option String) (envA envB : Ambient)
    (l : License)
    (hid : (st.map (fun x => x._id)).Nodup) (hkey : key ≠ "")
    (hfind : findOne st (rt.toUpperCase key) = some l)
    (hun : l.isActivated = false) :
    ∃ (st2 : Store) (rA rB : Response) (l2 : License),
      validateRace rt st
        { licenseKey := KeyField.str key, systemFingerprint := some fpA, ip := ipA,
          userAgent := uaA } envA
        { licenseKey := KeyField.str key, systemFingerprint := some fpB, ip := ipB,
          userAgent := uaB } envB = (st2, some rA, some rB) ∧
      rA.status = 200 ∧ rA.success = some true ∧
      rA.message = some "License activated successfully" ∧
      rA.machineId = some (generateMachineId envA.randomBytes) ∧
      rB.status = 200 ∧ rB.success = some true ∧
      rB.message = some "License activated successfully" ∧
      rB.machineId = some (generateMachineId envB.randomBytes) ∧
      findOne st2 (rt.toUpperCase key) = some l2 ∧
      l2.systemFingerprint = some (hashSystemFingerprint rt fpB) ∧
      l2.machineId = some (generateMachineId envB.randomBytes) ∧
      l2.validationCount = l.validationCount + 2 := by
  obtain ⟨hl, pre, post, rfl, hpre⟩ := findOne_split hfind
  unfold validateRace
  rw [validateRead_activate rt _ key fpA ipA uaA l hkey hfind hun,
    validateRead_activate rt _ key fpB ipB uaB l hkey hfind hun]
  simp only [validateWrite]
  rw [updateOne_id_split _ hid]
  simp only
  have hid2 : ((pre ++ activateUpdate
      { licenseKey := KeyField.str key, systemFingerprint := some fpA, ip := ipA,
        userAgent := uaA } envA (hashSystemFingerprint rt fpA) fpA l :: post).map
      (fun x => x._id)).Nodup := by
    simpa [activateUpdate] using hid
  have hw := updateOne_id_split (activateUpdate
      { licenseKey := KeyField.str key, systemFingerprint := some fpB, ip := ipB,
        userAgent := uaB } envB (hashSystemFingerprint rt fpB) fpB) hid2
  have hsame : (activateUpdate
      { licenseKey := KeyField.str key, systemFingerprint := some fpA, ip := ipA,
        userAgent := uaA } envA (hashSystemFingerprint rt fpA) fpA l)._id = l._id := rfl
  rw [hsame] at hw
  rw [hw]
  refine ⟨_, _, _, _, rfl, rfl, rfl, rfl, rfl, rfl, rfl, rfl, rfl,
    findOne_of_split (by simpa [activateUpdate] using hl) hpre, rfl, rfl, ?_⟩
  simp [activateUpdate]

/-- C4, the race at the scenario of the specification: the fingerprints have
different digests, and each of the two machines is answered 200 with a
`machineId` of its own. -/
theorem C4_race_double_activation_witness :
    ((List.map (fun x => x._id) scenarioStore).Nodup ∧
      findOne scenarioStore (evalRuntime.toUpperCase "test-0001-aaaa-bbbb") =
        some (newLicense 1 scenarioKey 0 0)) ∧
    generateMachineId scenarioBytes1 ≠ generateMachineId scenarioBytes2 ∧
    hashSystemFingerprint evalRuntime scenarioF1 ≠
      hashSystemFingerprint evalRuntime scenarioF2 ∧
    ∃ (st2 : Store) (rA rB : Response) (l2 : License),
      validateRace evalRuntime scenarioStore
        { licenseKey := KeyField.str "test-0001-aaaa-bbbb",
          systemFingerprint := some scenarioF1, ip := some "10.0.0.1", userAgent := none }
        (scenarioEnv 10 scenarioBytes1)
        { licenseKey := KeyField.str "test-0001-aaaa-bbbb",
          systemFingerprint := some scenarioF2, ip := some "10.0.0.2", userAgent := none }
        (scenarioEnv 11 scenarioBytes2) = (st2, some rA, some rB) ∧
      rA.status = 200 ∧ rA.success = some true ∧
      rA.message = some "License activated successfully" ∧
      rA.machineId = some (generateMachineId scenarioBytes1) ∧
      rB.status = 200 ∧ rB.success = some true ∧
      rB.message = some "License activated successfully" ∧
      rB.machineId = some (generateMachineId scenarioBytes2) ∧
      findOne st2 (evalRuntime.toUpperCase "test-0001-aaaa-bbbb") = some l2 ∧
      l2.systemFingerprint = some (hashSystemFingerprint evalRuntime scenarioF2) ∧
      l2.machineId = some (generateMachineId scenarioBytes2) ∧
      l2.validationCount = (newLicense 1 scenarioKey 0 0).validationCount + 2 :=
  ⟨⟨by decide, by decide⟩, by decide, by decide,
    C4_race_double_activation evalRuntime scenarioStore "test-0001-aaaa-bbbb"
      scenarioF1 scenarioF2 (some "10.0.0.1") none (some "10.0.0.2") none
      (scenarioEnv 10 scenarioBytes1) (scenarioEnv 11 scenarioBytes2)
      (newLicense 1 scenarioKey 0 0) (by decide) (by decide) (by decide) (by decide)⟩

/-- C5 as stated fails: the scenario license is activated (count 1), revoked
and activated again; the second first-activation is answered 200 and leaves
`validationCount` at 2, not 1. -/
theorem C5_counterexample :
    (findOne scenarioRevoked scenarioKey).map (fun l => (l.isActivated, l.validationCount)) =
      some (false, 1) ∧
    (apiValidate evalRuntime scenarioRevoked (scenarioValidate scenarioF2)
        (scenarioEnv 30 scenarioBytes2)).2.map (fun r => (r.status, r.message)) =
      some (200, some "License activated successfully") ∧
    (findOne
        (apiValidate evalRuntime scenarioRevoked (scenarioValidate scenarioF2)
          (scenarioEnv 30 scenarioBytes2)).1 scenarioKey).map
        (fun l => l.validationCount) = some 2 := by
  decide

/-- C5, amended. First activation raises `validationCount` by 1: when the
license of key `K` is unactivated (in a collection with distinct `_id`s), a
validate of `(K, F)` is answered 200 as a first activation and the stored
`validationCount` of `K` is afterwards its former value plus 1; it is 1 when
the former value is 0, as for a license that was never validated. -/
theorem C5_first_activation_increments (rt : Runtime) (st : Store) (key : String)
    (fp : Fingerprint) (ip ua : Option String) (env : Ambient) (l : License)
    (hid : (st.map (fun x => x._id)).Nodup) (hkey : key ≠ "")
    (hfind : findOne st (rt.toUpperCase key) = some l)
    (hun : l.isActivated = false) :
    ∃ (r : Response) (l1 : License),
      (apiValidate rt st
        { licenseKey := KeyField.str key, systemFingerprint := some fp, ip := ip,
          userAgent := ua } env).2 = some r ∧
      r.status = 200 ∧ r.success = some true ∧
      r.message = some "License activated successfully" ∧
      findOne
        (apiValidate rt st
          { licenseKey := KeyField.str key, systemFingerprint := some fp, ip := ip,
            userAgent := ua } env).1 (rt.toUpperCase key) = some l1 ∧
      l1.isActivated = true ∧
      l1.validationCount = l.validationCount + 1 ∧
      (l.validationCount = 0 → l1.validationCount = 1) := by
  obtain ⟨hl, pre, post, rfl, hpre⟩ := findOne_split hfind
  rw [apiValidate_activate rt key fp ip ua env pre post l hid hkey hl hpre hun]
  refine ⟨_, _, rfl, rfl, rfl, rfl,
    findOne_of_split (by simpa [activateUpdate] using hl) hpre, rfl, rfl, ?_⟩
  intro h0
  simp [activateUpdate, h0]

/-- C5, amended, at the scenario: the freshly generated license has
`validationCount` 1 after its first activation. -/
theorem C5_first_activation_increments_witness :
    ((List.map (fun x => x._id) scenarioStore).Nodup ∧
      findOne scenarioStore (evalRuntime.toUpperCase "test-0001-aaaa-bbbb") =
        some (newLicense 1 scenarioKey 0 0) ∧
      (newLicense 1 scenarioKey 0 0).isActivated = false) ∧
    ∃ (r : Response) (l1 : License),
      (apiValidate evalRuntime scenarioStore
        { licenseKey := KeyField.str "test-0001-aaaa-bbbb",
          systemFingerprint := some scenarioF1, ip := none, userAgent := none }
        (scenarioEnv 10 scenarioBytes1)).2 = some r ∧
      r.status = 200 ∧ r.success = some true ∧
      r.message = some "License activated successfully" ∧
      findOne
        (apiValidate evalRuntime scenarioStore
          { licenseKey := KeyField.str "test-0001-aaaa-bbbb",
            systemFingerprint := some scenarioF1, ip := none, userAgent := none }
          (scenarioEnv 10 scenarioBytes1)).1
        (evalRuntime.toUpperCase "test-0001-aaaa-bbbb") = some l1 ∧
      l1.isActivated = true ∧
      l1.validationCount = (newLicense 1 scenarioKey 0 0).validationCount + 1 ∧
      ((newLicense 1 scenarioKey 0 0).validationCount = 0 → l1.validationCount = 1) :=
  ⟨⟨by decide, by decide, by decide⟩,
    C5_first_activation_increments evalRuntime scenarioStore "test-0001-aaaa-bbbb"
      scenarioF1 none none (scenarioEnv 10 scenarioBytes1) (newLicense 1 scenarioKey 0 0)
      (by decide) (by decide) (by decide) (by decide)⟩

/-! ## The validation counter -/

/-- C6. The counter `validationCount` is monotone: for every store and every
request (validate, revoke, generate) that is answered, each license of the
store is afterwards at the same position with the same `_id` and key and a
`validationCount` not below the one before. A validate answered with 400, 404
or 409 leaves the whole store unchanged; a validate answered with 200 (first
activation or revalidation, in a collection with distinct `_id`s) raises the
`validationCount` of the license of the requested key by exactly 1 and leaves
the other licenses unchanged. -/
theorem C6_validation_count_monotone (rt : Runtime) (st st1 : Store) (op : Op)
    (r : Option Response) (hs : step rt st op = some (st1, r)) :
    (∀ (i : Nat) (l : License), st[i]? = some l →
      ∃ l1, st1[i]? = some l1 ∧ l1._id = l._id ∧ l1.licenseKey = l.licenseKey ∧
        l.validationCount ≤ l1.validationCount) ∧
    (∀ (req : ValidateRequest) (env : Ambient) (resp : Response),
      op = Op.validate req env → r = some resp →
      ((resp.status = 400 ∨ resp.status = 404 ∨ resp.status = 409) → st1 = st) ∧
      (resp.status = 200 → (st.map (fun x => x._id)).Nodup →
        resp.success = some true ∧
        ∃ (key : String) (pre post : Store) (l l1 : License),
          req.licenseKey = KeyField.str key ∧
          findOne st (rt.toUpperCase key) = some l ∧
          findOne st1 (rt.toUpperCase key) = some l1 ∧
          st = pre ++ l :: post ∧ st1 = pre ++ l1 :: post ∧
          l1.validationCount = l.validationCount + 1)) := by
  constructor
  · intro i l hl
    cases op with
    | validate req env =>
      simp only [step, Option.some.injEq] at hs
      have := validateWrite_pointwise st req env (validateRead rt st req) i l hl
      unfold apiValidate at hs
      rw [hs] at this
      exact this
    | revoke req env =>
      simp only [step, Option.some.injEq] at hs
      have := apiAdminRevoke_pointwise rt st req env i l hl
      rw [hs] at this
      exact this
    | generate req env fuel =>
      simp only [step] at hs
      obtain ⟨extra, rfl, _⟩ := apiAdminGenerate_append rt st st1 req env fuel r hs
      have hi : i < st.length := by
        by_contra hcon
        rw [List.getElem?_eq_none (by omega)] at hl
        cases hl
      exact ⟨l, by rw [List.getElem?_append_left hi]; exact hl, rfl, rfl, le_refl _⟩
  · intro req env resp hop hr
    subst hop
    subst hr
    simp only [step, Option.some.injEq] at hs
    unfold apiValidate at hs
    rcases validateRead_outcome rt st req with ⟨resp1, hplan, hstat⟩ | ⟨key, fp, l, hk, hkey, hfp, hfind, hbr⟩
    · rw [hplan] at hs
      simp only [validateWrite, Prod.mk.injEq, Option.some.injEq] at hs
      obtain ⟨rfl, rfl⟩ := hs
      refine ⟨fun _ => rfl, fun h200 => ?_⟩
      omega
    · obtain ⟨k, fpo, ip, ua⟩ := req
      simp only at hk hfp
      subst hk
      subst hfp
      obtain ⟨hl, pre, post, rfl, hpre⟩ := findOne_split hfind
      rcases hbr with ⟨hun, hplan⟩ | ⟨hact, hhash, hplan⟩
      · rw [hplan] at hs
        simp only [validateWrite, Prod.mk.injEq, Option.some.injEq] at hs
        obtain ⟨hst1, rfl⟩ := hs
        constructor
        · intro h
          simp [messageResponse, emptyResponse] at h
        · intro _ hid
          rw [updateOne_id_split _ hid] at hst1
          subst hst1
          exact ⟨rfl, key, pre, post, l, _, rfl, hfind,
            findOne_of_split (by simpa [activateUpdate] using hl) hpre, rfl, rfl,
            by simp [activateUpdate]⟩
      · rw [hplan] at hs
        simp only [validateWrite, Prod.mk.injEq, Option.some.injEq] at hs
        obtain ⟨hst1, rfl⟩ := hs
        constructor
        · intro h
          simp [messageResponse, emptyResponse] at h
        · intro _ hid
          rw [updateOne_id_split _ hid] at hst1
          subst hst1
          exact ⟨rfl, key, pre, post, l, _, rfl, hfind,
            findOne_of_split (by simpa [revalidateUpdate] using hl) hpre, rfl, rfl,
            by simp [revalidateUpdate]⟩

/-- C6 at the scenario: a revalidation of the activated license raises its
counter from 1 to 2. -/
theorem C6_validation_count_monotone_witness :
    step evalRuntime scenarioActivated
        (Op.validate (scenarioValidate scenarioF1) (scenarioEnv 40 [])) =
      some ((apiValidate evalRuntime scenarioActivated (scenarioValidate scenarioF1)
          (scenarioEnv 40 [])).1,
        (apiValidate evalRuntime scenarioActivated (scenarioValidate scenarioF1)
          (scenarioEnv 40 [])).2) ∧
    ((apiValidate evalRuntime scenarioActivated (scenarioValidate scenarioF1)
        (scenarioEnv 40 [])).1.map (fun l => l.validationCount) = [2] ∧
      scenarioActivated.map (fun l => l.validationCount) = [1]) ∧
    ((∀ (i : Nat) (l : License), scenarioActivated[i]? = some l →
      ∃ l1, (apiValidate evalRuntime scenarioActivated (scenarioValidate scenarioF1)
          (scenarioEnv 40 [])).1[i]? = some l1 ∧ l1._id = l._id ∧
        l1.licenseKey = l.licenseKey ∧ l.validationCount ≤ l1.validationCount) ∧
    (∀ (req : ValidateRequest) (env : Ambient) (resp : Response),
      Op.validate (scenarioValidate scenarioF1) (scenarioEnv 40 []) = Op.validate req env →
      (apiValidate evalRuntime scenarioActivated (scenarioValidate scenarioF1)
          (scenarioEnv 40 [])).2 = some resp →
      ((resp.status = 400 ∨ resp.status = 404 ∨ resp.status = 409) →
        (apiValidate evalRuntime scenarioActivated (scenarioValidate scenarioF1)
          (scenarioEnv 40 [])).1 = scenarioActivated) ∧
      (resp.status = 200 → (scenarioActivated.map (fun x => x._id)).Nodup →
        resp.success = some true ∧
        ∃ (key : String) (pre post : Store) (l l1 : License),
          req.licenseKey = KeyField.str key ∧
          findOne scenarioActivated (evalRuntime.toUpperCase key) = some l ∧
          findOne (apiValidate evalRuntime scenarioActivated (scenarioValidate scenarioF1)
            (scenarioEnv 40 [])).1 (evalRuntime.toUpperCase key) = some l1 ∧
          scenarioActivated = pre ++ l :: post ∧
          (apiValidate evalRuntime scenarioActivated (scenarioValidate scenarioF1)
            (scenarioEnv 40 [])).1 = pre ++ l1 :: post ∧
          l1.validationCount = l.validationCount + 1))) :=
  ⟨rfl, ⟨by decide, by decide⟩,
    C6_validation_count_monotone evalRuntime scenarioActivated
      (apiValidate evalRuntime scenarioActivated (scenarioValidate scenarioF1)
        (scenarioEnv 40 [])).1
      (Op.validate (scenarioValidate scenarioF1) (scenarioEnv 40 []))
      (apiValidate evalRuntime scenarioActivated (scenarioValidate scenarioF1)
        (scenarioEnv 40 [])).2 rfl⟩

/-! ## Unknown keys -/

/-- C7. NotFound on the upper-cased key: for a request with a non-empty
`licenseKey` `k` and a fingerprint, validate answers 404 exactly when no
license of the store has the key `k.toUpperCase()`; the answer then is
`success: false` with the store unchanged. When `toUpperCase` maps `k` to a
non-empty string that it leaves fixed (as it does ASCII text), a validate
of the upper-cased key gives the same store and response. -/
theorem C7_not_found_on_uppercased_key (rt : Runtime) (st : Store) (key : String)
    (fp : Fingerprint) (ip ua : Option String) (env : Ambient) (hkey : key ≠ "") :
    ((∃ r : Response,
        (apiValidate rt st
          { licenseKey := KeyField.str key, systemFingerprint := some fp, ip := ip,
            userAgent := ua } env).2 = some r ∧ r.status = 404) ↔
      ∀ l ∈ st, l.licenseKey ≠ rt.toUpperCase key) ∧
    ((∀ l ∈ st, l.licenseKey ≠ rt.toUpperCase key) →
      apiValidate rt st
          { licenseKey := KeyField.str key, systemFingerprint := some fp, ip := ip,
            userAgent := ua } env =
        (st, some invalidLicenseKey)) ∧
    invalidLicenseKey.success = some false ∧
    (rt.toUpperCase key ≠ "" →
      rt.toUpperCase (rt.toUpperCase key) = rt.toUpperCase key →
      apiValidate rt st
          { licenseKey := KeyField.str (rt.toUpperCase key), systemFingerprint := some fp,
            ip := ip, userAgent := ua } env =
        apiValidate rt st
          { licenseKey := KeyField.str key, systemFingerprint := some fp, ip := ip,
            userAgent := ua } env) := by
  have h404 : (∀ l ∈ st, l.licenseKey ≠ rt.toUpperCase key) →
      apiValidate rt st
          { licenseKey := KeyField.str key, systemFingerprint := some fp, ip := ip,
            userAgent := ua } env =
        (st, some invalidLicenseKey) := by
    intro h
    unfold apiValidate
    rw [validateRead_notFound rt st key fp ip ua hkey (findOne_eq_none.mpr h)]
    rfl
  refine ⟨⟨?_, ?_⟩, h404, rfl, ?_⟩
  · rintro ⟨r, hr, hs⟩
    rw [← findOne_eq_none]
    cases hfind : findOne st (rt.toUpperCase key) with
    | none => rfl
    | some l =>
      obtain ⟨r1, hr1, hs1⟩ := apiValidate_found_status rt st key fp ip ua env l hkey hfind
      rw [hr] at hr1
      cases hr1
      omega
  · intro h
    exact ⟨_, by rw [h404 h], rfl⟩
  · intro hne hidem
    have hu : ∀ (h : String) (f : Fingerprint),
        activateUpdate
            { licenseKey := KeyField.str (rt.toUpperCase key), systemFingerprint := some fp,
              ip := ip, userAgent := ua } env h f =
          activateUpdate
            { licenseKey := KeyField.str key, systemFingerprint := some fp, ip := ip,
              userAgent := ua } env h f :=
      fun h f => funext (fun _ => rfl)
    simp [apiValidate, validateRead, validateWrite, hu, hkey, hne, hidem]

/-- C7 at the scenario: a key that the store does not hold, typed in lower
case. -/
theorem C7_not_found_on_uppercased_key_witness :
    "test-0002-aaaa-bbbb" ≠ "" ∧
    (apiValidate evalRuntime scenarioStore
        { licenseKey := KeyField.str "test-0002-aaaa-bbbb",
          systemFingerprint := some scenarioF1, ip := none, userAgent := none }
        (scenarioEnv 10 scenarioBytes1)).2.map (fun r => r.status) = some 404 ∧
    (((∃ r : Response,
        (apiValidate evalRuntime scenarioStore
          { licenseKey := KeyField.str "test-0002-aaaa-bbbb",
            systemFingerprint := some scenarioF1, ip := none, userAgent := none }
          (scenarioEnv 10 scenarioBytes1)).2 = some r ∧ r.status = 404) ↔
      ∀ l ∈ scenarioStore, l.licenseKey ≠ evalRuntime.toUpperCase "test-0002-aaaa-bbbb") ∧
    ((∀ l ∈ scenarioStore, l.licenseKey ≠ evalRuntime.toUpperCase "test-0002-aaaa-bbbb") →
      apiValidate evalRuntime scenarioStore
          { licenseKey := KeyField.str "test-0002-aaaa-bbbb",
            systemFingerprint := some scenarioF1, ip := none, userAgent := none }
          (scenarioEnv 10 scenarioBytes1) =
        (scenarioStore, some invalidLicenseKey)) ∧
    invalidLicenseKey.success = some false ∧
    (evalRuntime.toUpperCase "test-0002-aaaa-bbbb" ≠ "" →
      evalRuntime.toUpperCase (evalRuntime.toUpperCase "test-0002-aaaa-bbbb") =
        evalRuntime.toUpperCase "test-0002-aaaa-bbbb" →
      apiValidate evalRuntime scenarioStore
          { licenseKey := KeyField.str (evalRuntime.toUpperCase "test-0002-aaaa-bbbb"),
            systemFingerprint := some scenarioF1, ip := none, userAgent := none }
          (scenarioEnv 10 scenarioBytes1) =
        apiValidate evalRuntime scenarioStore
          { licenseKey := KeyField.str "test-0002-aaaa-bbbb",
            systemFingerprint := some scenarioF1, ip := none, userAgent := none }
          (scenarioEnv 10 scenarioBytes1))) :=
  ⟨by decide, by decide,
    C7_not_found_on_uppercased_key evalRuntime scenarioStore "test-0002-aaaa-bbbb"
      scenarioF1 none none (scenarioEnv 10 scenarioBytes1) (by decide)⟩

/-! ## Revoke -/

/-- C8. Revoke clears exactly the activation fields: when the license of key
`K` exists (activated or not), revoke answers 200 with `success: true`, the
license has afterwards `isActivated = false` and `systemFingerprint`,
`machineId`, `activatedAt` null, its `_id`, `licenseKey`, `createdAt`,
`validationCount`, `lastValidated` and `metadata` are as before, and every
other license of the store is unchanged. -/
theorem C8_revoke_clears_activation_fields (rt : Runtime) (st : Store) (key : String)
    (env : Ambient) (l : License)
    (hfind : findOne st (rt.toUpperCase key) = some l) :
    ∃ (pre post : Store) (l1 : License),
      st = pre ++ l :: post ∧ (∀ x ∈ pre, x.licenseKey ≠ rt.toUpperCase key) ∧
      apiAdminRevoke rt st { licenseKey := KeyField.str key } env =
        (pre ++ l1 :: post, some (messageResponse 200 true "License revoked successfully")) ∧
      (messageResponse 200 true "License revoked successfully").status = 200 ∧
      (messageResponse 200 true "License revoked successfully").success = some true ∧
      l1.isActivated = false ∧ l1.systemFingerprint = none ∧ l1.machineId = none ∧
      l1.activatedAt = none ∧
      l1._id = l._id ∧ l1.licenseKey = l.licenseKey ∧ l1.createdAt = l.createdAt ∧
      l1.validationCount = l.validationCount ∧ l1.lastValidated = l.lastValidated ∧
      l1.metadata = l.metadata := by
  obtain ⟨hl, pre, post, rfl, hpre⟩ := findOne_split hfind
  refine ⟨pre, post, revokeUpdate env l, rfl, hpre, ?_, rfl, rfl, rfl, rfl, rfl, rfl,
    rfl, rfl, rfl, rfl, rfl, rfl⟩
  unfold apiAdminRevoke
  simp only
  rw [updateOne_split _ _ pre post l (by intro x hx; simpa using hpre x hx) (by simpa using hl)]
  simp

/-- C8 at the scenario: the revoke of the activated license. -/
theorem C8_revoke_clears_activation_fields_witness :
    findOne scenarioActivated (evalRuntime.toUpperCase scenarioKey) = some scenarioLicense1 ∧
    ∃ (pre post : Store) (l1 : License),
      scenarioActivated = pre ++ scenarioLicense1 :: post ∧
      (∀ x ∈ pre, x.licenseKey ≠ evalRuntime.toUpperCase scenarioKey) ∧
      apiAdminRevoke evalRuntime scenarioActivated { licenseKey := KeyField.str scenarioKey }
          (scenarioEnv 20 []) =
        (pre ++ l1 :: post, some (messageResponse 200 true "License revoked successfully")) ∧
      (messageResponse 200 true "License revoked successfully").status = 200 ∧
      (messageResponse 200 true "License revoked successfully").success = some true ∧
      l1.isActivated = false ∧ l1.systemFingerprint = none ∧ l1.machineId = none ∧
      l1.activatedAt = none ∧
      l1._id = scenarioLicense1._id ∧ l1.licenseKey = scenarioLicense1.licenseKey ∧
      l1.createdAt = scenarioLicense1.createdAt ∧
      l1.validationCount = scenarioLicense1.validationCount ∧
      l1.lastValidated = scenarioLicense1.lastValidated ∧
      l1.metadata = scenarioLicense1.metadata :=
  ⟨by decide,
    C8_revoke_clears_activation_fields evalRuntime scenarioActivated scenarioKey
      (scenarioEnv 20 []) scenarioLicense1 (by decide)⟩

/-- C9 as stated fails: a second revoke of the scenario key, one tick after
the first, is answered 200 like the first but leaves a store that differs from
the store after the first (in `updatedAt`). -/
theorem C9_counterexample :
    (apiAdminRevoke evalRuntime scenarioActivated scenarioRevoke (scenarioEnv 20 [])).2 =
      some (messageResponse 200 true "License revoked successfully") ∧
    (apiAdminRevoke evalRuntime
        (apiAdminRevoke evalRuntime scenarioActivated scenarioRevoke (scenarioEnv 20 [])).1
        scenarioRevoke (scenarioEnv 21 [])).2 =
      some (messageResponse 200 true "License revoked successfully") ∧
    (apiAdminRevoke evalRuntime
        (apiAdminRevoke evalRuntime scenarioActivated scenarioRevoke (scenarioEnv 20 [])).1
        scenarioRevoke (scenarioEnv 21 [])).1 ≠
      (apiAdminRevoke evalRuntime scenarioActivated scenarioRevoke (scenarioEnv 20 [])).1 := by
  decide

/-- C9, amended. Revoke is idempotent up to the Mongoose timestamp: when the
license of key `K` exists, two revokes of `K` in a row are both answered 200
with `success: true`, and the store after the second is the store after the
first with the `updatedAt` of `K` set to the time of the second write; the
two stores are equal when that time is the time of the first write. -/
theorem C9_revoke_idempotent_up_to_updatedAt (rt : Runtime) (st : Store) (key : String)
    (env1 env2 : Ambient) (l : License)
    (hfind : findOne st (rt.toUpperCase key) = some l) :
    ∃ (pre post : Store) (l1 : License),
      st = pre ++ l :: post ∧
      apiAdminRevoke rt st { licenseKey := KeyField.str key } env1 =
        (pre ++ l1 :: post, some (messageResponse 200 true "License revoked successfully")) ∧
      apiAdminRevoke rt (pre ++ l1 :: post) { licenseKey := KeyField.str key } env2 =
        (pre ++ { l1 with updatedAt := env2.clock 0 } :: post,
          some (messageResponse 200 true "License revoked successfully")) ∧
      (messageResponse 200 true "License revoked successfully").status = 200 ∧
      (messageResponse 200 true "License revoked successfully").success = some true ∧
      (env2.clock 0 = env1.clock 0 →
        (apiAdminRevoke rt (pre ++ l1 :: post) { licenseKey := KeyField.str key } env2).1 =
          pre ++ l1 :: post) := by
  obtain ⟨hl, pre, post, rfl, hpre⟩ := findOne_split hfind
  have hpre2 : ∀ x ∈ pre, decide (x.licenseKey = rt.toUpperCase key) = false := by
    intro x hx
    simpa using hpre x hx
  have h1 : apiAdminRevoke rt (pre ++ l :: post) { licenseKey := KeyField.str key } env1 =
      (pre ++ revokeUpdate env1 l :: post,
        some (messageResponse 200 true "License revoked successfully")) := by
    unfold apiAdminRevoke
    simp only
    rw [updateOne_split _ _ pre post l hpre2 (by simpa using hl)]
    simp
  have h2 : apiAdminRevoke rt (pre ++ revokeUpdate env1 l :: post)
      { licenseKey := KeyField.str key } env2 =
      (pre ++ { revokeUpdate env1 l with updatedAt := env2.clock 0 } :: post,
        some (messageResponse 200 true "License revoked successfully")) := by
    unfold apiAdminRevoke
    simp only
    rw [updateOne_split _ _ pre post (revokeUpdate env1 l) hpre2
      (by simpa [revokeUpdate] using hl)]
    simp [revokeUpdate]
  refine ⟨pre, post, revokeUpdate env1 l, rfl, h1, h2, rfl, rfl, ?_⟩
  intro ht
  rw [h2]
  simp [revokeUpdate, ht]

/-- C9, amended, at the scenario. -/
theorem C9_revoke_idempotent_up_to_updatedAt_witness :
    findOne scenarioActivated (evalRuntime.toUpperCase scenarioKey) = some scenarioLicense1 ∧
    ∃ (pre post : Store) (l1 : License),
      scenarioActivated = pre ++ scenarioLicense1 :: post ∧
      apiAdminRevoke evalRuntime scenarioActivated { licenseKey := KeyField.str scenarioKey }
          (scenarioEnv 20 []) =
        (pre ++ l1 :: post, some (messageResponse 200 true "License revoked successfully")) ∧
      apiAdminRevoke evalRuntime (pre ++ l1 :: post) { licenseKey := KeyField.str scenarioKey }
          (scenarioEnv 21 []) =
        (pre ++ { l1 with updatedAt := (scenarioEnv 21 []).clock 0 } :: post,
          some (messageResponse 200 true "License revoked successfully")) ∧
      (messageResponse 200 true "License revoked successfully").status = 200 ∧
      (messageResponse 200 true "License revoked successfully").success = some true ∧
      ((scenarioEnv 21 []).clock 0 = (scenarioEnv 20 []).clock 0 →
        (apiAdminRevoke evalRuntime (pre ++ l1 :: post)
          { licenseKey := KeyField.str scenarioKey } (scenarioEnv 21 [])).1 =
          pre ++ l1 :: post) :=
  ⟨by decide,
    C9_revoke_idempotent_up_to_updatedAt evalRuntime scenarioActivated scenarioKey
      (scenarioEnv 20 []) (scenarioEnv 21 []) scenarioLicense1 (by decide)⟩

/-- C10 as stated fails: the scenario license is activated under `F1` with the
`machineId` of the drawn bytes, revoked, and activated under `F2` when
`crypto.randomBytes(8)` returns the same bytes again; the second activation is
answered 200 with the same `machineId`. -/
theorem C10_counterexample :
    (apiValidate evalRuntime scenarioStore (scenarioValidate scenarioF1)
        (scenarioEnv 10 scenarioBytes1)).2.map (fun r => (r.status, r.machineId)) =
      some (200, some "0123456789ABCDEF") ∧
    (findOne scenarioRevoked scenarioKey).map (fun l => (l.isActivated, l.machineId)) =
      some (false, none) ∧
    (apiValidate evalRuntime scenarioRevoked (scenarioValidate scenarioF2)
        (scenarioEnv 30 scenarioBytes1)).2.map (fun r => (r.status, r.machineId)) =
      some (200, some "0123456789ABCDEF") := by
  decide

/-- C10, amended. Re-activation after revoke: when the license of key `K`
exists, activated or not (in a collection with distinct `_id`s), after a
revoke of `K` a validate of `(K, F2)`, for any fingerprint `F2`, is answered
200 as a first activation, the stored hash is `hashSystemFingerprint(F2)`, and
the `machineId` returned and stored is the upper-case hex text of the eight
random bytes drawn by this call. It differs from the `machineId` `M1` that
the license had before the revoke whenever `M1` is the text of other bytes. -/
theorem C10_reactivation_after_revoke (rt : Runtime) (st : Store) (key : String)
    (fp2 : Fingerprint) (ip ua : Option String) (env1 env2 : Ambient) (l : License)
    (hid : (st.map (fun x => x._id)).Nodup) (hkey : key ≠ "")
    (hfind : findOne st (rt.toUpperCase key) = some l) :
    ∃ (r : Response) (l2 : License),
      (apiAdminRevoke rt st { licenseKey := KeyField.str key } env1).2 =
        some (messageResponse 200 true "License revoked successfully") ∧
      (apiValidate rt (apiAdminRevoke rt st { licenseKey := KeyField.str key } env1).1
        { licenseKey := KeyField.str key, systemFingerprint := some fp2, ip := ip,
          userAgent := ua } env2).2 = some r ∧
      r.status = 200 ∧ r.success = some true ∧
      r.message = some "License activated successfully" ∧
      r.machineId = some (generateMachineId env2.randomBytes) ∧
      findOne
        (apiValidate rt (apiAdminRevoke rt st { licenseKey := KeyField.str key } env1).1
          { licenseKey := KeyField.str key, systemFingerprint := some fp2, ip := ip,
            userAgent := ua } env2).1 (rt.toUpperCase key) = some l2 ∧
      l2.isActivated = true ∧
      l2.systemFingerprint = some (hashSystemFingerprint rt fp2) ∧
      l2.machineId = r.machineId ∧
      (∀ (M1 : String) (bytes1 : List Nat), l.machineId = some M1 →
        M1 = generateMachineId bytes1 →
        (∀ b ∈ bytes1, b < 256) → (∀ b ∈ env2.randomBytes, b < 256) →
        bytes1 ≠ env2.randomBytes → r.machineId ≠ some M1) := by
  obtain ⟨hl, pre, post, rfl, hpre⟩ := findOne_split hfind
  have hrev : apiAdminRevoke rt (pre ++ l :: post) { licenseKey := KeyField.str key } env1 =
      (pre ++ revokeUpdate env1 l :: post,
        some (messageResponse 200 true "License revoked successfully")) := by
    unfold apiAdminRevoke
    simp only
    rw [updateOne_split _ _ pre post l (by intro x hx; simpa using hpre x hx)
      (by simpa using hl)]
    simp
  rw [hrev]
  simp only
  rw [apiValidate_activate rt key fp2 ip ua env2 pre post (revokeUpdate env1 l)
    (by simpa [revokeUpdate] using hid) hkey (by simpa [revokeUpdate] using hl) hpre
    (by simp [revokeUpdate])]
  refine ⟨_, _, trivial, rfl, rfl, rfl, rfl, rfl,
    findOne_of_split (by simpa [activateUpdate, revokeUpdate] using hl) hpre,
    rfl, rfl, rfl, ?_⟩
  intro M1 bytes1 _ hM hb1 hb2 hne heq
  apply hne
  have h : generateMachineId env2.randomBytes = M1 := Option.some.inj heq
  rw [hM] at h
  exact (generateMachineId_injective _ _ hb2 hb1 h).symm

/-- C10, amended, at the scenario: other bytes give another `machineId`. -/
theorem C10_reactivation_after_revoke_witness :
    ((List.map (fun x => x._id) scenarioActivated).Nodup ∧
      findOne scenarioActivated (evalRuntime.toUpperCase "test-0001-aaaa-bbbb") =
        some scenarioLicense1) ∧
    ∃ (r : Response) (l2 : License),
      (apiAdminRevoke evalRuntime scenarioActivated
        { licenseKey := KeyField.str "test-0001-aaaa-bbbb" } (scenarioEnv 20 [])).2 =
        some (messageResponse 200 true "License revoked successfully") ∧
      (apiValidate evalRuntime
        (apiAdminRevoke evalRuntime scenarioActivated
          { licenseKey := KeyField.str "test-0001-aaaa-bbbb" } (scenarioEnv 20 [])).1
        { licenseKey := KeyField.str "test-0001-aaaa-bbbb",
          systemFingerprint := some scenarioF2, ip := none, userAgent := none }
        (scenarioEnv 30 scenarioBytes2)).2 = some r ∧
      r.status = 200 ∧ r.success = some true ∧
      r.message = some "License activated successfully" ∧
      r.machineId = some (generateMachineId (scenarioEnv 30 scenarioBytes2).randomBytes) ∧
      findOne
        (apiValidate evalRuntime
          (apiAdminRevoke evalRuntime scenarioActivated
            { licenseKey := KeyField.str "test-0001-aaaa-bbbb" } (scenarioEnv 20 [])).1
          { licenseKey := KeyField.str "test-0001-aaaa-bbbb",
            systemFingerprint := some scenarioF2, ip := none, userAgent := none }
          (scenarioEnv 30 scenarioBytes2)).1
        (evalRuntime.toUpperCase "test-0001-aaaa-bbbb") = some l2 ∧
      l2.isActivated = true ∧
      l2.systemFingerprint = some (hashSystemFingerprint evalRuntime scenarioF2) ∧
      l2.machineId = r.machineId ∧
      (∀ (M1 : String) (bytes1 : List Nat), scenarioLicense1.machineId = some M1 →
        M1 = generateMachineId bytes1 →
        (∀ b ∈ bytes1, b < 256) →
        (∀ b ∈ (scenarioEnv 30 scenarioBytes2).randomBytes, b < 256) →
        bytes1 ≠ (scenarioEnv 30 scenarioBytes2).randomBytes →
        r.machineId ≠ some M1) :=
  ⟨⟨by decide, by decide⟩,
    C10_reactivation_after_revoke evalRuntime scenarioActivated "test-0001-aaaa-bbbb"
      scenarioF2 none none (scenarioEnv 20 []) (scenarioEnv 30 scenarioBytes2)
      scenarioLicense1 (by decide) (by decide) (by decide)⟩

/-! ## Generated keys -/

theorem charAt_lt : ∀ n < 36, charAt n = String.singleton (chars.getD n 'A') := by
  decide

theorem chars_getD_mem : ∀ n < 36, chars.getD n 'A' ∈ chars := by
  decide

theorem chars_getD_injective :
    ∀ n < 36, ∀ m < 36, chars.getD n 'A' = chars.getD m 'A' → n = m := by
  decide

theorem chars_props :
    ∀ c ∈ chars, isKeyChar c = true ∧ c.toUpper = c ∧ isJsSpace c = false ∧ c.toNat < 128 := by
  decide

/-- The key of function `generateLicenseKey` as a list of characters, when
every draw is an index of the alphabet. -/
theorem generateLicenseKey_toList (random : Nat → Nat) (pos : Nat)
    (h : ∀ i, random i < 36) :
    (generateLicenseKey random pos).toList =
      keyList (fun j => chars.getD (random (pos + j)) 'A') := by
  have e : generateLicenseKey random pos =
      "" ++ charAt (random (pos + 4 * 0 + 0)) ++ charAt (random (pos + 4 * 0 + 1)) ++
        charAt (random (pos + 4 * 0 + 2)) ++ charAt (random (pos + 4 * 0 + 3)) ++ "-" ++
        charAt (random (pos + 4 * 1 + 0)) ++ charAt (random (pos + 4 * 1 + 1)) ++
        charAt (random (pos + 4 * 1 + 2)) ++ charAt (random (pos + 4 * 1 + 3)) ++ "-" ++
        charAt (random (pos + 4 * 2 + 0)) ++ charAt (random (pos + 4 * 2 + 1)) ++
        charAt (random (pos + 4 * 2 + 2)) ++ charAt (random (pos + 4 * 2 + 3)) ++ "-" ++
        charAt (random (pos + 4 * 3 + 0)) ++ charAt (random (pos + 4 * 3 + 1)) ++
        charAt (random (pos + 4 * 3 + 2)) ++ charAt (random (pos + 4 * 3 + 3)) := rfl
  rw [e]
  simp only [charAt_lt _ (h _), String.toList, String.data_append, String.singleton,
    keyList]
  simp

theorem keyList_shape (g : Nat → Char) (hg : ∀ j, g j ∈ chars) :
    KeyShape (String.mk (keyList g)) := by
  refine ⟨rfl, ?_⟩
  intro i hi c hc
  have hk : ∀ j, isKeyChar (g j) = true := fun j => (chars_props _ (hg j)).1
  interval_cases i <;> simp [keyList] at hc <;> subst hc <;> simp [hk]

theorem keyList_test (g : Nat → Char) (hg : ∀ j, g j ∈ chars) :
    keyFormatTest (String.mk (keyList g)) = true := by
  have hk : ∀ j, isKeyChar (g j) = true := fun j => (chars_props _ (hg j)).1
  simp [keyFormatTest, keyPattern, keyList, List.replicate, hk]

theorem keyList_ascii (g : Nat → Char) (hg : ∀ j, g j ∈ chars) :
    ∀ c ∈ keyList g, c.toUpper = c ∧ isJsSpace c = false ∧ c.toNat < 128 := by
  intro c hc
  have hk : ∀ j, (g j).toUpper = g j ∧ isJsSpace (g j) = false ∧ (g j).toNat < 128 :=
    fun j => (chars_props _ (hg j)).2
  simp only [keyList, List.mem_cons, List.mem_singleton, List.not_mem_nil, or_false] at hc
  rcases hc with h | h | h | h | h | h | h | h | h | h | h | h | h | h | h | h | h | h | h <;>
    subst h <;> first | exact hk _ | decide

theorem keyList_asciiUpper (g : Nat → Char) (hg : ∀ j, g j ∈ chars) :
    asciiUpper (String.mk (keyList g)) = String.mk (keyList g) := by
  unfold asciiUpper
  congr 1
  show (keyList g).map Char.toUpper = keyList g
  conv_rhs => rw [← List.map_id (keyList g)]
  apply List.map_congr_left
  intro c hc
  exact (keyList_ascii g hg c hc).1

theorem keyList_trim (g : Nat → Char) (hg : ∀ j, g j ∈ chars) :
    jsTrim (String.mk (keyList g)) = String.mk (keyList g) := by
  have hk : ∀ j, isJsSpace (g j) = false := fun j => (chars_props _ (hg j)).2.2.1
  simp [jsTrim, keyList, List.dropWhile, hk]

/-- The key of function `generateLicenseKey` has the shape of a license key,
passes the format tests and is fixed by upper-casing and trimming. -/
theorem generateLicenseKey_valid (random : Nat → Nat) (pos : Nat)
    (h : ∀ i, random i < 36) :
    KeyShape (generateLicenseKey random pos) ∧
    keyFormatTest (generateLicenseKey random pos) = true ∧
    asciiUpper (generateLicenseKey random pos) = generateLicenseKey random pos ∧
    jsTrim (generateLicenseKey random pos) = generateLicenseKey random pos ∧
    ∀ c ∈ (generateLicenseKey random pos).toList, c.toNat < 128 := by
  have hg : ∀ j, (fun j => chars.getD (random (pos + j)) 'A') j ∈ chars :=
    fun j => chars_getD_mem _ (h _)
  have e : generateLicenseKey random pos =
      String.mk (keyList (fun j => chars.getD (random (pos + j)) 'A')) := by
    rw [← generateLicenseKey_toList random pos h]
    rfl
  rw [e]
  exact ⟨keyList_shape _ hg, keyList_test _ hg, keyList_asciiUpper _ hg, keyList_trim _ hg,
    fun c hc => (keyList_ascii _ hg c hc).2.2⟩

/-- The loop of the CLI is the loop of the server. -/
theorem cli_generateUniqueKeys_eq (random : Nat → Nat) (count : Int) :
    ∀ (fuel pos : Nat) (keys : List String),
      KeyGenerator.generateUniqueKeys random count fuel pos keys =
        generateUniqueKeys random count fuel pos keys := by
  intro fuel
  induction fuel with
  | zero => intro pos keys; rfl
  | succ n ih =>
    intro pos keys
    simp only [KeyGenerator.generateUniqueKeys, generateUniqueKeys]
    split
    · exact ih _ _
    · rfl

/-- The set after one iteration of the loop. -/
theorem loop_add_nodup (key : String) (keys : List String) (h : keys.Nodup) :
    (if key ∈ keys then keys else keys ++ [key]).Nodup := by
  split
  · exact h
  · rename_i hk
    rw [List.nodup_append]
    exact ⟨h, List.nodup_singleton key, by
      intro a ha hb
      rw [List.mem_singleton] at hb
      exact hk (hb ▸ ha)⟩

theorem loop_add_length (key : String) (keys : List String) :
    keys.length ≤ (if key ∈ keys then keys else keys ++ [key]).length ∧
    (if key ∈ keys then keys else keys ++ [key]).length ≤ keys.length + 1 := by
  split <;> simp

theorem loop_add_toFinset (key : String) (keys : List String) :
    (if key ∈ keys then keys else keys ++ [key]).toFinset = insert key keys.toFinset := by
  split
  · rename_i hk
    rw [Finset.insert_eq_of_mem (List.mem_toFinset.mpr hk)]
  · ext a
    simp [or_comm]

/-- The keys that function `generateUniqueKeys` returns are distinct, and as
many as asked for. -/
theorem generateUniqueKeys_result (random : Nat → Nat) (count : Int) :
    ∀ (fuel pos : Nat) (keys result : List String),
      keys.Nodup → (keys.length : Int) ≤ max count 0 →
      generateUniqueKeys random count fuel pos keys = some result →
      result.Nodup ∧ (result.length : Int) = max count 0 := by
  intro fuel
  induction fuel with
  | zero =>
    intro pos keys result hnd hlen h
    simp only [generateUniqueKeys] at h
    split at h
    · cases h
    · cases h
      exact ⟨hnd, by omega⟩
  | succ n ih =>
    intro pos keys result hnd hlen h
    simp only [generateUniqueKeys] at h
    split at h
    · apply ih _ _ result (loop_add_nodup _ keys hnd) _ h
      have := (loop_add_length (generateLicenseKey random pos) keys).2
      omega
    · cases h
      exact ⟨hnd, by omega⟩

/-- Every key that function `generateUniqueKeys` returns was in the set at the
start or is one of the keys drawn. -/
theorem generateUniqueKeys_mem (random : Nat → Nat) (count : Int) :
    ∀ (fuel pos : Nat) (keys result : List String),
      generateUniqueKeys random count fuel pos keys = some result →
      ∀ k ∈ result, k ∈ keys ∨ ∃ b < fuel, k = generateLicenseKey random (pos + 16 * b) := by
  intro fuel
  induction fuel with
  | zero =>
    intro pos keys result h k hk
    simp only [generateUniqueKeys] at h
    split at h
    · cases h
    · cases h
      exact Or.inl hk
  | succ n ih =>
    intro pos keys result h k hk
    simp only [generateUniqueKeys] at h
    split at h
    · rcases ih _ _ result h k hk with h1 | ⟨b, hb, rfl⟩
      · split at h1
        · exact Or.inl h1
        · rcases List.mem_append.mp h1 with h2 | h2
          · exact Or.inl h2
          · rw [List.mem_singleton] at h2
            exact Or.inr ⟨0, by omega, by simpa using h2⟩
      · exact Or.inr ⟨b + 1, by omega, by congr 1; omega⟩
    · cases h
      exact Or.inl hk

/-- The distinct keys among the first `m` keys of the stream from `pos`. -/
theorem drawn_succ (random : Nat → Nat) (pos m : Nat) (s : Finset String) :
    insert (generateLicenseKey random pos) s ∪
        ((List.range m).map (fun b => generateLicenseKey random (pos + 16 + 16 * b))).toFinset =
      s ∪ ((List.range (m + 1)).map
        (fun b => generateLicenseKey random (pos + 16 * b))).toFinset := by
  ext a
  simp only [Finset.mem_union, Finset.mem_insert, List.mem_toFinset, List.mem_map,
    List.mem_range]
  constructor
  · rintro ((rfl | h) | ⟨b, hb, rfl⟩)
    · exact Or.inr ⟨0, by omega, rfl⟩
    · exact Or.inl h
    · exact Or.inr ⟨b + 1, by omega, by congr 1; omega⟩
  · rintro (h | ⟨b, hb, rfl⟩)
    · exact Or.inl (Or.inr h)
    · cases b with
      | zero => exact Or.inl (Or.inl rfl)
      | succ c => exact Or.inr ⟨c, by omega, by congr 1; omega⟩

/-- The loop stops within `fuel` iterations when the set at the start and the
next `fuel` keys of the stream hold `count` distinct keys. -/
theorem generateUniqueKeys_stops (random : Nat → Nat) (count : Int) :
    ∀ (fuel pos : Nat) (keys : List String),
      count ≤ ((keys.toFinset ∪ ((List.range fuel).map
        (fun b => generateLicenseKey random (pos + 16 * b))).toFinset).card : Int) →
      ∃ result, generateUniqueKeys random count fuel pos keys = some result := by
  intro fuel
  induction fuel with
  | zero =>
    intro pos keys h
    simp only [generateUniqueKeys]
    split
    · rename_i hlt
      exfalso
      simp only [List.range_zero, List.map_nil, List.toFinset_nil, Finset.union_empty] at h
      have := List.toFinset_card_le keys
      omega
    · exact ⟨keys, rfl⟩
  | succ n ih =>
    intro pos keys h
    simp only [generateUniqueKeys]
    split
    · apply ih
      rw [loop_add_toFinset, drawn_succ]
      exact h
    · exact ⟨keys, rfl⟩

/-- Function `insertMany` inserts every key when the keys are distinct and none
is a key of the collection. -/
theorem insertMany_fresh (clock : Nat → Nat) (keys : List String) :
    ∀ (i : Nat) (st : Store), keys.Nodup →
      (∀ k ∈ keys, ∀ l ∈ st, l.licenseKey ≠ k) →
      ∃ extra : Store, insertMany clock i st keys = (st ++ extra, none) ∧
        extra.map (fun l => l.licenseKey) = keys ∧
        ∀ l ∈ extra, ∃ id created updated, l = newLicense id l.licenseKey created updated := by
  induction keys with
  | nil => intro i st _ _; exact ⟨[], by simp [insertMany], rfl, by simp⟩
  | cons key keys ih =>
    intro i st hnd hfresh
    have hno : st.any (fun l => decide (l.licenseKey = key)) = false := by
      rw [List.any_eq_false]
      intro l hl
      simpa using hfresh key (List.mem_cons_self _ _) l hl
    rw [List.nodup_cons] at hnd
    obtain ⟨extra, h1, h2, h3⟩ := ih (i + 1)
      (st ++ [newLicense (freshId st) key (clock (2 * i)) (clock (2 * i + 1))]) hnd.2
      (by
        intro k hk l hl
        rcases List.mem_append.mp hl with hl | hl
        · exact hfresh k (List.mem_cons_of_mem _ hk) l hl
        · rw [List.mem_singleton] at hl
          subst hl
          intro he
          exact hnd.1 (by rw [show key = k from he]; exact hk))
    refine ⟨newLicense (freshId st) key (clock (2 * i)) (clock (2 * i + 1)) :: extra, ?_, ?_, ?_⟩
    · simp only [insertMany, hno]
      simpa using h1
    · simp [h2, newLicense]
    · intro l hl
      rcases List.mem_cons.mp hl with rfl | hl
      · exact ⟨_, _, _, rfl⟩
      · exact h3 l hl

/-- Function `insertMany` inserts at most as many documents as it is given
keys. -/
theorem insertMany_count (clock : Nat → Nat) (keys : List String) :
    ∀ (i : Nat) (st : Store), ∃ extra : Store,
      (insertMany clock i st keys).1 = st ++ extra ∧ extra.length ≤ keys.length := by
  induction keys with
  | nil => intro i st; exact ⟨[], by simp [insertMany], by simp⟩
  | cons key keys ih =>
    intro i st
    by_cases hdup : st.any (fun l => decide (l.licenseKey = key)) = true
    · exact ⟨[], by simp only [insertMany, hdup, if_true, List.append_nil], by simp⟩
    · obtain ⟨extra, h1, h2⟩ := ih (i + 1)
        (st ++ [newLicense (freshId st) key (clock (2 * i)) (clock (2 * i + 1))])
      refine ⟨newLicense (freshId st) key (clock (2 * i)) (clock (2 * i + 1)) :: extra, ?_, ?_⟩
      · simp only [insertMany, hdup]
        simpa using h1
      · simpa using h2

/-! ## Batches of keys -/

/-- C11 as stated fails: the store holds the second key of the batch; the two
keys are generated, the first is inserted, the insert of the second is
rejected by the unique index, and the request is answered 500 without keys:
one license is inserted, not two. -/
theorem C11_counterexample :
    generateUniqueKeys (scenarioEnv 5 []).random 2 5 0 [] =
      some ["ABCD-EFGH-IJKL-MNOP", "QRST-UVWX-YZ01-2345"] ∧
    collisionStore.map (fun l => l.licenseKey) = ["QRST-UVWX-YZ01-2345"] ∧
    (apiAdminGenerate evalRuntime collisionStore { count := some 2 } (scenarioEnv 5 []) 5).map
        (fun p => (p.1.map (fun l => l.licenseKey), p.2.map (fun r => (r.status, r.keys)))) =
      some (["QRST-UVWX-YZ01-2345", "ABCD-EFGH-IJKL-MNOP"], some (500, none)) := by
  decide

/-- C11, amended. Batch size and distinctness: for `1 ≤ n ≤ 10,000` and every
sequence of draws on which the loop finishes, `generateUniqueKeys(n)` of the
server and of the CLI returns exactly `n` keys, no two equal; when none of
them is already a key of the store, the admin generate operation answers 200
with exactly those keys and appends exactly `n` unactivated licenses, one for
each key. -/
theorem C11_batch_size_and_distinctness (rt : Runtime) (st : Store) (env : Ambient)
    (fuel : Nat) (n : Int) (h1 : 1 ≤ n) (h2 : n ≤ 10000) :
    (∀ (random : Nat → Nat) (pos : Nat) (keys : List String),
      generateUniqueKeys random n fuel pos [] = some keys →
      (keys.length : Int) = n ∧ keys.Nodup) ∧
    (∀ (random : Nat → Nat) (pos : Nat) (keys : List String),
      KeyGenerator.generateUniqueKeys random n fuel pos [] = some keys →
      (keys.length : Int) = n ∧ keys.Nodup) ∧
    (∀ (st1 : Store) (r : Option Response),
      apiAdminGenerate rt st { count := some n } env fuel = some (st1, r) →
      ∃ keys : List String,
        generateUniqueKeys env.random n fuel 0 [] = some keys ∧
        ((∀ k ∈ keys, ∀ l ∈ st, l.licenseKey ≠ k) →
          ∃ (extra : Store) (resp : Response),
            st1 = st ++ extra ∧ (extra.length : Int) = n ∧
            extra.map (fun l => l.licenseKey) = keys ∧
            (∀ l ∈ extra, l.isActivated = false ∧ l.systemFingerprint = none ∧
              l.machineId = none ∧ l.validationCount = 0) ∧
            r = some resp ∧ resp.status = 200 ∧ resp.success = some true ∧
            resp.keys = some keys)) := by
  have hserver : ∀ (random : Nat → Nat) (pos : Nat) (keys : List String),
      generateUniqueKeys random n fuel pos [] = some keys →
      (keys.length : Int) = n ∧ keys.Nodup := by
    intro random pos keys h
    have := generateUniqueKeys_result random n fuel pos [] keys List.nodup_nil
      (by simp) h
    exact ⟨by omega, this.1⟩
  refine ⟨hserver, ?_, ?_⟩
  · intro random pos keys h
    rw [cli_generateUniqueKeys_eq] at h
    exact hserver random pos keys h
  · intro st1 r h
    have hc : parsedCount { count := some n } = n := by
      simp only [parsedCount]
      rw [if_neg (by omega)]
    unfold apiAdminGenerate at h
    rw [hc, if_neg (by omega)] at h
    cases hk : generateUniqueKeys env.random n fuel 0 [] with
    | none => rw [hk] at h; cases h
    | some keys =>
      rw [hk] at h
      refine ⟨keys, rfl, ?_⟩
      intro hfresh
      obtain ⟨hlen, hnd⟩ := hserver env.random 0 keys hk
      obtain ⟨extra, hins, hkeys, hnew⟩ := insertMany_fresh env.clock keys 0 st hnd hfresh
      simp only [hins, Option.some.injEq, Prod.mk.injEq] at h
      obtain ⟨rfl, rfl⟩ := h
      refine ⟨extra, _, rfl, ?_, hkeys, ?_, rfl, rfl, rfl, rfl⟩
      · rw [← hlen, ← hkeys, List.length_map]
      · intro l hl
        obtain ⟨id, created, updated, hl2⟩ := hnew l hl
        rw [hl2]
        exact ⟨rfl, rfl, rfl, rfl⟩

/-- C11, amended, at a store without the keys of the batch. -/
theorem C11_batch_size_and_distinctness_witness :
    ((1 : Int) ≤ 2 ∧ (2 : Int) ≤ 10000) ∧
    ((∀ (random : Nat → Nat) (pos : Nat) (keys : List String),
      generateUniqueKeys random 2 5 pos [] = some keys →
      (keys.length : Int) = 2 ∧ keys.Nodup) ∧
    (∀ (random : Nat → Nat) (pos : Nat) (keys : List String),
      KeyGenerator.generateUniqueKeys random 2 5 pos [] = some keys →
      (keys.length : Int) = 2 ∧ keys.Nodup) ∧
    (∀ (st1 : Store) (r : Option Response),
      apiAdminGenerate evalRuntime scenarioStore { count := some 2 } (scenarioEnv 5 []) 5 =
        some (st1, r) →
      ∃ keys : List String,
        generateUniqueKeys (scenarioEnv 5 []).random 2 5 0 [] = some keys ∧
        ((∀ k ∈ keys, ∀ l ∈ scenarioStore, l.licenseKey ≠ k) →
          ∃ (extra : Store) (resp : Response),
            st1 = scenarioStore ++ extra ∧ (extra.length : Int) = 2 ∧
            extra.map (fun l => l.licenseKey) = keys ∧
            (∀ l ∈ extra, l.isActivated = false ∧ l.systemFingerprint = none ∧
              l.machineId = none ∧ l.validationCount = 0) ∧
            r = some resp ∧ resp.status = 200 ∧ resp.success = some true ∧
            resp.keys = some keys))) :=
  ⟨⟨by decide, by decide⟩,
    C11_batch_size_and_distinctness evalRuntime scenarioStore (scenarioEnv 5 []) 5 2
      (by decide) (by decide)⟩

/-- C12. Generated keys are syntactically valid: when every draw is an index
of the alphabet (as `Math.floor(Math.random() * 36)` is for a value in
`[0,1)`), each key of `generateLicenseKey` and each key returned by the CLI's
`generateUniqueKeys` has nineteen characters, a hyphen at positions 4, 9 and
14 and a character of `[A-Z0-9]` elsewhere; it passes `validateKeyFormat` and
the format check of `validateAndLaunch` (the pattern on the upper-cased,
trimmed key), and upper-casing leaves it unchanged, on a platform whose
`toUpperCase` is ASCII upper-casing on ASCII text. -/
theorem C12_generated_keys_valid (rt : Runtime) (random : Nat → Nat)
    (hrandom : ∀ i, random i < 36) (hrt : UpperCasesAscii rt) :
    (∀ pos : Nat,
      KeyShape (generateLicenseKey random pos) ∧
      KeyGenerator.validateKeyFormat rt (generateLicenseKey random pos) = true ∧
      keyFormatTest (jsTrim (rt.toUpperCase (generateLicenseKey random pos))) = true ∧
      rt.toUpperCase (generateLicenseKey random pos) = generateLicenseKey random pos) ∧
    (∀ (count : Int) (fuel pos : Nat) (keys : List String),
      KeyGenerator.generateUniqueKeys random count fuel pos [] = some keys →
      ∀ k ∈ keys,
        KeyShape k ∧ KeyGenerator.validateKeyFormat rt k = true ∧
        keyFormatTest (jsTrim (rt.toUpperCase k)) = true ∧ rt.toUpperCase k = k) := by
  have hkey : ∀ pos : Nat,
      KeyShape (generateLicenseKey random pos) ∧
      KeyGenerator.validateKeyFormat rt (generateLicenseKey random pos) = true ∧
      keyFormatTest (jsTrim (rt.toUpperCase (generateLicenseKey random pos))) = true ∧
      rt.toUpperCase (generateLicenseKey random pos) = generateLicenseKey random pos := by
    intro pos
    obtain ⟨hshape, htest, hupper, htrim, hascii⟩ := generateLicenseKey_valid random pos hrandom
    have hup : rt.toUpperCase (generateLicenseKey random pos) = generateLicenseKey random pos := by
      rw [hrt _ hascii, hupper]
    refine ⟨hshape, ?_, ?_, hup⟩
    · unfold KeyGenerator.validateKeyFormat
      rw [hup, htest]
    · rw [hup, htrim, htest]
  refine ⟨hkey, ?_⟩
  intro count fuel pos keys h k hk
  rw [cli_generateUniqueKeys_eq] at h
  rcases generateUniqueKeys_mem random count fuel pos [] keys h k hk with h0 | ⟨b, _, rfl⟩
  · cases h0
  · exact hkey _

/-- C12 at the stream `i % 36`, with ASCII upper-casing. -/
theorem C12_generated_keys_valid_witness :
    ((∀ i, (fun i => i % 36) i < 36) ∧ UpperCasesAscii evalRuntime) ∧
    generateLicenseKey (fun i => i % 36) 0 = "ABCD-EFGH-IJKL-MNOP" ∧
    ((∀ pos : Nat,
      KeyShape (generateLicenseKey (fun i => i % 36) pos) ∧
      KeyGenerator.validateKeyFormat evalRuntime (generateLicenseKey (fun i => i % 36) pos) =
        true ∧
      keyFormatTest (jsTrim (evalRuntime.toUpperCase
        (generateLicenseKey (fun i => i % 36) pos))) = true ∧
      evalRuntime.toUpperCase (generateLicenseKey (fun i => i % 36) pos) =
        generateLicenseKey (fun i => i % 36) pos) ∧
    (∀ (count : Int) (fuel pos : Nat) (keys : List String),
      KeyGenerator.generateUniqueKeys (fun i => i % 36) count fuel pos [] = some keys →
      ∀ k ∈ keys,
        KeyShape k ∧ KeyGenerator.validateKeyFormat evalRuntime k = true ∧
        keyFormatTest (jsTrim (evalRuntime.toUpperCase k)) = true ∧
        evalRuntime.toUpperCase k = k)) :=
  ⟨⟨fun i => Nat.mod_lt i (by decide), fun _ _ => rfl⟩, by decide,
    C12_generated_keys_valid evalRuntime (fun i => i % 36)
      (fun i => Nat.mod_lt i (by decide)) (fun _ _ => rfl)⟩

/-- On the stream that always draws 0 the set never grows beyond one key. -/
theorem constant_stream_loops :
    ∀ (fuel pos : Nat) (keys : List String),
      keys = [] ∨ keys = ["AAAA-AAAA-AAAA-AAAA"] →
      generateUniqueKeys (fun _ => 0) 2 fuel pos keys = none := by
  intro fuel
  induction fuel with
  | zero =>
    intro pos keys h
    rcases h with rfl | rfl <;> rfl
  | succ n ih =>
    intro pos keys h
    have hk : generateLicenseKey (fun _ => 0) pos = "AAAA-AAAA-AAAA-AAAA" := rfl
    rcases h with rfl | rfl
    · simp only [generateUniqueKeys, hk]
      exact ih _ _ (Or.inr rfl)
    · simp only [generateUniqueKeys, hk]
      exact ih _ _ (Or.inr (by decide))

/-- C13 as stated fails: on the sequence of draws that is constantly 0 every
key is `AAAA-AAAA-AAAA-AAAA`, and the loop of `generateUniqueKeys(2)` has not
stopped after any number of iterations. -/
theorem C13_counterexample :
    ¬ ∃ (fuel : Nat) (keys : List String),
      generateUniqueKeys (fun _ => 0) 2 fuel 0 [] = some keys := by
  rintro ⟨fuel, keys, h⟩
  rw [constant_stream_loops fuel 0 [] (Or.inl rfl)] at h
  cases h

/-- C13, amended. The rejection-sampling loop of `generateUniqueKeys(n)`, of
the server and of the CLI, stops after finitely many draws exactly on the
sequences of draws that yield `n` distinct keys: it has stopped after `m`
iterations (`16 m` draws) as soon as the first `m` keys of the sequence hold
`n` distinct ones, and it never stops on a sequence without `n` distinct
keys. -/
theorem C13_loop_stops_iff_enough_distinct_keys (random : Nat → Nat) (n : Int) :
    (∀ m : Nat,
      n ≤ (((List.range m).map (fun b => generateLicenseKey random (16 * b))).toFinset.card :
        Int) →
      (∃ keys, generateUniqueKeys random n m 0 [] = some keys) ∧
      (∃ keys, KeyGenerator.generateUniqueKeys random n m 0 [] = some keys)) ∧
    ((∃ (fuel : Nat) (keys : List String),
        generateUniqueKeys random n fuel 0 [] = some keys) ↔
      ∃ m : Nat,
        n ≤ (((List.range m).map (fun b => generateLicenseKey random (16 * b))).toFinset.card :
          Int)) ∧
    ((∃ (fuel : Nat) (keys : List String),
        KeyGenerator.generateUniqueKeys random n fuel 0 [] = some keys) ↔
      ∃ m : Nat,
        n ≤ (((List.range m).map (fun b => generateLicenseKey random (16 * b))).toFinset.card :
          Int)) := by
  have hstop : ∀ m : Nat,
      n ≤ (((List.range m).map (fun b => generateLicenseKey random (16 * b))).toFinset.card :
        Int) →
      ∃ keys, generateUniqueKeys random n m 0 [] = some keys := by
    intro m hm
    apply generateUniqueKeys_stops
    simpa using hm
  have hconv : ∀ (fuel : Nat) (keys : List String),
      generateUniqueKeys random n fuel 0 [] = some keys →
      n ≤ (((List.range fuel).map
        (fun b => generateLicenseKey random (16 * b))).toFinset.card : Int) := by
    intro fuel keys h
    obtain ⟨hnd, hlen⟩ := generateUniqueKeys_result random n fuel 0 [] keys List.nodup_nil
      (by simp) h
    have hsub : keys.toFinset ⊆
        ((List.range fuel).map (fun b => generateLicenseKey random (16 * b))).toFinset := by
      intro k hk
      rw [List.mem_toFinset] at hk
      rcases generateUniqueKeys_mem random n fuel 0 [] keys h k hk with h0 | ⟨b, hb, rfl⟩
      · cases h0
      · rw [List.mem_toFinset, List.mem_map]
        exact ⟨b, List.mem_range.mpr hb, by simp⟩
    have hcard := Finset.card_le_card hsub
    rw [List.toFinset_card_of_nodup hnd] at hcard
    omega
  refine ⟨fun m hm => ⟨hstop m hm, ?_⟩, ⟨?_, ?_⟩, ⟨?_, ?_⟩⟩
  · obtain ⟨keys, hk⟩ := hstop m hm
    exact ⟨keys, by rw [cli_generateUniqueKeys_eq]; exact hk⟩
  · rintro ⟨fuel, keys, h⟩
    exact ⟨fuel, hconv fuel keys h⟩
  · rintro ⟨m, hm⟩
    exact ⟨m, hstop m hm⟩
  · rintro ⟨fuel, keys, h⟩
    rw [cli_generateUniqueKeys_eq] at h
    exact ⟨fuel, hconv fuel keys h⟩
  · rintro ⟨m, hm⟩
    obtain ⟨keys, hk⟩ := hstop m hm
    exact ⟨m, keys, by rw [cli_generateUniqueKeys_eq]; exact hk⟩

/-! ## The caps on the batch size -/

/-- C14. Admin generation cap: a generate request whose count
(`parseInt(req.body.count) || 100`) is above 10,000 is answered 400 with an
error body without keys, whatever the draws and without running the loop, and
the store is unchanged; a request that is not refused and is answered appends
at most 10,000 licenses. -/
theorem C14_admin_generation_cap (rt : Runtime) (st : Store) (req : GenerateRequest)
    (env : Ambient) (fuel : Nat) :
    (parsedCount req > 10000 →
      apiAdminGenerate rt st req env fuel =
        some (st, some (errorResponse 400 "Cannot generate more than 10,000 keys at once")) ∧
      (errorResponse 400 "Cannot generate more than 10,000 keys at once").status = 400 ∧
      (errorResponse 400 "Cannot generate more than 10,000 keys at once").keys = none) ∧
    (∀ (st1 : Store) (r : Option Response),
      ¬ parsedCount req > 10000 →
      apiAdminGenerate rt st req env fuel = some (st1, r) →
      ∃ extra : Store, st1 = st ++ extra ∧ extra.length ≤ 10000) := by
  constructor
  · intro h
    refine ⟨?_, rfl, rfl⟩
    unfold apiAdminGenerate
    rw [if_pos h]
  · intro st1 r hle h
    unfold apiAdminGenerate at h
    rw [if_neg hle] at h
    cases hk : generateUniqueKeys env.random (parsedCount req) fuel 0 [] with
    | none => rw [hk] at h; cases h
    | some keys =>
      rw [hk] at h
      obtain ⟨_, hlen⟩ := generateUniqueKeys_result env.random (parsedCount req) fuel 0 []
        keys List.nodup_nil (by simp) hk
      obtain ⟨extra, hins, hcount⟩ := insertMany_count env.clock keys 0 st
      refine ⟨extra, ?_, by omega⟩
      rw [← hins]
      simp only at h
      split at h
      · rename_i st2 thrown heq
        cases h
        rw [heq]
      · rename_i st2 heq
        cases h
        rw [heq]

/-- Distinct blocks below 1296 of the stream `digitStream` give distinct
keys. -/
theorem digitStream_key_injective (b c : Nat) (hb : b < 1296) (hc : c < 1296)
    (h : generateLicenseKey digitStream (0 + 16 * b) =
      generateLicenseKey digitStream (0 + 16 * c)) : b = c := by
  have hlt : ∀ i, digitStream i < 36 := by
    intro i
    unfold digitStream
    split
    · exact Nat.mod_lt _ (by decide)
    · split
      · exact Nat.mod_lt _ (by decide)
      · decide
  have hl := congrArg String.toList h
  rw [generateLicenseKey_toList _ _ hlt, generateLicenseKey_toList _ _ hlt] at hl
  simp only [keyList, List.cons.injEq] at hl
  have e0 := chars_getD_injective _ (hlt _) _ (hlt _) hl.1
  have e1 := chars_getD_injective _ (hlt _) _ (hlt _) hl.2.1
  have d0 : ∀ x : Nat, digitStream (0 + 16 * x + 0) = x % 36 := by
    intro x
    unfold digitStream
    rw [if_pos (by omega)]
    congr 1
    omega
  have d1 : ∀ x : Nat, digitStream (0 + 16 * x + 1) = x / 36 % 36 := by
    intro x
    unfold digitStream
    rw [if_neg (by omega), if_pos (by omega)]
    congr 2
    omega
  rw [d0, d0] at e0
  rw [d1, d1] at e1
  omega

/-- C15 as stated fails: for the count 1001 the offline path generates and
saves 1001 keys (on a sequence of draws whose first 1001 keys are
distinct). -/
theorem C15_counterexample :
    ∃ keys : List String,
      KeyGenerator.generateOfflineKeys digitStream (some 1001) 1001 =
        some (OfflineGeneration.saved keys) ∧
      keys.length = 1001 := by
  have hnd : ((List.range 1001).map
      (fun b => generateLicenseKey digitStream (0 + 16 * b))).Nodup := by
    apply List.Nodup.map_on _ (List.nodup_range 1001)
    intro b hb c hc h
    rw [List.mem_range] at hb hc
    exact digitStream_key_injective b c (by omega) (by omega) h
  obtain ⟨keys, hk⟩ := generateUniqueKeys_stops digitStream 1001 1001 0 []
    (by
      rw [List.toFinset_nil, Finset.empty_union, List.toFinset_card_of_nodup hnd]
      simp)
  obtain ⟨_, hlen⟩ := generateUniqueKeys_result digitStream 1001 1001 0 [] keys
    List.nodup_nil (by simp) hk
  refine ⟨keys, ?_, by omega⟩
  simp only [KeyGenerator.generateOfflineKeys, cli_generateUniqueKeys_eq, hk]
  rfl

/-- C15, amended. The offline path `generateOfflineKeys` refuses a count
exactly when it is not a number, below 1 or above 10,000, the cap of the admin
path; for a count from 1 to 10,000 on which the loop finishes it saves exactly
that many distinct keys. The cap of 1,000 is the one of the online path
`generateKeys`, which refuses a count exactly when it is not a number, below 1
or above 1,000, and otherwise sends it to the admin generate operation. -/
theorem C15_offline_generation_cap (random : Nat → Nat) (count : Option Int) (fuel : Nat) :
    (KeyGenerator.generateOfflineKeys random count fuel =
        some OfflineGeneration.invalidCount ↔
      (count = none ∨ ∃ n, count = some n ∧ (n < 1 ∨ n > 10000))) ∧
    (∀ (n : Int) (keys : List String), count = some n →
      KeyGenerator.generateOfflineKeys random count fuel =
        some (OfflineGeneration.saved keys) →
      1 ≤ n ∧ n ≤ 10000 ∧ (keys.length : Int) = n ∧ keys.Nodup) ∧
    (KeyGenerator.generateKeys count = none ↔
      (count = none ∨ ∃ n, count = some n ∧ (n < 1 ∨ n > 1000))) ∧
    (∀ req, KeyGenerator.generateKeys count = some req → req.count = count) := by
  cases count with
  | none =>
    refine ⟨by simp [KeyGenerator.generateOfflineKeys], ?_, by simp [KeyGenerator.generateKeys],
      by simp [KeyGenerator.generateKeys]⟩
    intro n keys h
    cases h
  | some c =>
    refine ⟨?_, ?_, ?_, ?_⟩
    · simp only [KeyGenerator.generateOfflineKeys]
      by_cases hc : c < 1 ∨ c > 10000
      · simp [hc]
      · rw [if_neg hc]
        cases KeyGenerator.generateUniqueKeys random c fuel 0 [] <;> simp [hc]
    · intro n keys hn h
      cases hn
      simp only [KeyGenerator.generateOfflineKeys] at h
      by_cases hc : c < 1 ∨ c > 10000
      · rw [if_pos hc] at h
        cases h
      · rw [if_neg hc] at h
        cases hk : KeyGenerator.generateUniqueKeys random c fuel 0 [] with
        | none => rw [hk] at h; cases h
        | some ks =>
          rw [hk] at h
          simp only [Option.some.injEq, OfflineGeneration.saved.injEq] at h
          subst h
          rw [cli_generateUniqueKeys_eq] at hk
          obtain ⟨hnd, hlen⟩ := generateUniqueKeys_result random c fuel 0 [] ks
            List.nodup_nil (by simp) hk
          exact ⟨by omega, by omega, by omega, hnd⟩
    · simp only [KeyGenerator.generateKeys]
      by_cases hc : c < 1 ∨ c > 1000
      · simp [hc]
      · simp [hc]
    · intro req h
      simp only [KeyGenerator.generateKeys] at h
      by_cases hc : c < 1 ∨ c > 1000
      · rw [if_pos hc] at h
        cases h
      · rw [if_neg hc] at h
        cases h
        rfl

/-! ## Admin routes -/

theorem selectExclude_licenseDocument (l : License) :
    selectExclude "systemFingerprint" (licenseDocument l) =
      selectExclude "systemFingerprint" (licenseDocument (withoutFingerprint l)) := by
  simp [selectExclude, licenseDocument, withoutFingerprint]

theorem selectExclude_members (field : String) (members : List (String × Json)) :
    ∃ ms, selectExclude field (Json.obj members) = Json.obj ms ∧ ∀ m ∈ ms, m.1 ≠ field := by
  refine ⟨members.filter (fun m => decide (m.1 ≠ field)), rfl, ?_⟩
  intro m hm
  simpa using (List.mem_filter.mp hm).2

theorem listFilter_withoutFingerprint (q : ListQuery) (l : License) :
    listFilter q (withoutFingerprint l) = listFilter q l := rfl

/-- The documents that match, newest first, of a store without its hashes. -/
theorem newestFirst_filter_withoutFingerprint (q : ListQuery) (st : Store) :
    newestFirst ((st.map withoutFingerprint).filter (listFilter q)) =
      (newestFirst (st.filter (listFilter q))).map withoutFingerprint := by
  unfold newestFirst
  rw [List.filter_map]
  have hf : (listFilter q ∘ withoutFingerprint) = listFilter q :=
    funext (listFilter_withoutFingerprint q)
  rw [hf]
  have hsort :
      ((st.filter (listFilter q)).insertionSort
          (fun a b : License => a.createdAt ≥ b.createdAt)).map withoutFingerprint =
        ((st.filter (listFilter q)).map withoutFingerprint).insertionSort
          (fun a b : License => a.createdAt ≥ b.createdAt) :=
    List.map_insertionSort (fun a b : License => a.createdAt ≥ b.createdAt)
      (fun a b : License => a.createdAt ≥ b.createdAt) withoutFingerprint
      (st.filter (listFilter q)) (fun a _ b _ => Iff.rfl)
  exact hsort.symm

/-- The list response does not depend on the stored hashes. -/
theorem apiAdminLicenses_withoutFingerprint (st : Store) (q : ListQuery) :
    apiAdminLicenses (st.map withoutFingerprint) q = apiAdminLicenses st q := by
  unfold apiAdminLicenses
  rw [newestFirst_filter_withoutFingerprint]
  have hlen : ((st.map withoutFingerprint).filter (listFilter q)).length =
      (st.filter (listFilter q)).length := by
    rw [List.filter_map]
    have hf : (listFilter q ∘ withoutFingerprint) = listFilter q :=
      funext (listFilter_withoutFingerprint q)
    rw [hf, List.length_map]
  rw [hlen]
  split
  · rfl
  · simp only [← List.map_drop, ← List.map_take, List.map_map, List.length_map]
    have hdoc : (fun l => selectExclude "systemFingerprint" (licenseDocument l)) ∘
        withoutFingerprint = fun l => selectExclude "systemFingerprint" (licenseDocument l) :=
      funext (fun l => (selectExclude_licenseDocument l).symm)
    rw [hdoc]

/-- Stores that differ only in the stored hashes are equal without them. -/
theorem map_withoutFingerprint_eq (st1 st2 : Store)
    (h : List.Forall₂ (fun a b => b = { a with systemFingerprint := b.systemFingerprint })
      st1 st2) :
    st1.map withoutFingerprint = st2.map withoutFingerprint := by
  induction h with
  | nil => rfl
  | cons hab _ ih =>
    rw [List.map_cons, List.map_cons, ih]
    congr 1
    rw [hab]
    rfl

/-- C16. Listings never expose the fingerprint hash: for every store and every
query (filter, page, limit), each record of the admin list response is an
object without a member `systemFingerprint`; and two stores that differ only
in the stored fingerprint hashes of their licenses give the same list
response. -/
theorem C16_listing_hides_fingerprint (st1 st2 : Store) (q : ListQuery) :
    (∀ doc ∈ (apiAdminLicenses st1 q).licenses,
      ∃ members, doc = Json.obj members ∧ ∀ m ∈ members, m.1 ≠ "systemFingerprint") ∧
    (List.Forall₂ (fun a b => b = { a with systemFingerprint := b.systemFingerprint })
        st1 st2 →
      apiAdminLicenses st1 q = apiAdminLicenses st2 q) := by
  constructor
  · intro doc hdoc
    unfold apiAdminLicenses at hdoc
    split at hdoc
    · simp at hdoc
    · simp only [List.mem_map] at hdoc
      obtain ⟨l, _, rfl⟩ := hdoc
      exact selectExclude_members _ _
  · intro h
    rw [← apiAdminLicenses_withoutFingerprint st1, ← apiAdminLicenses_withoutFingerprint st2,
      map_withoutFingerprint_eq st1 st2 h]

/-- C16 at the scenario: the store with the license activated under `F1` and
the store with the same license and another hash. -/
theorem C16_listing_hides_fingerprint_witness :
    List.Forall₂ (fun a b => b = { a with systemFingerprint := b.systemFingerprint })
      [scenarioLicense1] [{ scenarioLicense1 with systemFingerprint := some "other" }] ∧
    (∀ doc ∈ (apiAdminLicenses [scenarioLicense1]
        { page := none, limit := none, activated := some "true" }).licenses,
      ∃ members, doc = Json.obj members ∧ ∀ m ∈ members, m.1 ≠ "systemFingerprint") ∧
    apiAdminLicenses [scenarioLicense1]
        { page := none, limit := none, activated := some "true" } =
      apiAdminLicenses [{ scenarioLicense1 with systemFingerprint := some "other" }]
        { page := none, limit := none, activated := some "true" } :=
  ⟨List.Forall₂.cons rfl List.Forall₂.nil,
    (C16_listing_hides_fingerprint [scenarioLicense1]
      [{ scenarioLicense1 with systemFingerprint := some "other" }]
      { page := none, limit := none, activated := some "true" }).1,
    (C16_listing_hides_fingerprint [scenarioLicense1]
      [{ scenarioLicense1 with systemFingerprint := some "other" }]
      { page := none, limit := none, activated := some "true" }).2
      (List.Forall₂.cons rfl List.Forall₂.nil)⟩

/-- Middleware `requireAdmin` answers 401 when the header is missing, empty or
the key of no admin. -/
theorem requireAdmin_denies (admins : List Admin) (apiKey : Option String)
    (h : apiKey = none ∨ ∃ key, apiKey = some key ∧ ∀ a ∈ admins, a.apiKey ≠ key) :
    ∃ r : Response, requireAdmin admins apiKey = some r ∧ r.status = 401 ∧
      r.success = none ∧ r.keys = none := by
  rcases h with rfl | ⟨key, rfl, hkey⟩
  · exact ⟨_, rfl, rfl, rfl, rfl⟩
  · by_cases he : key = ""
    · exact ⟨errorResponse 401 "API key required", by simp [requireAdmin, he], rfl, rfl, rfl⟩
    · have hfind : admins.find? (fun a => decide (a.apiKey = key)) = none := by
        rw [List.find?_eq_none]
        intro a ha
        simpa using hkey a ha
      exact ⟨errorResponse 401 "Invalid API key", by simp [requireAdmin, he, hfind],
        rfl, rfl, rfl⟩

/-- C17. Admin operations require an authenticated principal: when the header
`x-api-key` is missing or is the `apiKey` of no stored admin, `requireAdmin`
sends a response of status 401 and does not call the handler: each of the
routes revoke, generate, list and stats gives that response whatever the
request, the draws and the fuel, and revoke and generate return the store
unchanged (list and stats have no write). -/
theorem C17_admin_requires_principal (rt : Runtime) (admins : List Admin) (st : Store)
    (apiKey : Option String)
    (h : apiKey = none ∨ ∃ key, apiKey = some key ∧ ∀ a ∈ admins, a.apiKey ≠ key) :
    ∃ r : Response, r.status = 401 ∧
      (∀ (req : RevokeRequest) (env : Ambient),
        adminRevokeRoute rt admins st apiKey req env = (st, some r)) ∧
      (∀ (req : GenerateRequest) (env : Ambient) (fuel : Nat),
        adminGenerateRoute rt admins st apiKey req env fuel = some (st, some r)) ∧
      (∀ q : ListQuery, adminLicensesRoute admins st apiKey q = Except.error r) ∧
      (∀ (toFixed2 : Nat → Nat → String) (env : Ambient),
        adminStatsRoute toFixed2 admins st apiKey env = Except.error r) := by
  obtain ⟨r, hr, hs, _, _⟩ := requireAdmin_denies admins apiKey h
  refine ⟨r, hs, ?_, ?_, ?_, ?_⟩
  · intro req env
    simp only [adminRevokeRoute, hr]
  · intro req env fuel
    simp only [adminGenerateRoute, hr]
  · intro q
    simp only [adminLicensesRoute, hr]
  · intro toFixed2 env
    simp only [adminStatsRoute, hr]

/-- C17 at the scenario: a wrong key against the default admin, on the store
with the activated license; with the right key the revoke is run. -/
theorem C17_admin_requires_principal_witness :
    (some "wrong-key" = none ∨
      ∃ key, some "wrong-key" = some key ∧ ∀ a ∈ [scenarioAdmin], a.apiKey ≠ key) ∧
    (adminRevokeRoute evalRuntime [scenarioAdmin] scenarioActivated (some "secret-api-key")
        scenarioRevoke (scenarioEnv 20 [])).2 =
      some (messageResponse 200 true "License revoked successfully") ∧
    ∃ r : Response, r.status = 401 ∧
      (∀ (req : RevokeRequest) (env : Ambient),
        adminRevokeRoute evalRuntime [scenarioAdmin] scenarioActivated (some "wrong-key")
          req env = (scenarioActivated, some r)) ∧
      (∀ (req : GenerateRequest) (env : Ambient) (fuel : Nat),
        adminGenerateRoute evalRuntime [scenarioAdmin] scenarioActivated (some "wrong-key")
          req env fuel = some (scenarioActivated, some r)) ∧
      (∀ q : ListQuery,
        adminLicensesRoute [scenarioAdmin] scenarioActivated (some "wrong-key") q =
          Except.error r) ∧
      (∀ (toFixed2 : Nat → Nat → String) (env : Ambient),
        adminStatsRoute toFixed2 [scenarioAdmin] scenarioActivated (some "wrong-key") env =
          Except.error r) :=
  ⟨Or.inr ⟨"wrong-key", rfl, by decide⟩, by decide,
    C17_admin_requires_principal evalRuntime [scenarioAdmin] scenarioActivated
      (some "wrong-key") (Or.inr ⟨"wrong-key", rfl, by decide⟩)⟩

/-! ## The client -/

/-- A value with a member is not `null` and is truthy. -/
theorem prop_some_truthy (j : Json) (key : String) (v : Json) (h : j.prop key = some v) :
    j.truthy = true ∧ j ≠ Json.null := by
  cases j <;> simp [Json.prop] at h <;> simp [Json.truthy]

/-- Method `validateOffline` on a file that decrypts and parses to a value
with a member for the key. -/
theorem validateOffline_entry (crt : ClientRuntime) (text decrypted : String)
    (cache entry : Json) (licenseKey systemHash : String)
    (hd : ProtectionLayer.decryptOfflineData crt text = some decrypted)
    (hp : crt.jsonParse decrypted = some cache)
    (he : cache.prop licenseKey = some entry) :
    ProtectionLayer.validateOffline crt (FileState.content text) licenseKey systemHash =
      if entry.truthy && isString (entry.prop "systemHash") systemHash then
        { success := true, message := "License validated offline",
          machineId := entry.prop "machineId" }
      else
        { success := false, message := "License not found in offline cache",
          machineId := none } := by
  have hnn := (prop_some_truthy cache licenseKey entry he).2
  unfold ProtectionLayer.validateOffline
  simp only [hd, hp]
  cases cache with
  | null => exact absurd rfl hnn
  | bool b => simp only [he]
  | num n => simp only [he]
  | str s => simp only [he]
  | arr items => simp only [he]
  | obj members => simp only [he]

/-- Method `validateOffline` succeeds only on a file that decrypts and parses
to a value with a member for the key whose `systemHash` is the given one. -/
theorem validateOffline_success (crt : ClientRuntime) (offlineFile : FileState)
    (licenseKey systemHash : String)
    (h : (ProtectionLayer.validateOffline crt offlineFile licenseKey systemHash).success =
      true) :
    ∃ (text decrypted : String) (cache entry : Json),
      offlineFile = FileState.content text ∧
      ProtectionLayer.decryptOfflineData crt text = some decrypted ∧
      crt.jsonParse decrypted = some cache ∧
      cache.prop licenseKey = some entry ∧
      entry.prop "systemHash" = some (Json.str systemHash) := by
  cases offlineFile with
  | missing => simp [ProtectionLayer.validateOffline] at h
  | unreadable => simp [ProtectionLayer.validateOffline] at h
  | content text =>
    cases hd : ProtectionLayer.decryptOfflineData crt text with
    | none => simp [ProtectionLayer.validateOffline, hd] at h
    | some decrypted =>
      cases hp : crt.jsonParse decrypted with
      | none => simp [ProtectionLayer.validateOffline, hd, hp] at h
      | some cache =>
        cases he : cache.prop licenseKey with
        | none =>
          cases cache <;> simp [ProtectionLayer.validateOffline, hd, hp, he] at h
        | some entry =>
          rw [validateOffline_entry crt text decrypted cache entry licenseKey systemHash
            hd hp he] at h
          refine ⟨text, decrypted, cache, entry, rfl, hd, hp, he, ?_⟩
          split at h
          · rename_i hc
            simp only [Bool.and_eq_true] at hc
            have hs := hc.2
            unfold isString at hs
            split at hs
            · rename_i t heq
              simp only [decide_eq_true_eq] at hs
              rw [heq, hs]
            · cases hs
          · cases h

/-! ## The promise of the client -/

/-- When the request ends with one of the events that `validateWithServer`
listens to, the promise of `validateAndLaunch` is resolved with the result of
the method on that event. -/
theorem validateAndLaunchPromise_ends (rt : Runtime) (crt : ClientRuntime)
    (state : ClientState) (env : ClientEnv) (inputLicenseKey : KeyField) :
    ProtectionLayer.validateAndLaunchPromise rt crt state env
        (RequestFate.ends env.transport) inputLicenseKey =
      (Settlement.resolved
          (ProtectionLayer.validateAndLaunch rt crt state env inputLicenseKey).1,
        (ProtectionLayer.validateAndLaunch rt crt state env inputLicenseKey).2.1,
        (ProtectionLayer.validateAndLaunch rt crt state env inputLicenseKey).2.2) := by
  unfold ProtectionLayer.validateAndLaunchPromise ProtectionLayer.validateAndLaunchTry
    ProtectionLayer.validateAndLaunch ProtectionLayer.validateWithServerPromise
  cases inputLicenseKey with
  | missing => rfl
  | nonString t => rfl
  | str input =>
    simp only
    by_cases hformat : keyFormatTest (jsTrim (rt.toUpperCase input)) = true
    · simp only [hformat, Bool.not_true, Bool.false_eq_true, if_false]
      cases ProtectionLayer.getSystemFingerprint env.os with
      | none => rfl
      | some fp =>
        simp only
        by_cases hs : (ProtectionLayer.validateWithServer crt env.transport).success = true
        · simp [hs]
        · by_cases ho : (ProtectionLayer.validateWithServer crt env.transport).offline = true
          · by_cases hc : (ProtectionLayer.validateOffline crt state.offlineFile
                (jsTrim (rt.toUpperCase input))
                (ProtectionLayer.hashSystemFingerprint rt fp)).success = true
            · simp [hs, ho, hc]
            · simp [hs, ho, hc]
          · simp [hs, ho]
    · have hf : keyFormatTest (jsTrim (rt.toUpperCase input)) = false :=
        eq_false_of_ne_true hformat
      simp only [hf, Bool.not_false, if_true]

/-- A call that does not reach the request returns whatever becomes of the
request. -/
theorem validateAndLaunchPromise_not_reached (rt : Runtime) (crt : ClientRuntime)
    (state : ClientState) (env : ClientEnv) (fate other : RequestFate)
    (inputLicenseKey : KeyField) (h : reachesRequest rt env inputLicenseKey = false) :
    ProtectionLayer.validateAndLaunchPromise rt crt state env fate inputLicenseKey =
      ProtectionLayer.validateAndLaunchPromise rt crt state env other inputLicenseKey := by
  unfold ProtectionLayer.validateAndLaunchPromise ProtectionLayer.validateAndLaunchTry
  cases inputLicenseKey with
  | missing => rfl
  | nonString t => rfl
  | str input =>
    simp only
    by_cases hformat : keyFormatTest (jsTrim (rt.toUpperCase input)) = true
    · simp only [hformat, Bool.not_true, Bool.false_eq_true, if_false]
      cases hfp : ProtectionLayer.getSystemFingerprint env.os with
      | none => rfl
      | some fp => simp [reachesRequest, hformat, hfp] at h
    · have hf : keyFormatTest (jsTrim (rt.toUpperCase input)) = false :=
        eq_false_of_ne_true hformat
      simp only [hf, Bool.not_false, if_true]

/-- A call that reaches the request: the key and the fingerprint. -/
theorem reachesRequest_iff (rt : Runtime) (env : ClientEnv) (inputLicenseKey : KeyField) :
    reachesRequest rt env inputLicenseKey = true ↔
      ∃ r fp, inputLicenseKey = KeyField.str r ∧
        keyFormatTest (jsTrim (rt.toUpperCase r)) = true ∧
        ProtectionLayer.getSystemFingerprint env.os = some fp := by
  cases inputLicenseKey with
  | missing => simp [reachesRequest]
  | nonString t => simp [reachesRequest]
  | str input =>
    simp only [reachesRequest, Bool.and_eq_true, Option.isSome_iff_exists, KeyField.str.injEq]
    constructor
    · rintro ⟨hf, fp, hfp⟩
      exact ⟨input, fp, rfl, hf, hfp⟩
    · rintro ⟨r, fp, rfl, hf, hfp⟩
      exact ⟨hf, fp, hfp⟩

/-- A request that cannot be built: the error is caught and no request is
made. -/
theorem validateAndLaunchPromise_notBuilt (rt : Runtime) (crt : ClientRuntime)
    (state : ClientState) (env : ClientEnv) (r : String) (fp : Fingerprint)
    (hformat : keyFormatTest (jsTrim (rt.toUpperCase r)) = true)
    (hfp : ProtectionLayer.getSystemFingerprint env.os = some fp) :
    ProtectionLayer.validateAndLaunchPromise rt crt state env RequestFate.notBuilt
        (KeyField.str r) =
      (Settlement.resolved (validationError crt ClientThrown.invalidUrl), state,
        [ClientEvent.fingerprint]) := by
  simp [ProtectionLayer.validateAndLaunchPromise, ProtectionLayer.validateAndLaunchTry,
    ProtectionLayer.validateWithServerPromise, hformat, hfp]

/-- A response that is cut before its end: the promise is never settled. -/
theorem validateAndLaunchPromise_cut (rt : Runtime) (crt : ClientRuntime)
    (state : ClientState) (env : ClientEnv) (r : String) (fp : Fingerprint)
    (hformat : keyFormatTest (jsTrim (rt.toUpperCase r)) = true)
    (hfp : ProtectionLayer.getSystemFingerprint env.os = some fp) :
    ProtectionLayer.validateAndLaunchPromise rt crt state env RequestFate.cut
        (KeyField.str r) =
      (Settlement.pending, state,
        [ClientEvent.fingerprint, ClientEvent.request (jsTrim (rt.toUpperCase r)) fp]) := by
  simp [ProtectionLayer.validateAndLaunchPromise, ProtectionLayer.validateAndLaunchTry,
    ProtectionLayer.validateWithServerPromise, hformat, hfp]

/-- The requests made by a call whose fingerprint is collected and whose
request ends with one of the three events. -/
theorem serverCalls_validateAndLaunch (rt : Runtime) (crt : ClientRuntime)
    (state : ClientState) (env : ClientEnv) (r : String) (fp : Fingerprint)
    (hformat : keyFormatTest (jsTrim (rt.toUpperCase r)) = true)
    (hfp : ProtectionLayer.getSystemFingerprint env.os = some fp) :
    serverCalls (ProtectionLayer.validateAndLaunch rt crt state env (KeyField.str r)).2.2 =
      [ClientEvent.request (jsTrim (rt.toUpperCase r)) fp] := by
  simp only [ProtectionLayer.validateAndLaunch, hformat, hfp]
  split
  · cases ‹Bool.not true = true›
  · split
    · rfl
    · split
      · split <;> rfl
      · rfl

/-- C18 as stated fails: the key matches the pattern and the call makes no
request to the server. On a machine where `os.cpus()` is empty,
`getSystemFingerprint` throws; on the machine of the scenario with a server URL
that is no URL, `new URL` throws inside `validateWithServer`. Either error is
caught by the `catch` block, which returns the error result. -/
theorem C18_counterexample :
    keyFormatTest (jsTrim (evalRuntime.toUpperCase " test-0001-aaaa-bbbb ")) = true ∧
    (ProtectionLayer.getSystemFingerprint scenarioOsNoCpu = none ∧
      (ProtectionLayer.validateAndLaunchPromise evalRuntime evalClientRuntime scenarioClient
        (scenarioClientEnv scenarioOsNoCpu (Transport.response 409 "conflict"))
        (RequestFate.ends (Transport.response 409 "conflict"))
        (KeyField.str " test-0001-aaaa-bbbb ")).2.2 = [ClientEvent.fingerprint] ∧
      serverCalls (ProtectionLayer.validateAndLaunchPromise evalRuntime evalClientRuntime
        scenarioClient (scenarioClientEnv scenarioOsNoCpu (Transport.response 409 "conflict"))
        (RequestFate.ends (Transport.response 409 "conflict"))
        (KeyField.str " test-0001-aaaa-bbbb ")).2.2 = []) ∧
    (ProtectionLayer.getSystemFingerprint scenarioOs = some scenarioF1 ∧
      ProtectionLayer.validateAndLaunchPromise evalRuntime evalClientRuntime scenarioClient
          (scenarioClientEnv scenarioOs Transport.error) RequestFate.notBuilt
          (KeyField.str " test-0001-aaaa-bbbb ") =
        (Settlement.resolved
          { success := false,
            message := Json.str "An error occurred during validation: Invalid URL",
            source := none, warning := none },
          scenarioClient, [ClientEvent.fingerprint]) ∧
      serverCalls (ProtectionLayer.validateAndLaunchPromise evalRuntime evalClientRuntime
        scenarioClient (scenarioClientEnv scenarioOs Transport.error) RequestFate.notBuilt
        (KeyField.str " test-0001-aaaa-bbbb ")).2.2 = []) :=
  ⟨by decide, ⟨by decide, by decide, by decide⟩, by decide, rfl, by decide⟩

/-- C18, amended. Number of network attempts per validation: for every raw key
`r`, when the upper-cased and trimmed key does not match the pattern the call
returns the format error and makes no call at all (no request, no
fingerprint, no cache read); when it matches, the call makes at most one
request to the server, never a second one: exactly one, with the normalised
key and the fingerprint, when `getSystemFingerprint` returns and the request
can be built, whatever becomes of the request (a response, an error, a
timeout, or a response that never ends), and none when `getSystemFingerprint`
throws or building the request throws, in which cases the call returns the
error result of the `catch` block. -/
theorem C18_network_attempts (rt : Runtime) (crt : ClientRuntime) (state : ClientState)
    (env : ClientEnv) (fate : RequestFate) (r : String) :
    (keyFormatTest (jsTrim (rt.toUpperCase r)) = false →
      ProtectionLayer.validateAndLaunchPromise rt crt state env fate (KeyField.str r) =
        (Settlement.resolved
          { success := false,
            message :=
              Json.str "Invalid license key format. Please use format: XXXX-XXXX-XXXX-XXXX",
            source := none, warning := none }, state, [])) ∧
    (keyFormatTest (jsTrim (rt.toUpperCase r)) = true →
      (serverCalls (ProtectionLayer.validateAndLaunchPromise rt crt state env fate
        (KeyField.str r)).2.2).length ≤ 1 ∧
      (∀ fp, ProtectionLayer.getSystemFingerprint env.os = some fp →
        fate ≠ RequestFate.notBuilt →
        serverCalls (ProtectionLayer.validateAndLaunchPromise rt crt state env fate
          (KeyField.str r)).2.2 = [ClientEvent.request (jsTrim (rt.toUpperCase r)) fp]) ∧
      (∀ fp, ProtectionLayer.getSystemFingerprint env.os = some fp →
        fate = RequestFate.notBuilt →
        ProtectionLayer.validateAndLaunchPromise rt crt state env fate (KeyField.str r) =
          (Settlement.resolved (validationError crt ClientThrown.invalidUrl), state,
            [ClientEvent.fingerprint])) ∧
      (ProtectionLayer.getSystemFingerprint env.os = none →
        ProtectionLayer.validateAndLaunchPromise rt crt state env fate (KeyField.str r) =
          (Settlement.resolved (validationError crt ClientThrown.noCpuInfo), state,
            [ClientEvent.fingerprint]))) := by
  constructor
  · intro h
    simp [ProtectionLayer.validateAndLaunchPromise, ProtectionLayer.validateAndLaunchTry, h]
  · intro h
    have hone : ∀ fp, ProtectionLayer.getSystemFingerprint env.os = some fp →
        fate ≠ RequestFate.notBuilt →
        serverCalls (ProtectionLayer.validateAndLaunchPromise rt crt state env fate
          (KeyField.str r)).2.2 = [ClientEvent.request (jsTrim (rt.toUpperCase r)) fp] := by
      intro fp hfp hfate
      cases fate with
      | notBuilt => exact absurd rfl hfate
      | cut => rw [validateAndLaunchPromise_cut rt crt state env r fp h hfp]; rfl
      | ends transport =>
        have hlink := validateAndLaunchPromise_ends rt crt state
          { env with transport := transport } (KeyField.str r)
        have hsame : ProtectionLayer.validateAndLaunchPromise rt crt state
            { env with transport := transport } (RequestFate.ends transport) (KeyField.str r) =
            ProtectionLayer.validateAndLaunchPromise rt crt state env
              (RequestFate.ends transport) (KeyField.str r) := rfl
        rw [← hsame, hlink]
        exact serverCalls_validateAndLaunch rt crt state { env with transport := transport }
          r fp h hfp
    have hnot : ∀ fp, ProtectionLayer.getSystemFingerprint env.os = some fp →
        fate = RequestFate.notBuilt →
        ProtectionLayer.validateAndLaunchPromise rt crt state env fate (KeyField.str r) =
          (Settlement.resolved (validationError crt ClientThrown.invalidUrl), state,
            [ClientEvent.fingerprint]) := by
      rintro fp hfp rfl
      exact validateAndLaunchPromise_notBuilt rt crt state env r fp h hfp
    have hnone : ProtectionLayer.getSystemFingerprint env.os = none →
        ProtectionLayer.validateAndLaunchPromise rt crt state env fate (KeyField.str r) =
          (Settlement.resolved (validationError crt ClientThrown.noCpuInfo), state,
            [ClientEvent.fingerprint]) := by
      intro hfp
      simp [ProtectionLayer.validateAndLaunchPromise, ProtectionLayer.validateAndLaunchTry, h,
        hfp]
    refine ⟨?_, hone, hnot, hnone⟩
    cases hfp : ProtectionLayer.getSystemFingerprint env.os with
    | none => rw [hnone hfp]; exact Nat.zero_le 1
    | some fp =>
      by_cases hfate : fate = RequestFate.notBuilt
      · rw [hnot fp hfp hfate]; exact Nat.zero_le 1
      · rw [hone fp hfp hfate]; exact Nat.le_refl 1

/-- C18, amended, at the malformed key of the specification, and at the
scenario key with a response that never ends. -/
theorem C18_network_attempts_witness :
    (keyFormatTest (jsTrim (evalRuntime.toUpperCase "ab-cd-ef-gh")) = false ∧
      keyFormatTest (jsTrim (evalRuntime.toUpperCase " test-0001-aaaa-bbbb ")) = true ∧
      ProtectionLayer.getSystemFingerprint scenarioOs = some scenarioF1 ∧
      RequestFate.cut ≠ RequestFate.notBuilt) ∧
    ProtectionLayer.validateAndLaunchPromise evalRuntime evalClientRuntime scenarioClient
        (scenarioClientEnv scenarioOs Transport.timeout) (RequestFate.ends Transport.timeout)
        (KeyField.str "ab-cd-ef-gh") =
      (Settlement.resolved
        { success := false,
          message :=
            Json.str "Invalid license key format. Please use format: XXXX-XXXX-XXXX-XXXX",
          source := none, warning := none }, scenarioClient, []) ∧
    serverCalls (ProtectionLayer.validateAndLaunchPromise evalRuntime evalClientRuntime
        scenarioClient (scenarioClientEnv scenarioOs Transport.timeout) RequestFate.cut
        (KeyField.str " test-0001-aaaa-bbbb ")).2.2 =
      [ClientEvent.request (jsTrim (evalRuntime.toUpperCase " test-0001-aaaa-bbbb "))
        scenarioF1] :=
  ⟨⟨by decide, by decide, by decide, by decide⟩,
    (C18_network_attempts evalRuntime evalClientRuntime scenarioClient
      (scenarioClientEnv scenarioOs Transport.timeout) (RequestFate.ends Transport.timeout)
      "ab-cd-ef-gh").1 (by decide),
    ((C18_network_attempts evalRuntime evalClientRuntime scenarioClient
      (scenarioClientEnv scenarioOs Transport.timeout) RequestFate.cut
      " test-0001-aaaa-bbbb ").2 (by decide)).2.1 scenarioF1 (by decide) (by decide)⟩

/-- C19. Business rejections never fall back to the cache: when the key passes
the format check, the fingerprint is collected and the server answers with a
status other than 200 and a JSON body whose `message` is a non-empty string,
`validateAndLaunch` returns `success: false` with exactly that message (and
`source: 'server'`), makes no call of `validateOffline` and none of
`launchProtectedExe`, and leaves the state, with the flag `isValidated`, as it
was, whatever the offline cache holds. -/
theorem C19_business_rejection_no_fallback (rt : Runtime) (crt : ClientRuntime)
    (state : ClientState) (env : ClientEnv) (r : String) (fp : Fingerprint)
    (statusCode : Nat) (data : String) (body : Json) (m : String)
    (hformat : keyFormatTest (jsTrim (rt.toUpperCase r)) = true)
    (hfp : ProtectionLayer.getSystemFingerprint env.os = some fp)
    (htransport : env.transport = Transport.response statusCode data)
    (hstatus : statusCode ≠ 200)
    (hbody : crt.jsonParse data = some body)
    (hmessage : body.prop "message" = some (Json.str m)) (hm : m ≠ "") :
    ProtectionLayer.validateAndLaunch rt crt state env (KeyField.str r) =
      ({ success := false, message := Json.str m, source := some "server", warning := none },
        state,
        [ClientEvent.fingerprint, ClientEvent.request (jsTrim (rt.toUpperCase r)) fp]) ∧
    ClientEvent.cacheRead ∉
      (ProtectionLayer.validateAndLaunch rt crt state env (KeyField.str r)).2.2 ∧
    ClientEvent.launch ∉
      (ProtectionLayer.validateAndLaunch rt crt state env (KeyField.str r)).2.2 ∧
    (ProtectionLayer.validateAndLaunch rt crt state env (KeyField.str r)).2.1.isValidated =
      state.isValidated := by
  have hserver : ProtectionLayer.validateWithServer crt env.transport =
      { success := false, message := some (Json.str m), machineId := none,
        offline := false } := by
    rw [htransport]
    unfold ProtectionLayer.validateWithServer
    simp only [hbody]
    have hnn := (prop_some_truthy body "message" _ hmessage).2
    cases body with
    | null => exact absurd rfl hnn
    | bool b => simp [hstatus, hmessage, truthyValue, Json.truthy, hm]
    | num n => simp [hstatus, hmessage, truthyValue, Json.truthy, hm]
    | str s => simp [hstatus, hmessage, truthyValue, Json.truthy, hm]
    | arr items => simp [hstatus, hmessage, truthyValue, Json.truthy, hm]
    | obj members => simp [hstatus, hmessage, truthyValue, Json.truthy, hm]
  have hresult : ProtectionLayer.validateAndLaunch rt crt state env (KeyField.str r) =
      ({ success := false, message := Json.str m, source := some "server", warning := none },
        state,
        [ClientEvent.fingerprint, ClientEvent.request (jsTrim (rt.toUpperCase r)) fp]) := by
    simp [ProtectionLayer.validateAndLaunch, hformat, hfp, hserver]
  rw [hresult]
  exact ⟨rfl, by simp, by simp, rfl⟩

/-- C19 at the scenario: the 409 of the server reaches the user although the
offline cache holds the entry of the key for this machine. -/
theorem C19_business_rejection_no_fallback_witness :
    (keyFormatTest (jsTrim (evalRuntime.toUpperCase " test-0001-aaaa-bbbb ")) = true ∧
      ProtectionLayer.getSystemFingerprint scenarioOs = some scenarioF1 ∧
      (409 : Nat) ≠ 200 ∧
      (ProtectionLayer.validateOffline evalClientRuntime scenarioClient.offlineFile
        scenarioKey (ProtectionLayer.hashSystemFingerprint evalRuntime scenarioF1)).success =
        true) ∧
    (ProtectionLayer.validateAndLaunch evalRuntime evalClientRuntime scenarioClient
        (scenarioClientEnv scenarioOs (Transport.response 409 "conflict"))
        (KeyField.str " test-0001-aaaa-bbbb ") =
      ({ success := false, message := Json.str (conflictMessage (some "0123456789ABCDEF")),
         source := some "server", warning := none },
        scenarioClient,
        [ClientEvent.fingerprint,
          ClientEvent.request (jsTrim (evalRuntime.toUpperCase " test-0001-aaaa-bbbb "))
            scenarioF1]) ∧
    ClientEvent.cacheRead ∉
      (ProtectionLayer.validateAndLaunch evalRuntime evalClientRuntime scenarioClient
        (scenarioClientEnv scenarioOs (Transport.response 409 "conflict"))
        (KeyField.str " test-0001-aaaa-bbbb ")).2.2 ∧
    ClientEvent.launch ∉
      (ProtectionLayer.validateAndLaunch evalRuntime evalClientRuntime scenarioClient
        (scenarioClientEnv scenarioOs (Transport.response 409 "conflict"))
        (KeyField.str " test-0001-aaaa-bbbb ")).2.2 ∧
    (ProtectionLayer.validateAndLaunch evalRuntime evalClientRuntime scenarioClient
        (scenarioClientEnv scenarioOs (Transport.response 409 "conflict"))
        (KeyField.str " test-0001-aaaa-bbbb ")).2.1.isValidated =
      scenarioClient.isValidated) :=
  ⟨⟨by decide, by decide, by decide, by decide⟩,
    C19_business_rejection_no_fallback evalRuntime evalClientRuntime scenarioClient
      (scenarioClientEnv scenarioOs (Transport.response 409 "conflict"))
      " test-0001-aaaa-bbbb " scenarioF1 409 "conflict" scenarioConflictBody
      (conflictMessage (some "0123456789ABCDEF"))
      (by decide) (by decide) rfl (by decide) rfl rfl (by decide)⟩

/-- C20. Offline single-machine check: `validateOffline(K, h)` returns success
exactly when the cache file exists, decrypts and parses to a value with a
member for `K` whose `systemHash` is the string `h`; the `machineId` it then
returns is the `machineId` of that member. Hence a call of `validateAndLaunch`
whose request fails at transport level (error or timeout) launches only when
the fingerprint is collected and the cache holds, for the normalised key, a
member whose `systemHash` is the client digest of that fingerprint. -/
theorem C20_offline_single_machine_check (rt : Runtime) (crt : ClientRuntime)
    (offlineFile : FileState) (licenseKey systemHash : String) :
    ((ProtectionLayer.validateOffline crt offlineFile licenseKey systemHash).success = true ↔
      ∃ (text decrypted : String) (cache entry : Json),
        offlineFile = FileState.content text ∧
        ProtectionLayer.decryptOfflineData crt text = some decrypted ∧
        crt.jsonParse decrypted = some cache ∧
        cache.prop licenseKey = some entry ∧
        entry.prop "systemHash" = some (Json.str systemHash)) ∧
    (∀ (text decrypted : String) (cache entry : Json),
      offlineFile = FileState.content text →
      ProtectionLayer.decryptOfflineData crt text = some decrypted →
      crt.jsonParse decrypted = some cache →
      cache.prop licenseKey = some entry →
      (ProtectionLayer.validateOffline crt offlineFile licenseKey systemHash).success = true →
      (ProtectionLayer.validateOffline crt offlineFile licenseKey systemHash).machineId =
        entry.prop "machineId") ∧
    (∀ (state : ClientState) (env : ClientEnv) (r : String),
      env.transport = Transport.error ∨ env.transport = Transport.timeout →
      ClientEvent.launch ∈
        (ProtectionLayer.validateAndLaunch rt crt state env (KeyField.str r)).2.2 →
      ∃ (fp : Fingerprint) (text decrypted : String) (cache entry : Json),
        ProtectionLayer.getSystemFingerprint env.os = some fp ∧
        state.offlineFile = FileState.content text ∧
        ProtectionLayer.decryptOfflineData crt text = some decrypted ∧
        crt.jsonParse decrypted = some cache ∧
        cache.prop (jsTrim (rt.toUpperCase r)) = some entry ∧
        entry.prop "systemHash" =
          some (Json.str (ProtectionLayer.hashSystemFingerprint rt fp))) := by
  refine ⟨⟨validateOffline_success crt offlineFile licenseKey systemHash, ?_⟩, ?_, ?_⟩
  · rintro ⟨text, decrypted, cache, entry, rfl, hd, hp, he, hs⟩
    rw [validateOffline_entry crt text decrypted cache entry licenseKey systemHash hd hp he]
    have ht := (prop_some_truthy entry "systemHash" _ hs).1
    simp [ht, hs, isString]
  · intro text decrypted cache entry hf hd hp he hsucc
    subst hf
    rw [validateOffline_entry crt text decrypted cache entry licenseKey systemHash hd hp he]
      at hsucc ⊢
    split
    · rfl
    · rename_i hc
      rw [if_neg hc] at hsucc
      cases hsucc
  · intro state env r ht hlaunch
    have hoff : (ProtectionLayer.validateWithServer crt env.transport).success = false ∧
        (ProtectionLayer.validateWithServer crt env.transport).offline = true := by
      rcases ht with ht | ht <;> rw [ht] <;> exact ⟨rfl, rfl⟩
    by_cases hformat : keyFormatTest (jsTrim (rt.toUpperCase r)) = true
    · cases hfp : ProtectionLayer.getSystemFingerprint env.os with
      | none =>
        simp [ProtectionLayer.validateAndLaunch, hformat, hfp] at hlaunch
      | some fp =>
        by_cases hsucc : (ProtectionLayer.validateOffline crt state.offlineFile
            (jsTrim (rt.toUpperCase r))
            (ProtectionLayer.hashSystemFingerprint rt fp)).success = true
        · obtain ⟨text, decrypted, cache, entry, h1, h2, h3, h4, h5⟩ :=
            validateOffline_success crt state.offlineFile _ _ hsucc
          exact ⟨fp, text, decrypted, cache, entry, rfl, h1, h2, h3, h4, h5⟩
        · simp [ProtectionLayer.validateAndLaunch, hformat, hfp, hoff.1, hoff.2, hsucc]
            at hlaunch
    · simp [ProtectionLayer.validateAndLaunch, hformat] at hlaunch

/-- C20 at the scenario: on the machine of the scenario the cached entry
validates offline, and on a machine with another hostname it does not. -/
theorem C20_offline_single_machine_check_witness :
    (ProtectionLayer.validateOffline evalClientRuntime scenarioCacheFile scenarioKey
        (ProtectionLayer.hashSystemFingerprint evalRuntime scenarioF1)).success = true ∧
    (ProtectionLayer.validateOffline evalClientRuntime scenarioCacheFile scenarioKey
        (ProtectionLayer.hashSystemFingerprint evalRuntime scenarioF2)).success = false ∧
    ((ProtectionLayer.validateOffline evalClientRuntime scenarioCacheFile scenarioKey
        (ProtectionLayer.hashSystemFingerprint evalRuntime scenarioF1)).success = true ↔
      ∃ (text decrypted : String) (cache entry : Json),
        scenarioCacheFile = FileState.content text ∧
        ProtectionLayer.decryptOfflineData evalClientRuntime text = some decrypted ∧
        evalClientRuntime.jsonParse decrypted = some cache ∧
        cache.prop scenarioKey = some entry ∧
        entry.prop "systemHash" =
          some (Json.str (ProtectionLayer.hashSystemFingerprint evalRuntime scenarioF1))) :=
  ⟨by decide, by decide,
    (C20_offline_single_machine_check evalRuntime evalClientRuntime scenarioCacheFile
      scenarioKey (ProtectionLayer.hashSystemFingerprint evalRuntime scenarioF1)).1⟩

/-! ## The cipher text of the cache file -/

theorem splitOn_not_mem (c : Char) (l : List Char) (h : c ∉ l) : splitOn c l = [l] := by
  induction l with
  | nil => rfl
  | cons x xs ih =>
    have hx : x ≠ c := fun e => h (e ▸ List.mem_cons_self x xs)
    have hxs : c ∉ xs := fun e => h (List.mem_cons_of_mem x e)
    simp [splitOn, hx, ih hxs]

theorem splitOn_append_cons (c : Char) (a b : List Char) (h : c ∉ a) :
    splitOn c (a ++ c :: b) = a :: splitOn c b := by
  induction a with
  | nil => simp [splitOn]
  | cons x xs ih =>
    have hx : x ≠ c := fun e => h (e ▸ List.mem_cons_self x xs)
    have hxs : c ∉ xs := fun e => h (List.mem_cons_of_mem x e)
    simp [splitOn, hx, ih hxs]

theorem hexValue_hexDigitLower (n : Nat) (h : n < 16) :
    hexValue (hexDigitLower n) = some n := by
  revert n
  decide

theorem hexValue_ne_colon (c : Char) (h : (hexValue c).isSome = true) : c ≠ ':' := by
  rintro rfl
  revert h
  decide

theorem bufferToHex_toList_cons (b : Nat) (bytes : List Nat) :
    (bufferToHex (b :: bytes)).toList =
      hexDigitLower (b / 16 % 16) :: hexDigitLower (b % 16) :: (bufferToHex bytes).toList := by
  simp [bufferToHex]

theorem bufferToHex_hex (bytes : List Nat) :
    ∀ c ∈ (bufferToHex bytes).toList, (hexValue c).isSome = true := by
  induction bytes with
  | nil => simp [bufferToHex]
  | cons b bs ih =>
    intro c hc
    rw [bufferToHex_toList_cons] at hc
    simp only [List.mem_cons] at hc
    rcases hc with rfl | rfl | hc
    · rw [hexValue_hexDigitLower _ (Nat.mod_lt _ (by decide))]; rfl
    · rw [hexValue_hexDigitLower _ (Nat.mod_lt _ (by decide))]; rfl
    · exact ih c hc

theorem bufferFromHex_bufferToHex (bytes : List Nat) (h : ∀ b ∈ bytes, b < 256) :
    bufferFromHex (bufferToHex bytes).toList = bytes := by
  induction bytes with
  | nil => simp [bufferToHex, bufferFromHex]
  | cons b bs ih =>
    have hb : b < 256 := h b (List.mem_cons_self b bs)
    rw [bufferToHex_toList_cons, bufferFromHex,
      hexValue_hexDigitLower _ (Nat.mod_lt _ (by decide)),
      hexValue_hexDigitLower _ (Nat.mod_lt _ (by decide))]
    simp only
    rw [ih (fun x hx => h x (List.mem_cons_of_mem b hx))]
    congr 1
    omega

/-- The blob of `encryptOfflineData` splits on the colon into the hexadecimal
IV and the cipher text. -/
theorem splitOn_encryptOfflineData (crt : ClientRuntime) (iv : List Nat) (data : String)
    (hc : ∀ c ∈ (crt.cipher iv data).toList, (hexValue c).isSome = true) :
    splitOn ':' (ProtectionLayer.encryptOfflineData crt iv data).toList =
      [(bufferToHex iv).toList, (crt.cipher iv data).toList] := by
  have h1 : ':' ∉ (bufferToHex iv).toList :=
    fun hm => hexValue_ne_colon ':' (bufferToHex_hex iv ':' hm) rfl
  have h2 : ':' ∉ (crt.cipher iv data).toList :=
    fun hm => hexValue_ne_colon ':' (hc ':' hm) rfl
  have hl : (ProtectionLayer.encryptOfflineData crt iv data).toList =
      (bufferToHex iv).toList ++ ':' :: (crt.cipher iv data).toList := by
    simp [ProtectionLayer.encryptOfflineData]
  rw [hl, splitOn_append_cons ':' _ _ h1, splitOn_not_mem ':' _ h2]

/-- Method `decryptOfflineData` on the blob of `encryptOfflineData`. -/
theorem decrypt_encrypt (crt : ClientRuntime) (iv : List Nat) (data : String)
    (hiv : ∀ b ∈ iv, b < 256) (hc : Deciphers crt iv data) :
    ProtectionLayer.decryptOfflineData crt (ProtectionLayer.encryptOfflineData crt iv data) =
      some data := by
  unfold ProtectionLayer.decryptOfflineData
  rw [splitOn_encryptOfflineData crt iv data hc.1]
  simp only [bufferFromHex_bufferToHex iv hiv]
  exact hc.2

/-! ## Assignment to a member of the cache map -/

theorem find_map_replace (members : List (String × Json)) (key : String) (value : Json)
    (h : members.any (fun m => decide (m.1 = key)) = true) :
    (members.map (fun m => if m.1 = key then (key, value) else m)).find?
        (fun m => decide (m.1 = key)) = some (key, value) := by
  induction members with
  | nil => simp at h
  | cons m ms ih =>
    by_cases hm : m.1 = key
    · simp [hm]
    · have hms : ms.any (fun m => decide (m.1 = key)) = true := by
        simpa [hm] using h
      simp [hm, ih hms]

theorem find_map_replace_other (members : List (String × Json)) (key other : String)
    (value : Json) (hne : other ≠ key) :
    (members.map (fun m => if m.1 = key then (key, value) else m)).find?
        (fun m => decide (m.1 = other)) =
      members.find? (fun m => decide (m.1 = other)) := by
  induction members with
  | nil => rfl
  | cons m ms ih =>
    obtain ⟨k, v⟩ := m
    have h1 : ¬ key = other := fun e => hne e.symm
    by_cases hm : k = key
    · subst hm
      rw [List.map_cons, if_pos rfl, List.find?_cons_of_neg _ (by simpa using h1),
        List.find?_cons_of_neg _ (by simpa using h1), ih]
    · rw [List.map_cons, if_neg hm]
      by_cases ho : k = other
      · subst ho
        rw [List.find?_cons_of_pos _ (by simp), List.find?_cons_of_pos _ (by simp)]
      · rw [List.find?_cons_of_neg _ (by simpa using ho),
          List.find?_cons_of_neg _ (by simpa using ho), ih]

theorem find_insertMember (members : List (String × Json)) (key : String) (value : Json)
    (h : members.any (fun m => decide (m.1 = key)) = false) :
    (insertMember members key value).find? (fun m => decide (m.1 = key)) =
      some (key, value) := by
  have hnone : ∀ l : List (String × Json), (∀ m ∈ l, m ∈ members) →
      l.find? (fun m => decide (m.1 = key)) = none := by
    intro l hl
    rw [List.find?_eq_none]
    intro m hm
    have := List.any_eq_false.mp h m (hl m hm)
    simpa using this
  unfold insertMember
  split
  · rw [List.find?_append, hnone members (fun m hm => hm)]
    simp
  · rw [List.find?_append, hnone _ (fun m hm => (List.takeWhile_sublist _).subset hm)]
    simp

theorem find_insertMember_other (members : List (String × Json)) (key other : String)
    (value : Json) (hne : other ≠ key) :
    (insertMember members key value).find? (fun m => decide (m.1 = other)) =
      members.find? (fun m => decide (m.1 = other)) := by
  have hk : ¬ key = other := fun e => hne e.symm
  unfold insertMember
  split
  · rw [List.find?_append]
    simp [hk]
  · rename_i i _
    rw [List.find?_append, List.find?_cons_of_neg _ (by simpa using hk), ← List.find?_append,
      List.takeWhile_append_dropWhile]

/-- After `map[key] = value` on an object, `map[key]` is `value`, for every
key other than `__proto__`. -/
theorem setProp_obj_prop (members : List (String × Json)) (key : String) (value : Json)
    (hkey : key ≠ "__proto__") :
    ∃ ms, (Json.obj members).setProp key value = some (Json.obj ms) ∧
      (Json.obj ms).prop key = some value := by
  by_cases h : members.any (fun m => decide (m.1 = key)) = true
  · refine ⟨members.map (fun m => if m.1 = key then (key, value) else m), ?_, ?_⟩
    · simp only [Json.setProp, h, if_true]
    · simp only [Json.prop, find_map_replace members key value h]
      rfl
  · have h0 : members.any (fun m => decide (m.1 = key)) = false := eq_false_of_ne_true h
    refine ⟨insertMember members key value, ?_, ?_⟩
    · simp only [Json.setProp, h0, hkey, if_false, Bool.false_eq_true]
    · simp only [Json.prop, find_insertMember members key value h0]
      rfl

/-- The assignment `map[key] = value` on an object gives an object and leaves
the member of every other key as it was. -/
theorem setProp_obj_other (members : List (String × Json)) (key : String) (value : Json) :
    ∃ ms, (Json.obj members).setProp key value = some (Json.obj ms) ∧
      ∀ other, other ≠ key → (Json.obj ms).prop other = (Json.obj members).prop other := by
  by_cases h : members.any (fun m => decide (m.1 = key)) = true
  · refine ⟨members.map (fun m => if m.1 = key then (key, value) else m), ?_, ?_⟩
    · simp only [Json.setProp, h, if_true]
    · intro other hne
      simp only [Json.prop, find_map_replace_other members key other value hne]
  · have h0 : members.any (fun m => decide (m.1 = key)) = false := eq_false_of_ne_true h
    by_cases hp : key = "__proto__"
    · refine ⟨members, ?_, fun _ _ => rfl⟩
      simp only [Json.setProp, h0, if_pos hp, if_false, Bool.false_eq_true]
    · refine ⟨insertMember members key value, ?_, ?_⟩
      · simp only [Json.setProp, h0, hp, if_false, Bool.false_eq_true]
      · intro other hne
        simp only [Json.prop, find_insertMember_other members key other value hne]

/-- A license key is not the name `__proto__`. -/
theorem keyFormatTest_ne_proto (key : String) (h : keyFormatTest key = true) :
    key ≠ "__proto__" := by
  rintro rfl
  revert h
  decide

theorem offlineEntry_truthy (systemHash : String) (machineId : Option Json) (now : Nat) :
    (offlineEntry systemHash machineId now).truthy = true := rfl

theorem offlineEntry_systemHash (systemHash : String) (machineId : Option Json) (now : Nat) :
    (offlineEntry systemHash machineId now).prop "systemHash" = some (Json.str systemHash) := by
  simp [offlineEntry, Json.prop]

theorem offlineEntry_machineId (systemHash : String) (machineId : Option Json) (now : Nat) :
    (offlineEntry systemHash machineId now).prop "machineId" = machineId := by
  cases machineId <;> simp [offlineEntry, Json.prop]

/-! ## One write of the cache -/

/-- Method `saveOfflineLicense` in terms of the map that it stringifies. -/
theorem saveOfflineLicense_eq (crt : ClientRuntime) (offlineFile : FileState)
    (licenseKey systemHash : String) (machineId : Option Json) (now : Nat) (iv : List Nat)
    (writeFails : Bool) :
    ProtectionLayer.saveOfflineLicense crt offlineFile licenseKey systemHash machineId now iv
        writeFails =
      match offlineLicensesAfter crt offlineFile licenseKey systemHash machineId now with
      | none => offlineFile
      | some updated =>
        if writeFails then offlineFile
        else
          FileState.content
            (ProtectionLayer.encryptOfflineData crt iv (crt.jsonStringify updated)) := by
  unfold ProtectionLayer.saveOfflineLicense offlineLicensesAfter offlineLicensesBefore
  cases offlineFile with
  | missing => rfl
  | unreadable => rfl
  | content text =>
    simp only
    cases ProtectionLayer.decryptOfflineData crt text with
    | none => rfl
    | some decrypted =>
      simp only
      cases crt.jsonParse decrypted <;> rfl

/-- A failed write leaves the file as it was. -/
theorem saveOfflineLicense_writeFails (crt : ClientRuntime) (offlineFile : FileState)
    (licenseKey systemHash : String) (machineId : Option Json) (now : Nat) (iv : List Nat) :
    ProtectionLayer.saveOfflineLicense crt offlineFile licenseKey systemHash machineId now iv
      true = offlineFile := by
  rw [saveOfflineLicense_eq]
  split <;> simp

/-- The file that a write leaves, read back: it decrypts to the JSON text of
the map written, and that text parses to the map. -/
theorem saveOfflineLicense_read (crt : ClientRuntime) (offlineFile : FileState)
    (licenseKey systemHash : String) (machineId : Option Json) (now : Nat) (iv : List Nat)
    (updated : Json) (hiv : IsIv iv)
    (hafter : offlineLicensesAfter crt offlineFile licenseKey systemHash machineId now =
      some updated)
    (hlaws : WriteLaws crt offlineFile licenseKey systemHash machineId now iv) :
    ∃ text, ProtectionLayer.saveOfflineLicense crt offlineFile licenseKey systemHash machineId
        now iv false = FileState.content text ∧
      ProtectionLayer.decryptOfflineData crt text = some (crt.jsonStringify updated) ∧
      crt.jsonParse (crt.jsonStringify updated) = some updated := by
  obtain ⟨hp, hd⟩ := hlaws updated hafter
  refine ⟨ProtectionLayer.encryptOfflineData crt iv (crt.jsonStringify updated), ?_, ?_, hp⟩
  · rw [saveOfflineLicense_eq, hafter]
    rfl
  · exact decrypt_encrypt crt iv _ hiv.2 hd

/-- A file that decrypts and parses to a value is the map that the next write
starts from. -/
theorem offlineLicensesBefore_content (crt : ClientRuntime) (text decrypted : String)
    (parsed : Json) (hd : ProtectionLayer.decryptOfflineData crt text = some decrypted)
    (hp : crt.jsonParse decrypted = some parsed) :
    offlineLicensesBefore crt (FileState.content text) = some parsed := by
  simp only [offlineLicensesBefore, hd, hp]

/-- A cache file that the client produced is absent or holds a JSON object. -/
theorem Written.holds_map {crt : ClientRuntime} {offlineFile : FileState}
    (h : Written crt offlineFile) :
    offlineFile = FileState.missing ∨
      ∃ (text : String) (members : List (String × Json)),
        offlineFile = FileState.content text ∧
        ProtectionLayer.decryptOfflineData crt text =
          some (crt.jsonStringify (Json.obj members)) ∧
        crt.jsonParse (crt.jsonStringify (Json.obj members)) = some (Json.obj members) := by
  induction h with
  | absent => exact Or.inl rfl
  | write file key systemHash machineId now iv writeFails _ _ hiv hlaws ih =>
    cases writeFails with
    | true => rw [saveOfflineLicense_writeFails]; exact ih
    | false =>
      have hbefore : ∃ members, offlineLicensesBefore crt file = some (Json.obj members) := by
        rcases ih with rfl | ⟨text, members, rfl, hd, hp⟩
        · exact ⟨[], rfl⟩
        · exact ⟨members, offlineLicensesBefore_content crt text _ _ hd hp⟩
      obtain ⟨members, hb⟩ := hbefore
      obtain ⟨ms, hset, _⟩ :=
        setProp_obj_other members key (offlineEntry systemHash machineId now)
      have hafter : offlineLicensesAfter crt file key systemHash machineId now =
          some (Json.obj ms) := by
        simp only [offlineLicensesAfter, hb, hset]
      obtain ⟨text, h1, h2, h3⟩ :=
        saveOfflineLicense_read crt file key systemHash machineId now iv _ hiv hafter hlaws
      exact Or.inr ⟨text, ms, h1, h2, h3⟩

/-- The map that the next write starts from, for a file that the client
produced. -/
theorem Written.before {crt : ClientRuntime} {offlineFile : FileState}
    (h : Written crt offlineFile) :
    ∃ members, offlineLicensesBefore crt offlineFile = some (Json.obj members) := by
  rcases h.holds_map with rfl | ⟨text, members, rfl, hd, hp⟩
  · exact ⟨[], rfl⟩
  · exact ⟨members, offlineLicensesBefore_content crt text _ _ hd hp⟩

/-- A write into a map, then a read of the key: the entry written is found. -/
theorem validateOffline_saveOfflineLicense (crt : ClientRuntime) (offlineFile : FileState)
    (licenseKey systemHash : String) (machineId : Option Json) (now : Nat) (iv : List Nat)
    (members : List (String × Json))
    (hbefore : offlineLicensesBefore crt offlineFile = some (Json.obj members))
    (hkey : licenseKey ≠ "__proto__") (hiv : IsIv iv)
    (hlaws : WriteLaws crt offlineFile licenseKey systemHash machineId now iv) :
    ProtectionLayer.validateOffline crt
        (ProtectionLayer.saveOfflineLicense crt offlineFile licenseKey systemHash machineId
          now iv false) licenseKey systemHash =
      { success := true, message := "License validated offline", machineId := machineId } := by
  obtain ⟨ms, hset, hprop⟩ :=
    setProp_obj_prop members licenseKey (offlineEntry systemHash machineId now) hkey
  have hafter : offlineLicensesAfter crt offlineFile licenseKey systemHash machineId now =
      some (Json.obj ms) := by
    simp only [offlineLicensesAfter, hbefore, hset]
  obtain ⟨text, h1, h2, h3⟩ :=
    saveOfflineLicense_read crt offlineFile licenseKey systemHash machineId now iv _ hiv
      hafter hlaws
  rw [h1, validateOffline_entry crt text _ (Json.obj ms) _ licenseKey systemHash h2 h3 hprop]
  simp [offlineEntry_truthy, offlineEntry_systemHash, offlineEntry_machineId, isString]

/-! ## Online validation, then offline validation -/

/-- A successful response of the server: the steps of `validateAndLaunch`. -/
theorem validateAndLaunch_online (rt : Runtime) (crt : ClientRuntime) (state : ClientState)
    (env : ClientEnv) (r : String) (fp : Fingerprint)
    (hformat : keyFormatTest (jsTrim (rt.toUpperCase r)) = true)
    (hfp : ProtectionLayer.getSystemFingerprint env.os = some fp)
    (hserver : (ProtectionLayer.validateWithServer crt env.transport).success = true) :
    ProtectionLayer.validateAndLaunch rt crt state env (KeyField.str r) =
      ({ success := (ProtectionLayer.launchProtectedExe env.launch).1,
         message := Json.str (ProtectionLayer.launchProtectedExe env.launch).2,
         source := none, warning := none },
        { isValidated := true,
          offlineFile :=
            ProtectionLayer.saveOfflineLicense crt state.offlineFile
              (jsTrim (rt.toUpperCase r)) (ProtectionLayer.hashSystemFingerprint rt fp)
              (ProtectionLayer.validateWithServer crt env.transport).machineId
              env.now env.iv env.writeFails },
        [ClientEvent.fingerprint, ClientEvent.request (jsTrim (rt.toUpperCase r)) fp,
          ClientEvent.cacheWrite, ClientEvent.launch]) := by
  simp [ProtectionLayer.validateAndLaunch, hformat, hfp, hserver]

/-- A request that fails at transport level, with the entry in the cache: the
steps of `validateAndLaunch`. -/
theorem validateAndLaunch_offline (rt : Runtime) (crt : ClientRuntime) (state : ClientState)
    (env : ClientEnv) (r : String) (fp : Fingerprint)
    (hformat : keyFormatTest (jsTrim (rt.toUpperCase r)) = true)
    (hfp : ProtectionLayer.getSystemFingerprint env.os = some fp)
    (hdown : env.transport = Transport.error ∨ env.transport = Transport.timeout)
    (hcache : (ProtectionLayer.validateOffline crt state.offlineFile
      (jsTrim (rt.toUpperCase r)) (ProtectionLayer.hashSystemFingerprint rt fp)).success =
        true) :
    ProtectionLayer.validateAndLaunch rt crt state env (KeyField.str r) =
      ({ success := (ProtectionLayer.launchProtectedExe env.launch).1,
         message := Json.str
           ((ProtectionLayer.launchProtectedExe env.launch).2 ++ " (Validated offline)"),
         source := none,
         warning := some "Running in offline mode. Some features may be limited." },
        { state with isValidated := true },
        [ClientEvent.fingerprint, ClientEvent.request (jsTrim (rt.toUpperCase r)) fp,
          ClientEvent.cacheRead, ClientEvent.launch]) := by
  have hoff : (ProtectionLayer.validateWithServer crt env.transport).success = false ∧
      (ProtectionLayer.validateWithServer crt env.transport).offline = true := by
    rcases hdown with ht | ht <;> rw [ht] <;> exact ⟨rfl, rfl⟩
  simp [ProtectionLayer.validateAndLaunch, hformat, hfp, hoff.1, hoff.2, hcache]

/-- C21 as stated fails: the cache file holds a JSON array. The server answers
200, `saveOfflineLicense` assigns the entry to the array and writes the file,
and `JSON.stringify` leaves the entry out; the later call on the same machine,
with the server unreachable, does not find the entry. -/
theorem C21_counterexample :
    (ProtectionLayer.validateAndLaunch evalRuntime hexClientRuntime
        { isValidated := false, offlineFile := listCacheFile } scenarioOnlineEnv
        (KeyField.str " test-0001-aaaa-bbbb ")).1.success = true ∧
    (ProtectionLayer.validateAndLaunch evalRuntime hexClientRuntime
        { isValidated := false, offlineFile := listCacheFile } scenarioOnlineEnv
        (KeyField.str " test-0001-aaaa-bbbb ")).2 =
      ({ isValidated := true, offlineFile := listCacheFile },
        [ClientEvent.fingerprint, ClientEvent.request scenarioKey scenarioF1,
          ClientEvent.cacheWrite, ClientEvent.launch]) ∧
    offlineLicensesAfter hexClientRuntime listCacheFile scenarioKey
        (ProtectionLayer.hashSystemFingerprint evalRuntime scenarioF1)
        (some (Json.str "0123456789ABCDEF")) 12 = some (Json.arr []) ∧
    ProtectionLayer.getSystemFingerprint scenarioOfflineEnv.os =
      ProtectionLayer.getSystemFingerprint scenarioOnlineEnv.os ∧
    (ProtectionLayer.validateAndLaunch evalRuntime hexClientRuntime
        { isValidated := true, offlineFile := listCacheFile } scenarioOfflineEnv
        (KeyField.str " test-0001-aaaa-bbbb ")).1.success = false ∧
    (ProtectionLayer.validateAndLaunch evalRuntime hexClientRuntime
        { isValidated := true, offlineFile := listCacheFile } scenarioOfflineEnv
        (KeyField.str " test-0001-aaaa-bbbb ")).1.message =
      Json.str
        "License not found in offline cache Please connect to the internet and try again." ∧
    (ProtectionLayer.validateAndLaunch evalRuntime hexClientRuntime
        { isValidated := true, offlineFile := listCacheFile } scenarioOfflineEnv
        (KeyField.str " test-0001-aaaa-bbbb ")).2.2 =
      [ClientEvent.fingerprint, ClientEvent.request scenarioKey scenarioF1,
        ClientEvent.cacheRead] :=
  ⟨by decide, by decide, rfl, by decide, by decide, rfl, by decide⟩

/-- C21, amended. Online success enables later offline use on the same
machine: when `validateAndLaunch(r)` gets a success from the server on a
machine with fingerprint `fp`, the cache file can be read and written and
holds, before the call, no JSON value other than an object (it is absent, not
usable, or decrypts to an object), then the call writes the entry for the
normalised key under the client digest of `fp` with the `machineId` of the
response; a later call on a machine with the same fingerprint whose request
fails at transport level reads the cache, `validateOffline` succeeds for the
same digest (the same function `hashSystemFingerprint`, salt
`SYSTEM_SALT_2024`) with that `machineId`, the session is marked validated and
the launch step is run. -/
theorem C21_online_success_enables_offline (rt : Runtime) (crt : ClientRuntime)
    (state : ClientState) (env later : ClientEnv) (r : String) (fp : Fingerprint)
    (members : List (String × Json))
    (hformat : keyFormatTest (jsTrim (rt.toUpperCase r)) = true)
    (hfp : ProtectionLayer.getSystemFingerprint env.os = some fp)
    (hsame : ProtectionLayer.getSystemFingerprint later.os = some fp)
    (hserver : (ProtectionLayer.validateWithServer crt env.transport).success = true)
    (hprior : offlineLicensesBefore crt state.offlineFile = some (Json.obj members))
    (hwrite : env.writeFails = false) (hiv : IsIv env.iv)
    (hlaws : WriteLaws crt state.offlineFile (jsTrim (rt.toUpperCase r))
      (ProtectionLayer.hashSystemFingerprint rt fp)
      (ProtectionLayer.validateWithServer crt env.transport).machineId env.now env.iv)
    (hdown : later.transport = Transport.error ∨ later.transport = Transport.timeout) :
    (ProtectionLayer.validateAndLaunch rt crt state env (KeyField.str r)).2.1.offlineFile =
      ProtectionLayer.saveOfflineLicense crt state.offlineFile (jsTrim (rt.toUpperCase r))
        (rt.sha256Hex (rt.jsonStringify fp ++ "SYSTEM_SALT_2024"))
        (ProtectionLayer.validateWithServer crt env.transport).machineId env.now env.iv
        false ∧
    ProtectionLayer.validateOffline crt
        (ProtectionLayer.validateAndLaunch rt crt state env (KeyField.str r)).2.1.offlineFile
        (jsTrim (rt.toUpperCase r))
        (rt.sha256Hex (rt.jsonStringify fp ++ "SYSTEM_SALT_2024")) =
      { success := true, message := "License validated offline",
        machineId := (ProtectionLayer.validateWithServer crt env.transport).machineId } ∧
    ProtectionLayer.validateAndLaunch rt crt
        (ProtectionLayer.validateAndLaunch rt crt state env (KeyField.str r)).2.1 later
        (KeyField.str r) =
      ({ success := (ProtectionLayer.launchProtectedExe later.launch).1,
         message := Json.str
           ((ProtectionLayer.launchProtectedExe later.launch).2 ++ " (Validated offline)"),
         source := none,
         warning := some "Running in offline mode. Some features may be limited." },
        { (ProtectionLayer.validateAndLaunch rt crt state env (KeyField.str r)).2.1 with
          isValidated := true },
        [ClientEvent.fingerprint, ClientEvent.request (jsTrim (rt.toUpperCase r)) fp,
          ClientEvent.cacheRead, ClientEvent.launch]) := by
  have hread := validateOffline_saveOfflineLicense crt state.offlineFile
    (jsTrim (rt.toUpperCase r)) (ProtectionLayer.hashSystemFingerprint rt fp)
    (ProtectionLayer.validateWithServer crt env.transport).machineId env.now env.iv members
    hprior (keyFormatTest_ne_proto _ hformat) hiv hlaws
  have hfile :
      (ProtectionLayer.validateAndLaunch rt crt state env (KeyField.str r)).2.1.offlineFile =
        ProtectionLayer.saveOfflineLicense crt state.offlineFile (jsTrim (rt.toUpperCase r))
          (ProtectionLayer.hashSystemFingerprint rt fp)
          (ProtectionLayer.validateWithServer crt env.transport).machineId env.now env.iv
          false := by
    rw [validateAndLaunch_online rt crt state env r fp hformat hfp hserver, hwrite]
  refine ⟨hfile, ?_, ?_⟩
  · rw [hfile]
    exact hread
  · apply validateAndLaunch_offline rt crt _ later r fp hformat hsame hdown
    rw [hfile, hread]

/-- C21, amended, at the scenario: no cache file, the server answers 200 with
the machine identifier of the scenario, and the later request fails. -/
theorem C21_online_success_enables_offline_witness :
    (keyFormatTest (jsTrim (evalRuntime.toUpperCase " test-0001-aaaa-bbbb ")) = true ∧
      ProtectionLayer.getSystemFingerprint scenarioOnlineEnv.os = some scenarioF1 ∧
      ProtectionLayer.getSystemFingerprint scenarioOfflineEnv.os = some scenarioF1 ∧
      (ProtectionLayer.validateWithServer hexClientRuntime
        scenarioOnlineEnv.transport).success = true ∧
      (ProtectionLayer.validateWithServer hexClientRuntime
        scenarioOnlineEnv.transport).machineId = some (Json.str "0123456789ABCDEF") ∧
      offlineLicensesBefore hexClientRuntime FileState.missing = some (Json.obj []) ∧
      IsIv scenarioOnlineEnv.iv) ∧
    ((ProtectionLayer.validateAndLaunch evalRuntime hexClientRuntime
        { isValidated := false, offlineFile := FileState.missing } scenarioOnlineEnv
        (KeyField.str " test-0001-aaaa-bbbb ")).2.1.offlineFile =
      ProtectionLayer.saveOfflineLicense hexClientRuntime FileState.missing
        (jsTrim (evalRuntime.toUpperCase " test-0001-aaaa-bbbb "))
        (evalRuntime.sha256Hex (evalRuntime.jsonStringify scenarioF1 ++ "SYSTEM_SALT_2024"))
        (ProtectionLayer.validateWithServer hexClientRuntime
          scenarioOnlineEnv.transport).machineId scenarioOnlineEnv.now scenarioOnlineEnv.iv
        false ∧
    ProtectionLayer.validateOffline hexClientRuntime
        (ProtectionLayer.validateAndLaunch evalRuntime hexClientRuntime
          { isValidated := false, offlineFile := FileState.missing } scenarioOnlineEnv
          (KeyField.str " test-0001-aaaa-bbbb ")).2.1.offlineFile
        (jsTrim (evalRuntime.toUpperCase " test-0001-aaaa-bbbb "))
        (evalRuntime.sha256Hex (evalRuntime.jsonStringify scenarioF1 ++ "SYSTEM_SALT_2024")) =
      { success := true, message := "License validated offline",
        machineId := (ProtectionLayer.validateWithServer hexClientRuntime
          scenarioOnlineEnv.transport).machineId } ∧
    ProtectionLayer.validateAndLaunch evalRuntime hexClientRuntime
        (ProtectionLayer.validateAndLaunch evalRuntime hexClientRuntime
          { isValidated := false, offlineFile := FileState.missing } scenarioOnlineEnv
          (KeyField.str " test-0001-aaaa-bbbb ")).2.1 scenarioOfflineEnv
        (KeyField.str " test-0001-aaaa-bbbb ") =
      ({ success := (ProtectionLayer.launchProtectedExe scenarioOfflineEnv.launch).1,
         message := Json.str
           ((ProtectionLayer.launchProtectedExe scenarioOfflineEnv.launch).2 ++
             " (Validated offline)"),
         source := none,
         warning := some "Running in offline mode. Some features may be limited." },
        { (ProtectionLayer.validateAndLaunch evalRuntime hexClientRuntime
            { isValidated := false, offlineFile := FileState.missing } scenarioOnlineEnv
            (KeyField.str " test-0001-aaaa-bbbb ")).2.1 with isValidated := true },
        [ClientEvent.fingerprint,
          ClientEvent.request (jsTrim (evalRuntime.toUpperCase " test-0001-aaaa-bbbb "))
            scenarioF1,
          ClientEvent.cacheRead, ClientEvent.launch])) :=
  ⟨⟨by decide, by decide, by decide, by decide, rfl, rfl, by decide, by decide⟩,
    C21_online_success_enables_offline evalRuntime hexClientRuntime
      { isValidated := false, offlineFile := FileState.missing } scenarioOnlineEnv
      scenarioOfflineEnv " test-0001-aaaa-bbbb " scenarioF1 []
      (by decide) (by decide) (by decide) (by decide) rfl rfl ⟨by decide, by decide⟩
      (fun updated h =>
        Option.some.inj h ▸
          (show ParsesBack hexClientRuntime scenarioCache ∧
              Deciphers hexClientRuntime scenarioIv "cache" from
            ⟨rfl, by decide, by decide⟩))
      (Or.inl rfl)⟩

/-! ## The cache round trip -/

/-- C22. Offline cache round trip: starting from an absent cache file or one
produced by earlier writes, for every license key `K`, digest `h`, machine
identifier `m` (absent or any JSON value) and every sixteen bytes drawn as IV,
`saveOfflineLicense(K, h, m)` followed by `validateOffline(K, h)` succeeds
with `machineId` `m`. This relies on the platform reading its own texts back
(`WriteLaws`): for every text whose cipher text is hexadecimal and deciphers
back under the IV, the blob `<hex-IV>:<hex-ciphertext>` of `encryptOfflineData`
splits on the colon into exactly these two parts and `decryptOfflineData`
returns the text. -/
theorem C22_offline_cache_round_trip (crt : ClientRuntime) (offlineFile : FileState)
    (licenseKey systemHash : String) (machineId : Option Json) (now : Nat) (iv : List Nat)
    (hfile : Written crt offlineFile) (hkey : keyFormatTest licenseKey = true)
    (hiv : IsIv iv)
    (hlaws : WriteLaws crt offlineFile licenseKey systemHash machineId now iv) :
    ProtectionLayer.validateOffline crt
        (ProtectionLayer.saveOfflineLicense crt offlineFile licenseKey systemHash machineId
          now iv false) licenseKey systemHash =
      { success := true, message := "License validated offline", machineId := machineId } ∧
    (∀ data : String, Deciphers crt iv data →
      splitOn ':' (ProtectionLayer.encryptOfflineData crt iv data).toList =
        [(bufferToHex iv).toList, (crt.cipher iv data).toList] ∧
      ProtectionLayer.decryptOfflineData crt
        (ProtectionLayer.encryptOfflineData crt iv data) = some data) := by
  obtain ⟨members, hbefore⟩ := hfile.before
  exact ⟨validateOffline_saveOfflineLicense crt offlineFile licenseKey systemHash machineId
      now iv members hbefore (keyFormatTest_ne_proto _ hkey) hiv hlaws,
    fun data hd => ⟨splitOn_encryptOfflineData crt iv data hd.1,
      decrypt_encrypt crt iv data hiv.2 hd⟩⟩

/-- C22 at the scenario: the file that a first write of the scenario entry
produced, and a second write of that entry. -/
theorem C22_offline_cache_round_trip_witness :
    (Written hexClientRuntime
        (ProtectionLayer.saveOfflineLicense hexClientRuntime FileState.missing scenarioKey
          (ProtectionLayer.hashSystemFingerprint evalRuntime scenarioF1)
          (some (Json.str "0123456789ABCDEF")) 12 scenarioIv false) ∧
      keyFormatTest scenarioKey = true ∧ IsIv scenarioIv ∧
      Deciphers hexClientRuntime scenarioIv "cache") ∧
    (ProtectionLayer.validateOffline hexClientRuntime
        (ProtectionLayer.saveOfflineLicense hexClientRuntime
          (ProtectionLayer.saveOfflineLicense hexClientRuntime FileState.missing scenarioKey
            (ProtectionLayer.hashSystemFingerprint evalRuntime scenarioF1)
            (some (Json.str "0123456789ABCDEF")) 12 scenarioIv false)
          scenarioKey (ProtectionLayer.hashSystemFingerprint evalRuntime scenarioF1)
          (some (Json.str "0123456789ABCDEF")) 12 scenarioIv false)
        scenarioKey (ProtectionLayer.hashSystemFingerprint evalRuntime scenarioF1) =
      { success := true, message := "License validated offline",
        machineId := some (Json.str "0123456789ABCDEF") } ∧
    (∀ data : String, Deciphers hexClientRuntime scenarioIv data →
      splitOn ':' (ProtectionLayer.encryptOfflineData hexClientRuntime scenarioIv
          data).toList =
        [(bufferToHex scenarioIv).toList, (hexClientRuntime.cipher scenarioIv data).toList] ∧
      ProtectionLayer.decryptOfflineData hexClientRuntime
        (ProtectionLayer.encryptOfflineData hexClientRuntime scenarioIv data) = some data)) :=
  ⟨⟨Written.write FileState.missing scenarioKey _ _ 12 scenarioIv false Written.absent
        (by decide) ⟨by decide, by decide⟩
        (fun updated h =>
          Option.some.inj h ▸
            (show ParsesBack hexClientRuntime scenarioCache ∧
                Deciphers hexClientRuntime scenarioIv "cache" from
              ⟨rfl, by decide, by decide⟩)),
      by decide, ⟨by decide, by decide⟩, by decide, by decide⟩,
    C22_offline_cache_round_trip hexClientRuntime
      (ProtectionLayer.saveOfflineLicense hexClientRuntime FileState.missing scenarioKey
        (ProtectionLayer.hashSystemFingerprint evalRuntime scenarioF1)
        (some (Json.str "0123456789ABCDEF")) 12 scenarioIv false)
      scenarioKey (ProtectionLayer.hashSystemFingerprint evalRuntime scenarioF1)
      (some (Json.str "0123456789ABCDEF")) 12 scenarioIv
      (Written.write FileState.missing scenarioKey _ _ 12 scenarioIv false Written.absent
        (by decide) ⟨by decide, by decide⟩
        (fun updated h =>
          Option.some.inj h ▸
            (show ParsesBack hexClientRuntime scenarioCache ∧
                Deciphers hexClientRuntime scenarioIv "cache" from
              ⟨rfl, by decide, by decide⟩)))
      (by decide) ⟨by decide, by decide⟩
      (fun updated h =>
        Option.some.inj h ▸
          (show ParsesBack hexClientRuntime scenarioCache ∧
              Deciphers hexClientRuntime scenarioIv "cache" from
            ⟨rfl, by decide, by decide⟩))⟩

/-! ## Files that are not a cache -/

/-- The result of the `catch` block of `validateOffline` (lines 415-422). -/
theorem validateOffline_not_decrypted (crt : ClientRuntime) (text : String)
    (licenseKey systemHash : String)
    (h : ProtectionLayer.decryptOfflineData crt text = none) :
    ProtectionLayer.validateOffline crt (FileState.content text) licenseKey systemHash =
      { success := false, message := "Offline validation failed", machineId := none } := by
  simp only [ProtectionLayer.validateOffline, h]

theorem validateOffline_not_parsed (crt : ClientRuntime) (text decrypted : String)
    (licenseKey systemHash : String)
    (hd : ProtectionLayer.decryptOfflineData crt text = some decrypted)
    (hp : crt.jsonParse decrypted = none) :
    ProtectionLayer.validateOffline crt (FileState.content text) licenseKey systemHash =
      { success := false, message := "Offline validation failed", machineId := none } := by
  simp only [ProtectionLayer.validateOffline, hd, hp]

/-- The number of parts of `s.split(c)` is the number of `c` in `s` plus one. -/
theorem splitOn_length (c : Char) (l : List Char) :
    (splitOn c l).length = l.count c + 1 := by
  induction l with
  | nil => rfl
  | cons x xs ih =>
    by_cases hx : x = c
    · subst hx
      simp [splitOn, ih]
    · have hc : (x == c) = false := by simpa using hx
      rw [splitOn, if_neg hx, List.count_cons, hc]
      cases hs : splitOn c xs with
      | nil => rw [hs] at ih; simp at ih
      | cons part parts =>
        rw [hs] at ih
        simpa using ih

/-- A text that has not exactly one colon is refused (line 477). -/
theorem decryptOfflineData_colons (crt : ClientRuntime) (text : String)
    (h : text.toList.count ':' ≠ 1) :
    ProtectionLayer.decryptOfflineData crt text = none := by
  have hlen := splitOn_length ':' text.toList
  unfold ProtectionLayer.decryptOfflineData
  split
  · rename_i iv encrypted heq
    rw [heq] at hlen
    simp only [List.length_cons, List.length_nil] at hlen
    omega
  · rfl

/-- A text with one colon is deciphered with the bytes of its first part. -/
theorem decryptOfflineData_parts (crt : ClientRuntime) (ivHex encrypted : List Char)
    (h1 : ':' ∉ ivHex) (h2 : ':' ∉ encrypted) :
    ProtectionLayer.decryptOfflineData crt (String.mk (ivHex ++ ':' :: encrypted)) =
      crt.decipher (bufferFromHex ivHex) (String.mk encrypted) := by
  unfold ProtectionLayer.decryptOfflineData
  rw [show (String.mk (ivHex ++ ':' :: encrypted)).toList = ivHex ++ ':' :: encrypted from rfl,
    splitOn_append_cons ':' _ _ h1, splitOn_not_mem ':' _ h2]

/-- C23 as stated fails: the part before the colon is the thirty-two
hexadecimal digits of an IV followed by `zz`, which is not hexadecimal.
`Buffer.from(parts[0], 'hex')` reads the leading pairs of hexadecimal digits
and stops at `zz`: the IV has its sixteen bytes, the file is deciphered, and
`validateOffline` returns success for the cached key. -/
theorem C23_counterexample :
    hexValue 'z' = none ∧
    bufferFromHex "000102030405060708090a0b0c0d0e0fzz".toList = scenarioIv ∧
    ProtectionLayer.decryptOfflineData hexClientRuntime
        "000102030405060708090a0b0c0d0e0fzz:6361636865" = some "cache" ∧
    (ProtectionLayer.validateOffline hexClientRuntime
      (FileState.content "000102030405060708090a0b0c0d0e0fzz:6361636865") scenarioKey
      (ProtectionLayer.hashSystemFingerprint evalRuntime scenarioF1)).success = true := by
  decide

/-- C23, amended. Corrupt cache is a miss, never an exception: for every key
and digest, `validateOffline` returns the result `success: false` of its
`catch` block when the file cannot be read, when its text is empty or has no
colon or more than one, when the text that the cipher returns for its two
parts is refused (undecryptable cipher text; on a platform that refuses an IV
of another length than sixteen bytes, every first part whose leading pairs of
hexadecimal digits are not sixteen bytes), and when the deciphered text is not
JSON. -/
theorem C23_corrupt_cache_is_a_miss (crt : ClientRuntime) (licenseKey systemHash : String) :
    ProtectionLayer.validateOffline crt FileState.unreadable licenseKey systemHash =
      { success := false, message := "Offline validation failed", machineId := none } ∧
    ProtectionLayer.validateOffline crt (FileState.content "") licenseKey systemHash =
      { success := false, message := "Offline validation failed", machineId := none } ∧
    (∀ text : String, text.toList.count ':' ≠ 1 →
      ProtectionLayer.validateOffline crt (FileState.content text) licenseKey systemHash =
        { success := false, message := "Offline validation failed", machineId := none }) ∧
    (∀ ivHex encrypted : List Char, ':' ∉ ivHex → ':' ∉ encrypted →
      crt.decipher (bufferFromHex ivHex) (String.mk encrypted) = none →
      ProtectionLayer.validateOffline crt
          (FileState.content (String.mk (ivHex ++ ':' :: encrypted))) licenseKey systemHash =
        { success := false, message := "Offline validation failed", machineId := none }) ∧
    ((∀ (iv : List Nat) (encrypted : String), iv.length ≠ 16 →
        crt.decipher iv encrypted = none) →
      ∀ ivHex encrypted : List Char, ':' ∉ ivHex → ':' ∉ encrypted →
        (bufferFromHex ivHex).length ≠ 16 →
        ProtectionLayer.validateOffline crt
            (FileState.content (String.mk (ivHex ++ ':' :: encrypted))) licenseKey
            systemHash =
          { success := false, message := "Offline validation failed", machineId := none }) ∧
    (∀ text decrypted : String,
      ProtectionLayer.decryptOfflineData crt text = some decrypted →
      crt.jsonParse decrypted = none →
      ProtectionLayer.validateOffline crt (FileState.content text) licenseKey systemHash =
        { success := false, message := "Offline validation failed", machineId := none }) := by
  have hcolons : ∀ text : String, text.toList.count ':' ≠ 1 →
      ProtectionLayer.validateOffline crt (FileState.content text) licenseKey systemHash =
        { success := false, message := "Offline validation failed", machineId := none } :=
    fun text h => validateOffline_not_decrypted crt text _ _ (decryptOfflineData_colons crt text h)
  have hparts : ∀ ivHex encrypted : List Char, ':' ∉ ivHex → ':' ∉ encrypted →
      crt.decipher (bufferFromHex ivHex) (String.mk encrypted) = none →
      ProtectionLayer.validateOffline crt
          (FileState.content (String.mk (ivHex ++ ':' :: encrypted))) licenseKey systemHash =
        { success := false, message := "Offline validation failed", machineId := none } := by
    intro ivHex encrypted h1 h2 hd
    apply validateOffline_not_decrypted
    rw [decryptOfflineData_parts crt ivHex encrypted h1 h2, hd]
  exact ⟨rfl, hcolons "" (by decide), hcolons, hparts,
    fun hreject ivHex encrypted h1 h2 hlen =>
      hparts ivHex encrypted h1 h2 (hreject _ _ hlen),
    fun text decrypted hd hp => validateOffline_not_parsed crt text decrypted _ _ hd hp⟩

/-- C23, amended, at a text without colon, a text with two colons, a first
part that is not hexadecimal and a text that deciphers to no JSON. -/
theorem C23_corrupt_cache_is_a_miss_witness :
    ("truncated".toList.count ':' ≠ 1 ∧ "00:01:02".toList.count ':' ≠ 1 ∧
      (∀ (iv : List Nat) (encrypted : String), iv.length ≠ 16 →
        hexClientRuntime.decipher iv encrypted = none) ∧
      ':' ∉ "zz0102030405060708090a0b0c0d0e0f".toList ∧ ':' ∉ "6361636865".toList ∧
      (bufferFromHex "zz0102030405060708090a0b0c0d0e0f".toList).length ≠ 16 ∧
      ProtectionLayer.decryptOfflineData hexClientRuntime
        "000102030405060708090a0b0c0d0e0f:6361" = some "ca" ∧
      hexClientRuntime.jsonParse "ca" = none) ∧
    ProtectionLayer.validateOffline hexClientRuntime (FileState.content "truncated")
        scenarioKey "digest" =
      { success := false, message := "Offline validation failed", machineId := none } ∧
    ProtectionLayer.validateOffline hexClientRuntime (FileState.content "00:01:02")
        scenarioKey "digest" =
      { success := false, message := "Offline validation failed", machineId := none } ∧
    ProtectionLayer.validateOffline hexClientRuntime
        (FileState.content
          (String.mk ("zz0102030405060708090a0b0c0d0e0f".toList ++ ':' :: "6361636865".toList)))
        scenarioKey "digest" =
      { success := false, message := "Offline validation failed", machineId := none } ∧
    ProtectionLayer.validateOffline hexClientRuntime
        (FileState.content "000102030405060708090a0b0c0d0e0f:6361") scenarioKey "digest" =
      { success := false, message := "Offline validation failed", machineId := none } :=
  ⟨⟨by decide, by decide, fun iv _ h => if_neg h, by decide, by decide, by decide, by decide,
      rfl⟩,
    (C23_corrupt_cache_is_a_miss hexClientRuntime scenarioKey "digest").2.2.1 "truncated"
      (by decide),
    (C23_corrupt_cache_is_a_miss hexClientRuntime scenarioKey "digest").2.2.1 "00:01:02"
      (by decide),
    (C23_corrupt_cache_is_a_miss hexClientRuntime scenarioKey "digest").2.2.2.2.1
      (fun iv _ h => if_neg h) _ _ (by decide) (by decide) (by decide),
    (C23_corrupt_cache_is_a_miss hexClientRuntime scenarioKey "digest").2.2.2.2.2 _ "ca"
      (by decide) rfl⟩

/-! ## The message of a cache that cannot be used -/

/-- A request that fails at transport level, without a usable entry in the
cache: the steps of `validateAndLaunch`. -/
theorem validateAndLaunch_offline_miss (rt : Runtime) (crt : ClientRuntime)
    (state : ClientState) (env : ClientEnv) (r : String) (fp : Fingerprint)
    (hformat : keyFormatTest (jsTrim (rt.toUpperCase r)) = true)
    (hfp : ProtectionLayer.getSystemFingerprint env.os = some fp)
    (hdown : env.transport = Transport.error ∨ env.transport = Transport.timeout)
    (hcache : (ProtectionLayer.validateOffline crt state.offlineFile
      (jsTrim (rt.toUpperCase r)) (ProtectionLayer.hashSystemFingerprint rt fp)).success =
        false) :
    ProtectionLayer.validateAndLaunch rt crt state env (KeyField.str r) =
      ({ success := false,
         message := Json.str
           ((ProtectionLayer.validateOffline crt state.offlineFile
              (jsTrim (rt.toUpperCase r))
              (ProtectionLayer.hashSystemFingerprint rt fp)).message ++
             " Please connect to the internet and try again."),
         source := none, warning := none },
        state,
        [ClientEvent.fingerprint, ClientEvent.request (jsTrim (rt.toUpperCase r)) fp,
          ClientEvent.cacheRead]) := by
  have hoff : (ProtectionLayer.validateWithServer crt env.transport).success = false ∧
      (ProtectionLayer.validateWithServer crt env.transport).offline = true := by
    rcases hdown with ht | ht <;> rw [ht] <;> exact ⟨rfl, rfl⟩
  simp [ProtectionLayer.validateAndLaunch, hformat, hfp, hoff.1, hoff.2, hcache]

/-- Method `validateOffline` on a cache map without a member for the key. -/
theorem validateOffline_no_entry (crt : ClientRuntime) (text decrypted : String)
    (members : List (String × Json)) (licenseKey systemHash : String)
    (hd : ProtectionLayer.decryptOfflineData crt text = some decrypted)
    (hp : crt.jsonParse decrypted = some (Json.obj members))
    (he : (Json.obj members).prop licenseKey = none) :
    ProtectionLayer.validateOffline crt (FileState.content text) licenseKey systemHash =
      { success := false, message := "License not found in offline cache",
        machineId := none } := by
  simp only [ProtectionLayer.validateOffline, hd, hp, he]

/-- C24 as stated fails: a file that is not a cache gives the message
`Offline validation failed`, a cache without the key gives the message
`License not found in offline cache`, and `validateAndLaunch` shows the
user the one or the other. -/
theorem C24_counterexample :
    (ProtectionLayer.validateOffline hexClientRuntime (FileState.content "not a cache")
      scenarioKey (ProtectionLayer.hashSystemFingerprint evalRuntime scenarioF1)).message =
      "Offline validation failed" ∧
    (ProtectionLayer.validateOffline hexClientRuntime hexCacheFile "ZZZZ-ZZZZ-ZZZZ-ZZZZ"
      (ProtectionLayer.hashSystemFingerprint evalRuntime scenarioF1)).message =
      "License not found in offline cache" ∧
    (ProtectionLayer.validateAndLaunch evalRuntime hexClientRuntime
      { isValidated := false, offlineFile := FileState.content "not a cache" }
      scenarioOfflineEnv (KeyField.str scenarioKey)).1.message =
      Json.str "Offline validation failed Please connect to the internet and try again." ∧
    (ProtectionLayer.validateAndLaunch evalRuntime hexClientRuntime
      { isValidated := false, offlineFile := hexCacheFile }
      scenarioOfflineEnv (KeyField.str "ZZZZ-ZZZZ-ZZZZ-ZZZZ")).1.message =
      Json.str
        "License not found in offline cache Please connect to the internet and try again." ∧
    "Offline validation failed" ≠ "License not found in offline cache" :=
  ⟨by decide, by decide, rfl, rfl, by decide⟩

/-- C24, amended. A cache that cannot be used has a message of its own: for
every file that does not decrypt or does not parse, `validateOffline` returns
`success: false` with the message `Offline validation failed`, not the result
`License not found in offline cache` that it returns for a cache map without
an entry for the key; under a transport failure `validateAndLaunch` returns
`success: false` with that message followed by ` Please connect to the
internet and try again.`, launches nothing and leaves the state as it was. The
message tells that the offline validation failed and carries no detail of the
error. -/
theorem C24_corrupt_cache_message (rt : Runtime) (crt : ClientRuntime) (text : String)
    (licenseKey systemHash : String)
    (hcorrupt : ProtectionLayer.decryptOfflineData crt text = none ∨
      ∃ decrypted, ProtectionLayer.decryptOfflineData crt text = some decrypted ∧
        crt.jsonParse decrypted = none) :
    ProtectionLayer.validateOffline crt (FileState.content text) licenseKey systemHash =
      { success := false, message := "Offline validation failed", machineId := none } ∧
    (∀ (other decrypted : String) (members : List (String × Json)),
      ProtectionLayer.decryptOfflineData crt other = some decrypted →
      crt.jsonParse decrypted = some (Json.obj members) →
      (Json.obj members).prop licenseKey = none →
      ProtectionLayer.validateOffline crt (FileState.content other) licenseKey systemHash =
        { success := false, message := "License not found in offline cache",
          machineId := none }) ∧
    "Offline validation failed" ≠ "License not found in offline cache" ∧
    (∀ (state : ClientState) (env : ClientEnv) (r : String) (fp : Fingerprint),
      state.offlineFile = FileState.content text →
      keyFormatTest (jsTrim (rt.toUpperCase r)) = true →
      ProtectionLayer.getSystemFingerprint env.os = some fp →
      env.transport = Transport.error ∨ env.transport = Transport.timeout →
      ProtectionLayer.validateAndLaunch rt crt state env (KeyField.str r) =
        ({ success := false,
           message := Json.str
             "Offline validation failed Please connect to the internet and try again.",
           source := none, warning := none },
          state,
          [ClientEvent.fingerprint, ClientEvent.request (jsTrim (rt.toUpperCase r)) fp,
            ClientEvent.cacheRead])) := by
  have hfailed : ∀ key digest : String,
      ProtectionLayer.validateOffline crt (FileState.content text) key digest =
        { success := false, message := "Offline validation failed", machineId := none } := by
    intro key digest
    rcases hcorrupt with h | ⟨decrypted, hd, hp⟩
    · exact validateOffline_not_decrypted crt text key digest h
    · exact validateOffline_not_parsed crt text decrypted key digest hd hp
  refine ⟨hfailed _ _, ?_, by decide, ?_⟩
  · intro other decrypted members hd hp he
    exact validateOffline_no_entry crt other decrypted members _ _ hd hp he
  · intro state env r fp hfile hformat hfp hdown
    have hmiss := validateAndLaunch_offline_miss rt crt state env r fp hformat hfp hdown
      (by rw [hfile, hfailed])
    rw [hmiss, hfile, hfailed]
    rfl

/-- C24, amended, at a file that is not a cache. -/
theorem C24_corrupt_cache_message_witness :
    (ProtectionLayer.decryptOfflineData hexClientRuntime "not a cache" = none ∨
      ∃ decrypted, ProtectionLayer.decryptOfflineData hexClientRuntime "not a cache" =
          some decrypted ∧
        hexClientRuntime.jsonParse decrypted = none) ∧
    ProtectionLayer.validateOffline hexClientRuntime (FileState.content "not a cache")
        scenarioKey "digest" =
      { success := false, message := "Offline validation failed", machineId := none } :=
  ⟨Or.inl (by decide),
    (C24_corrupt_cache_message evalRuntime hexClientRuntime "not a cache" scenarioKey "digest"
      (Or.inl (by decide))).1⟩

/-! ## The merge of a write -/

/-- C25 as stated fails: the cache file decrypts to the JSON text `null`. The
assignment of line 443 throws, the `catch` of line 453 swallows the error, and
the file is left as it was: it still decrypts to `null`, which has no entry
for the key. -/
theorem C25_counterexample :
    ProtectionLayer.saveOfflineLicense hexClientRuntime nullCacheFile scenarioKey
        (ProtectionLayer.hashSystemFingerprint evalRuntime scenarioF1)
        (some (Json.str "0123456789ABCDEF")) 12 scenarioIv false = nullCacheFile ∧
    nullCacheFile = FileState.content "000102030405060708090a0b0c0d0e0f:6e756c6c" ∧
    ProtectionLayer.decryptOfflineData hexClientRuntime
        "000102030405060708090a0b0c0d0e0f:6e756c6c" = some "null" ∧
    hexClientRuntime.jsonParse "null" = some Json.null ∧
    Json.null.prop scenarioKey = none ∧
    (ProtectionLayer.validateOffline hexClientRuntime
      (ProtectionLayer.saveOfflineLicense hexClientRuntime nullCacheFile scenarioKey
        (ProtectionLayer.hashSystemFingerprint evalRuntime scenarioF1)
        (some (Json.str "0123456789ABCDEF")) 12 scenarioIv false)
      scenarioKey (ProtectionLayer.hashSystemFingerprint evalRuntime scenarioF1)).success =
      false :=
  ⟨by decide, rfl, by decide, rfl, rfl, by decide⟩

/-- C25, amended. Cache write merges into the existing map: when the file can
be read and written and the prior map is a JSON object, for every license key
`K`, digest `h` and machine identifier `m`, after `saveOfflineLicense(K, h, m)`
the file decrypts to the JSON text of the map obtained from the prior map by
setting the entry of `K` to `{systemHash: h, machineId: m, validatedAt: now}`,
and the entries of all other keys are as before. The prior map is the
decrypted content when the file decrypts and parses, and the empty map when the
file is missing, does not decrypt or does not parse. The write never raises:
when `readFileSync` or `writeFileSync` throws, the file is left as it was. -/
theorem C25_cache_write_merges (crt : ClientRuntime) (offlineFile : FileState)
    (licenseKey systemHash : String) (machineId : Option Json) (now : Nat) (iv : List Nat)
    (members : List (String × Json))
    (hprior : offlineLicensesBefore crt offlineFile = some (Json.obj members))
    (hkey : keyFormatTest licenseKey = true) (hiv : IsIv iv)
    (hlaws : WriteLaws crt offlineFile licenseKey systemHash machineId now iv) :
    (∃ (text : String) (updated : List (String × Json)),
      ProtectionLayer.saveOfflineLicense crt offlineFile licenseKey systemHash machineId now
        iv false = FileState.content text ∧
      ProtectionLayer.decryptOfflineData crt text =
        some (crt.jsonStringify (Json.obj updated)) ∧
      crt.jsonParse (crt.jsonStringify (Json.obj updated)) = some (Json.obj updated) ∧
      (Json.obj updated).prop licenseKey = some (offlineEntry systemHash machineId now) ∧
      ∀ other, other ≠ licenseKey →
        (Json.obj updated).prop other = (Json.obj members).prop other) ∧
    (offlineLicensesBefore crt FileState.missing = some (Json.obj []) ∧
      (∀ text, ProtectionLayer.decryptOfflineData crt text = none →
        offlineLicensesBefore crt (FileState.content text) = some (Json.obj [])) ∧
      (∀ text decrypted, ProtectionLayer.decryptOfflineData crt text = some decrypted →
        crt.jsonParse decrypted = none →
        offlineLicensesBefore crt (FileState.content text) = some (Json.obj [])) ∧
      (∀ text decrypted parsed,
        ProtectionLayer.decryptOfflineData crt text = some decrypted →
        crt.jsonParse decrypted = some parsed →
        offlineLicensesBefore crt (FileState.content text) = some parsed)) ∧
    (ProtectionLayer.saveOfflineLicense crt FileState.unreadable licenseKey systemHash
        machineId now iv false = FileState.unreadable ∧
      ProtectionLayer.saveOfflineLicense crt offlineFile licenseKey systemHash machineId now
        iv true = offlineFile) := by
  refine ⟨?_, ⟨rfl, ?_, ?_, ?_⟩, rfl, saveOfflineLicense_writeFails _ _ _ _ _ _ _⟩
  · obtain ⟨ms, hset, hprop⟩ :=
      setProp_obj_prop members licenseKey (offlineEntry systemHash machineId now)
        (keyFormatTest_ne_proto _ hkey)
    obtain ⟨ms2, hset2, hother⟩ :=
      setProp_obj_other members licenseKey (offlineEntry systemHash machineId now)
    have hms : ms2 = ms := by
      have := hset2.symm.trans hset
      simpa using this
    subst hms
    have hafter : offlineLicensesAfter crt offlineFile licenseKey systemHash machineId now =
        some (Json.obj ms2) := by
      simp only [offlineLicensesAfter, hprior, hset]
    obtain ⟨text, h1, h2, h3⟩ :=
      saveOfflineLicense_read crt offlineFile licenseKey systemHash machineId now iv _ hiv
        hafter hlaws
    exact ⟨text, ms2, h1, h2, h3, hprop, hother⟩
  · intro text hd
    simp only [offlineLicensesBefore, hd]
  · intro text decrypted hd hp
    simp only [offlineLicensesBefore, hd, hp]
  · intro text decrypted parsed hd hp
    simp only [offlineLicensesBefore, hd, hp]

/-- C25, amended, at the scenario: the first write, into an absent file. -/
theorem C25_cache_write_merges_witness :
    (offlineLicensesBefore hexClientRuntime FileState.missing = some (Json.obj []) ∧
      keyFormatTest scenarioKey = true ∧ IsIv scenarioIv) ∧
    ((∃ (text : String) (updated : List (String × Json)),
      ProtectionLayer.saveOfflineLicense hexClientRuntime FileState.missing scenarioKey
        (ProtectionLayer.hashSystemFingerprint evalRuntime scenarioF1)
        (some (Json.str "0123456789ABCDEF")) 12 scenarioIv false = FileState.content text ∧
      ProtectionLayer.decryptOfflineData hexClientRuntime text =
        some (hexClientRuntime.jsonStringify (Json.obj updated)) ∧
      hexClientRuntime.jsonParse (hexClientRuntime.jsonStringify (Json.obj updated)) =
        some (Json.obj updated) ∧
      (Json.obj updated).prop scenarioKey =
        some (offlineEntry (ProtectionLayer.hashSystemFingerprint evalRuntime scenarioF1)
          (some (Json.str "0123456789ABCDEF")) 12) ∧
      ∀ other, other ≠ scenarioKey →
        (Json.obj updated).prop other = (Json.obj []).prop other) ∧
    (offlineLicensesBefore hexClientRuntime FileState.missing = some (Json.obj []) ∧
      (∀ text, ProtectionLayer.decryptOfflineData hexClientRuntime text = none →
        offlineLicensesBefore hexClientRuntime (FileState.content text) =
          some (Json.obj [])) ∧
      (∀ text decrypted,
        ProtectionLayer.decryptOfflineData hexClientRuntime text = some decrypted →
        hexClientRuntime.jsonParse decrypted = none →
        offlineLicensesBefore hexClientRuntime (FileState.content text) =
          some (Json.obj [])) ∧
      (∀ text decrypted parsed,
        ProtectionLayer.decryptOfflineData hexClientRuntime text = some decrypted →
        hexClientRuntime.jsonParse decrypted = some parsed →
        offlineLicensesBefore hexClientRuntime (FileState.content text) = some parsed)) ∧
    (ProtectionLayer.saveOfflineLicense hexClientRuntime FileState.unreadable scenarioKey
        (ProtectionLayer.hashSystemFingerprint evalRuntime scenarioF1)
        (some (Json.str "0123456789ABCDEF")) 12 scenarioIv false = FileState.unreadable ∧
      ProtectionLayer.saveOfflineLicense hexClientRuntime FileState.missing scenarioKey
        (ProtectionLayer.hashSystemFingerprint evalRuntime scenarioF1)
        (some (Json.str "0123456789ABCDEF")) 12 scenarioIv true = FileState.missing)) :=
  ⟨⟨rfl, by decide, by decide, by decide⟩,
    C25_cache_write_merges hexClientRuntime FileState.missing scenarioKey
      (ProtectionLayer.hashSystemFingerprint evalRuntime scenarioF1)
      (some (Json.str "0123456789ABCDEF")) 12 scenarioIv [] rfl (by decide)
      ⟨by decide, by decide⟩
      (fun updated h =>
        Option.some.inj h ▸
          (show ParsesBack hexClientRuntime scenarioCache ∧
              Deciphers hexClientRuntime scenarioIv "cache" from
            ⟨rfl, by decide, by decide⟩))⟩

/-! ## The order of the hardware addresses -/

/-- Method `getMacAddresses` returns the addresses that line 224 keeps, in the
order of enumeration. -/
theorem getMacAddresses_eq (os : OsInfo) :
    ProtectionLayer.getMacAddresses os = reportedMacs os.networkInterfaces := by
  unfold ProtectionLayer.getMacAddresses reportedMacs
  induction os.networkInterfaces with
  | nil => rfl
  | cons i rest ih =>
    simp only [List.flatMap_cons, List.filter_append, List.map_append, ih]

/-- A report enumerated backwards gives the addresses backwards. -/
theorem reportedMacs_reverse (report : List (String × List NetworkAddress)) :
    reportedMacs ((report.map (fun i => (i.1, i.2.reverse))).reverse) =
      (reportedMacs report).reverse := by
  unfold reportedMacs
  rw [List.flatMap_reverse, List.filter_reverse, List.map_reverse]
  congr 3
  induction report with
  | nil => rfl
  | cons i rest ih =>
    simp only [List.map_cons, List.flatMap_cons, ih, List.reverse_append, Function.comp,
      List.reverse_reverse]

/-- C26 as stated fails: two reports with the same two hardware addresses,
enumerated in different orders. `getMacAddresses` has no sort: the lists are
in the order of enumeration and differ, and so do the snapshots, their
serialisations and the digests (for the injective stand-ins of the scenario
runtime). -/
theorem C26_counterexample :
    (reportedMacs scenarioReport).Perm (reportedMacs scenarioReportSwapped) ∧
    ProtectionLayer.getMacAddresses { scenarioOs with networkInterfaces := scenarioReport } =
      ["aa:bb:cc:dd:ee:ff", "11:22:33:44:55:66"] ∧
    ProtectionLayer.getMacAddresses
        { scenarioOs with networkInterfaces := scenarioReportSwapped } =
      ["11:22:33:44:55:66", "aa:bb:cc:dd:ee:ff"] ∧
    ProtectionLayer.getMacAddresses { scenarioOs with networkInterfaces := scenarioReport } ≠
      ProtectionLayer.getMacAddresses
        { scenarioOs with networkInterfaces := scenarioReportSwapped } ∧
    ProtectionLayer.getSystemFingerprint
        { scenarioOs with networkInterfaces := scenarioReport } ≠
      ProtectionLayer.getSystemFingerprint
        { scenarioOs with networkInterfaces := scenarioReportSwapped } ∧
    (ProtectionLayer.getSystemFingerprint
        { scenarioOs with networkInterfaces := scenarioReport }).map
        (ProtectionLayer.hashSystemFingerprint evalRuntime) ≠
      (ProtectionLayer.getSystemFingerprint
        { scenarioOs with networkInterfaces := scenarioReportSwapped }).map
        (ProtectionLayer.hashSystemFingerprint evalRuntime) :=
  ⟨List.Perm.swap _ _ _, by decide, by decide, by decide, by decide, by decide⟩

/-- C26, amended. The fingerprint follows the order of enumeration: the
hardware-address list of the snapshot is the list of the non-internal,
non-zero addresses of the report in the order in which the report enumerates
them, without a sort. A second report gives the same list exactly when it
enumerates these addresses in the same order, and then, the other signals
being equal, the snapshots are equal, their serialisations are byte-identical
and `hashSystemFingerprint` gives equal digests; a report that enumerates
backwards gives the list backwards. -/
theorem C26_fingerprint_follows_enumeration_order (rt : Runtime) (os : OsInfo)
    (report : List (String × List NetworkAddress)) :
    ProtectionLayer.getMacAddresses os = reportedMacs os.networkInterfaces ∧
    (ProtectionLayer.getMacAddresses { os with networkInterfaces := report } =
        ProtectionLayer.getMacAddresses os ↔
      reportedMacs report = reportedMacs os.networkInterfaces) ∧
    (reportedMacs report = reportedMacs os.networkInterfaces →
      ProtectionLayer.getSystemFingerprint { os with networkInterfaces := report } =
        ProtectionLayer.getSystemFingerprint os ∧
      (ProtectionLayer.getSystemFingerprint { os with networkInterfaces := report }).map
          rt.jsonStringify =
        (ProtectionLayer.getSystemFingerprint os).map rt.jsonStringify ∧
      (ProtectionLayer.getSystemFingerprint { os with networkInterfaces := report }).map
          (ProtectionLayer.hashSystemFingerprint rt) =
        (ProtectionLayer.getSystemFingerprint os).map
          (ProtectionLayer.hashSystemFingerprint rt)) ∧
    ProtectionLayer.getMacAddresses
        { os with
          networkInterfaces := (os.networkInterfaces.map (fun i => (i.1, i.2.reverse))).reverse } =
      (ProtectionLayer.getMacAddresses os).reverse := by
  have hmacs : ProtectionLayer.getMacAddresses { os with networkInterfaces := report } =
      reportedMacs report := getMacAddresses_eq _
  refine ⟨getMacAddresses_eq os, ?_, ?_, ?_⟩
  · rw [hmacs, getMacAddresses_eq os]
  · intro h
    have hfp : ProtectionLayer.getSystemFingerprint { os with networkInterfaces := report } =
        ProtectionLayer.getSystemFingerprint os := by
      unfold ProtectionLayer.getSystemFingerprint
      simp only [hmacs, h, getMacAddresses_eq os]
    exact ⟨hfp, by rw [hfp], by rw [hfp]⟩
  · rw [getMacAddresses_eq, getMacAddresses_eq os]
    exact reportedMacs_reverse os.networkInterfaces

/-- C26, amended, at the scenario: the report without the loopback interface
enumerates the same addresses in the same order. -/
theorem C26_fingerprint_follows_enumeration_order_witness :
    reportedMacs [("eth0", [{ internal := false, mac := "aa:bb:cc:dd:ee:ff" }])] =
      reportedMacs scenarioOs.networkInterfaces ∧
    ProtectionLayer.getSystemFingerprint
        { scenarioOs with
          networkInterfaces := [("eth0", [{ internal := false, mac := "aa:bb:cc:dd:ee:ff" }])] } =
      ProtectionLayer.getSystemFingerprint scenarioOs ∧
    (ProtectionLayer.getSystemFingerprint
        { scenarioOs with
          networkInterfaces :=
            [("eth0", [{ internal := false, mac := "aa:bb:cc:dd:ee:ff" }])] }).map
        evalRuntime.jsonStringify =
      (ProtectionLayer.getSystemFingerprint scenarioOs).map evalRuntime.jsonStringify ∧
    (ProtectionLayer.getSystemFingerprint
        { scenarioOs with
          networkInterfaces :=
            [("eth0", [{ internal := false, mac := "aa:bb:cc:dd:ee:ff" }])] }).map
        (ProtectionLayer.hashSystemFingerprint evalRuntime) =
      (ProtectionLayer.getSystemFingerprint scenarioOs).map
        (ProtectionLayer.hashSystemFingerprint evalRuntime) :=
  ⟨by decide,
    (C26_fingerprint_follows_enumeration_order evalRuntime scenarioOs
      [("eth0", [{ internal := false, mac := "aa:bb:cc:dd:ee:ff" }])]).2.2.1 (by decide)⟩

/-! ## The results of the client -/

/-- The launch step reports success only when the executable is started. -/
theorem launchProtectedExe_success (outcome : LaunchOutcome)
    (h : (ProtectionLayer.launchProtectedExe outcome).1 = true) :
    outcome = LaunchOutcome.launched := by
  cases outcome <;> simp [ProtectionLayer.launchProtectedExe] at h ⊢

/-- A successful result of `validateAndLaunch` comes from a launch, after the
session is marked validated. -/
theorem validateAndLaunch_success (rt : Runtime) (crt : ClientRuntime) (state : ClientState)
    (env : ClientEnv) (input : KeyField)
    (h : (ProtectionLayer.validateAndLaunch rt crt state env input).1.success = true) :
    env.launch = LaunchOutcome.launched ∧
      (ProtectionLayer.validateAndLaunch rt crt state env input).2.1.isValidated = true := by
  unfold ProtectionLayer.validateAndLaunch at h ⊢
  split at h
  · split at h
    · cases h
    · split at h
      · cases h
      · split at h
        · exact ⟨launchProtectedExe_success _ h, by simp [*]⟩
        · split at h
          · split at h
            · exact ⟨launchProtectedExe_success _ h, by simp [*]⟩
            · cases h
          · cases h
  · cases h

/-- The promise of `validateAndLaunch` is never rejected, and it is settled
unless the call reaches the request and the response is cut. -/
theorem validateAndLaunchPromise_settled (rt : Runtime) (crt : ClientRuntime)
    (state : ClientState) (env : ClientEnv) (fate : RequestFate)
    (inputLicenseKey : KeyField) :
    (reachesRequest rt env inputLicenseKey = true ∧ fate = RequestFate.cut ∧
      (ProtectionLayer.validateAndLaunchPromise rt crt state env fate inputLicenseKey).1 =
        Settlement.pending) ∨
    (¬ (reachesRequest rt env inputLicenseKey = true ∧ fate = RequestFate.cut) ∧
      ∃ result,
        (ProtectionLayer.validateAndLaunchPromise rt crt state env fate inputLicenseKey).1 =
          Settlement.resolved result) := by
  by_cases hreach : reachesRequest rt env inputLicenseKey = true
  · obtain ⟨r, fp, rfl, hformat, hfp⟩ := (reachesRequest_iff rt env inputLicenseKey).mp hreach
    cases fate with
    | cut =>
      exact Or.inl ⟨hreach, rfl, by rw [validateAndLaunchPromise_cut rt crt state env r fp
        hformat hfp]⟩
    | notBuilt =>
      exact Or.inr ⟨fun h => RequestFate.noConfusion h.2,
        _, by rw [validateAndLaunchPromise_notBuilt rt crt state env r fp hformat hfp]⟩
    | ends transport =>
      have hlink := validateAndLaunchPromise_ends rt crt state
        { env with transport := transport } (KeyField.str r)
      have hsame : ProtectionLayer.validateAndLaunchPromise rt crt state
          { env with transport := transport } (RequestFate.ends transport) (KeyField.str r) =
          ProtectionLayer.validateAndLaunchPromise rt crt state env
            (RequestFate.ends transport) (KeyField.str r) := rfl
      exact Or.inr ⟨fun h => RequestFate.noConfusion h.2, _, by rw [← hsame, hlink]⟩
  · have hfalse : reachesRequest rt env inputLicenseKey = false := eq_false_of_ne_true hreach
    refine Or.inr ⟨fun h => hreach h.1, ?_⟩
    rw [validateAndLaunchPromise_not_reached rt crt state env fate
      (RequestFate.ends env.transport) inputLicenseKey hfalse,
      validateAndLaunchPromise_ends]
    exact ⟨_, rfl⟩

/-- A successful result of the promise comes from a launch, after the session
is marked validated. -/
theorem validateAndLaunchPromise_success (rt : Runtime) (crt : ClientRuntime)
    (state : ClientState) (env : ClientEnv) (fate : RequestFate)
    (inputLicenseKey : KeyField) (result : ClientResult)
    (h : (ProtectionLayer.validateAndLaunchPromise rt crt state env fate inputLicenseKey).1 =
      Settlement.resolved result)
    (hs : result.success = true) :
    env.launch = LaunchOutcome.launched ∧
      (ProtectionLayer.validateAndLaunchPromise rt crt state env fate
        inputLicenseKey).2.1.isValidated = true := by
  by_cases hreach : reachesRequest rt env inputLicenseKey = true
  · obtain ⟨r, fp, rfl, hformat, hfp⟩ := (reachesRequest_iff rt env inputLicenseKey).mp hreach
    cases fate with
    | cut =>
      rw [validateAndLaunchPromise_cut rt crt state env r fp hformat hfp] at h
      cases h
    | notBuilt =>
      rw [validateAndLaunchPromise_notBuilt rt crt state env r fp hformat hfp] at h
      simp only [Settlement.resolved.injEq] at h
      subst h
      cases hs
    | ends transport =>
      have hlink := validateAndLaunchPromise_ends rt crt state
        { env with transport := transport } (KeyField.str r)
      have hsame : ProtectionLayer.validateAndLaunchPromise rt crt state
          { env with transport := transport } (RequestFate.ends transport) (KeyField.str r) =
          ProtectionLayer.validateAndLaunchPromise rt crt state env
            (RequestFate.ends transport) (KeyField.str r) := rfl
      rw [← hsame, hlink] at h ⊢
      simp only [Settlement.resolved.injEq] at h
      subst h
      exact validateAndLaunch_success rt crt state { env with transport := transport } _ hs
  · have hfalse : reachesRequest rt env inputLicenseKey = false := eq_false_of_ne_true hreach
    rw [validateAndLaunchPromise_not_reached rt crt state env fate
      (RequestFate.ends env.transport) inputLicenseKey hfalse,
      validateAndLaunchPromise_ends] at h ⊢
    simp only [Settlement.resolved.injEq] at h
    subst h
    exact validateAndLaunch_success rt crt state env _ hs

/-- C27. The client never raises past the orchestration boundary, but it may
never return: the promise of `validateAndLaunch` is never rejected, for every
input value and every outcome of the collaborators. An input that is not a
string (null included), a failing fingerprint collection and a request that
cannot be built throw inside the `try` block, and the `catch` block returns
`success: false` with the message of the error. The promise is resolved with a
result object in every case but one: when the call reaches the request and the
response is cut before its end, `validateWithServer` never resolves and the
call never returns. A result with `success: true` comes only from a started
launch. -/
theorem C27_client_never_rejects (rt : Runtime) (crt : ClientRuntime) (state : ClientState)
    (env : ClientEnv) (fate : RequestFate) (input : KeyField) :
    (∀ thrown,
      (ProtectionLayer.validateAndLaunchPromise rt crt state env fate input).1 ≠
        Settlement.rejected thrown) ∧
    ((∀ s, input ≠ KeyField.str s) →
      (ProtectionLayer.validateAndLaunchTry rt crt state env fate input).1 =
        Settlement.rejected ClientThrown.notAString ∧
      ProtectionLayer.validateAndLaunchPromise rt crt state env fate input =
        (Settlement.resolved
          { success := false,
            message := Json.str ("An error occurred during validation: " ++
              crt.errorMessage ClientThrown.notAString),
            source := none, warning := none }, state, [])) ∧
    (∀ r, input = KeyField.str r → keyFormatTest (jsTrim (rt.toUpperCase r)) = true →
      ProtectionLayer.getSystemFingerprint env.os = none →
      (ProtectionLayer.validateAndLaunchTry rt crt state env fate input).1 =
        Settlement.rejected ClientThrown.noCpuInfo ∧
      ProtectionLayer.validateAndLaunchPromise rt crt state env fate input =
        (Settlement.resolved
          { success := false,
            message := Json.str ("An error occurred during validation: " ++
              crt.errorMessage ClientThrown.noCpuInfo),
            source := none, warning := none }, state, [ClientEvent.fingerprint])) ∧
    (reachesRequest rt env input = true → fate = RequestFate.notBuilt →
      (ProtectionLayer.validateAndLaunchTry rt crt state env fate input).1 =
        Settlement.rejected ClientThrown.invalidUrl ∧
      ProtectionLayer.validateAndLaunchPromise rt crt state env fate input =
        (Settlement.resolved
          { success := false,
            message := Json.str ("An error occurred during validation: " ++
              crt.errorMessage ClientThrown.invalidUrl),
            source := none, warning := none }, state, [ClientEvent.fingerprint])) ∧
    ((∃ result,
        (ProtectionLayer.validateAndLaunchPromise rt crt state env fate input).1 =
          Settlement.resolved result) ↔
      ¬ (reachesRequest rt env input = true ∧ fate = RequestFate.cut)) ∧
    ((ProtectionLayer.validateAndLaunchPromise rt crt state env fate input).1 =
        Settlement.pending ↔
      (reachesRequest rt env input = true ∧ fate = RequestFate.cut)) ∧
    (∀ result,
      (ProtectionLayer.validateAndLaunchPromise rt crt state env fate input).1 =
        Settlement.resolved result →
      result.success = true →
      env.launch = LaunchOutcome.launched ∧
        (ProtectionLayer.validateAndLaunchPromise rt crt state env fate
          input).2.1.isValidated = true) ∧
    ProtectionLayer.validateAndLaunchPromise evalRuntime hexClientRuntime scenarioClient
        scenarioOnlineEnv RequestFate.cut (KeyField.str scenarioKey) =
      (Settlement.pending, scenarioClient,
        [ClientEvent.fingerprint, ClientEvent.request scenarioKey scenarioF1]) := by
  have hsettled := validateAndLaunchPromise_settled rt crt state env fate input
  refine ⟨?_, ?_, ?_, ?_, ?_, ?_,
    validateAndLaunchPromise_success rt crt state env fate input, rfl⟩
  · intro thrown h
    rcases hsettled with ⟨_, _, hp⟩ | ⟨_, result, hr⟩
    · rw [hp] at h; cases h
    · rw [hr] at h; cases h
  · intro h
    cases input with
    | missing => exact ⟨rfl, rfl⟩
    | nonString t => exact ⟨rfl, rfl⟩
    | str s => exact absurd rfl (h s)
  · rintro r rfl hformat hfp
    constructor
    · simp [ProtectionLayer.validateAndLaunchTry, hformat, hfp]
    · simp [ProtectionLayer.validateAndLaunchPromise, ProtectionLayer.validateAndLaunchTry,
        hformat, hfp, validationError]
  · rintro hreach rfl
    obtain ⟨r, fp, rfl, hformat, hfp⟩ := (reachesRequest_iff rt env input).mp hreach
    constructor
    · simp [ProtectionLayer.validateAndLaunchTry, ProtectionLayer.validateWithServerPromise,
        hformat, hfp]
    · rw [validateAndLaunchPromise_notBuilt rt crt state env r fp hformat hfp]
      rfl
  · constructor
    · rintro ⟨result, hr⟩ hcut
      rcases hsettled with ⟨_, _, hp⟩ | ⟨hn, _⟩
      · rw [hp] at hr; cases hr
      · exact hn hcut
    · intro hn
      rcases hsettled with ⟨h1, h2, _⟩ | ⟨_, hr⟩
      · exact absurd ⟨h1, h2⟩ hn
      · exact hr
  · constructor
    · intro hp
      rcases hsettled with ⟨h1, h2, _⟩ | ⟨_, result, hr⟩
      · exact ⟨h1, h2⟩
      · rw [hr] at hp; cases hp
    · intro hcut
      rcases hsettled with ⟨_, _, hp⟩ | ⟨hn, _⟩
      · exact hp
      · exact absurd hcut hn

/-- C27 at the scenario: the input `null`; a launch that fails after a success
of the server with a cache file that cannot be written; and a response that is
cut, with which the call never returns. -/
theorem C27_client_never_rejects_witness :
    ((∀ s, KeyField.missing ≠ KeyField.str s) ∧
      reachesRequest evalRuntime scenarioOnlineEnv (KeyField.str scenarioKey) = true) ∧
    ProtectionLayer.validateAndLaunchPromise evalRuntime hexClientRuntime scenarioClient
        scenarioOnlineEnv (RequestFate.ends scenarioOnlineEnv.transport) KeyField.missing =
      (Settlement.resolved
        { success := false,
          message := Json.str ("An error occurred during validation: " ++
            hexClientRuntime.errorMessage ClientThrown.notAString),
          source := none, warning := none }, scenarioClient, []) ∧
    (ProtectionLayer.validateAndLaunchPromise evalRuntime hexClientRuntime
        { isValidated := false, offlineFile := FileState.unreadable }
        { scenarioOnlineEnv with
          launch := LaunchOutcome.failed "Extracted executable not found",
          writeFails := true }
        (RequestFate.ends (Transport.response 200 "activated"))
        (KeyField.str scenarioKey)).1 =
      Settlement.resolved
        { success := false,
          message := Json.str "Failed to launch application: Extracted executable not found",
          source := none, warning := none } ∧
    ((ProtectionLayer.validateAndLaunchPromise evalRuntime hexClientRuntime scenarioClient
        scenarioOnlineEnv RequestFate.cut (KeyField.str scenarioKey)).1 =
        Settlement.pending ∧
      ¬ ∃ result,
        (ProtectionLayer.validateAndLaunchPromise evalRuntime hexClientRuntime scenarioClient
          scenarioOnlineEnv RequestFate.cut (KeyField.str scenarioKey)).1 =
          Settlement.resolved result) :=
  ⟨⟨fun _ h => KeyField.noConfusion h, by decide⟩,
    ((C27_client_never_rejects evalRuntime hexClientRuntime scenarioClient scenarioOnlineEnv
      (RequestFate.ends scenarioOnlineEnv.transport) KeyField.missing).2.1
      (fun _ h => KeyField.noConfusion h)).2,
    rfl,
    (C27_client_never_rejects evalRuntime hexClientRuntime scenarioClient scenarioOnlineEnv
      RequestFate.cut (KeyField.str scenarioKey)).2.2.2.2.2.1.mpr ⟨by decide, rfl⟩,
    fun h =>
      (C27_client_never_rejects evalRuntime hexClientRuntime scenarioClient scenarioOnlineEnv
        RequestFate.cut (KeyField.str scenarioKey)).2.2.2.2.1.mp h ⟨by decide, rfl⟩⟩

/-! ## Statistics -/

/-- C28. The handler of `GET /api/admin/stats` returns `total`, the number of
licenses, `activated`, the number of licenses with `isActivated` true, and
`available = total - activated`, so that `activated + available = total` and
`available ≥ 0`. Its `recentActivations` is the number of licenses whose
`createdAt` lies within the last 24 hours, not the number of licenses
activated within the last 24 hours: a license created three days ago and
activated an hour ago is not counted, and a license created an hour ago and
never activated is. -/
theorem C28_stats_recent_counts_created (toFixed2 : Nat → Nat → String) (st : Store)
    (env : Ambient) :
    (apiAdminStats toFixed2 st env).total = st.length ∧
    (apiAdminStats toFixed2 st env).activated =
      (st.filter (fun l => l.isActivated)).length ∧
    (apiAdminStats toFixed2 st env).available =
      ((apiAdminStats toFixed2 st env).total : Int) - (apiAdminStats toFixed2 st env).activated ∧
    ((apiAdminStats toFixed2 st env).activated : Int) +
        (apiAdminStats toFixed2 st env).available =
      (apiAdminStats toFixed2 st env).total ∧
    0 ≤ (apiAdminStats toFixed2 st env).available ∧
    (apiAdminStats toFixed2 st env).recentActivations =
      (st.filter (fun l =>
        decide ((env.clock 0 : Int) - 86400000 ≤ (l.createdAt : Int)))).length ∧
    ((apiAdminStats toFixed2 [scenarioOldActivated] scenarioStatsEnv).recentActivations = 0 ∧
      activatedWithinDay [scenarioOldActivated] (scenarioStatsEnv.clock 0) = 1) ∧
    ((apiAdminStats toFixed2 [scenarioNewUnactivated] scenarioStatsEnv).recentActivations = 1 ∧
      activatedWithinDay [scenarioNewUnactivated] (scenarioStatsEnv.clock 0) = 0) := by
  have hle : (st.filter (fun l => l.isActivated)).length ≤ st.length :=
    List.length_filter_le _ _
  refine ⟨rfl, rfl, rfl, ?_, ?_, rfl, ⟨rfl, by decide⟩, ⟨rfl, by decide⟩⟩
  · simp only [apiAdminStats]
    omega
  · simp only [apiAdminStats]
    omega

/-! ## The count of a generate request -/

/-- The handler reads the request through `parsedCount` only. -/
theorem apiAdminGenerate_parsedCount (rt : Runtime) (st : Store) (req req2 : GenerateRequest)
    (env : Ambient) (fuel : Nat) (h : parsedCount req = parsedCount req2) :
    apiAdminGenerate rt st req env fuel = apiAdminGenerate rt st req2 env fuel := by
  unfold apiAdminGenerate
  rw [h]

/-- The response of the handler with its keys: the keys are as many as the
parsed count, which is then at least 0. -/
theorem apiAdminGenerate_keys (rt : Runtime) (st st1 : Store) (req : GenerateRequest)
    (env : Ambient) (fuel : Nat) (resp : Response) (keys : List String)
    (h : apiAdminGenerate rt st req env fuel = some (st1, some resp))
    (hk : resp.keys = some keys) :
    parsedCount req ≤ 10000 ∧
      (keys.length : Int) = max (parsedCount req) 0 := by
  unfold apiAdminGenerate at h
  split at h
  · simp only [Option.some.injEq, Prod.mk.injEq] at h
    rw [← h.2] at hk
    cases hk
  · rename_i hle
    cases hg : generateUniqueKeys env.random (parsedCount req) fuel 0 [] with
    | none => rw [hg] at h; cases h
    | some ks =>
      rw [hg] at h
      obtain ⟨_, hlen⟩ := generateUniqueKeys_result env.random (parsedCount req) fuel 0 []
        ks List.nodup_nil (by simp) hg
      simp only at h
      split at h
      · simp only [Option.some.injEq, Prod.mk.injEq] at h
        rw [← h.2] at hk
        cases hk
      · simp only [Option.some.injEq, Prod.mk.injEq] at h
        rw [← h.2] at hk
        simp only [Option.some.injEq] at hk
        subst hk
        exact ⟨by omega, by omega⟩

/-- C29 as stated fails: the count is absent and the store already holds the
second of the hundred keys that are generated. The first key is inserted, the
insert of the second is rejected by the unique index, and the request is
answered 500 without keys: one license is inserted, not a hundred. -/
theorem C29_counterexample :
    digitCollisionStore.map (fun l => l.licenseKey) = ["BAAA-AAAA-AAAA-AAAA"] ∧
    (generateUniqueKeys digitEnv.random 100 100 0 []).map (fun keys => keys.take 2) =
      some ["AAAA-AAAA-AAAA-AAAA", "BAAA-AAAA-AAAA-AAAA"] ∧
    (apiAdminGenerate evalRuntime digitCollisionStore { count := none } digitEnv 100).map
        (fun p => (p.1.map (fun l => l.licenseKey), p.2.map (fun r => (r.status, r.keys)))) =
      some (["BAAA-AAAA-AAAA-AAAA", "AAAA-AAAA-AAAA-AAAA"], some (500, none)) := by
  set_option maxRecDepth 100000 in
  decide

/-- C29, amended. Count handling of admin generate outside 1..10,000: a
request whose count is absent, not a number or 0 is served as a request for
100 keys (not 0): the handler returns when the draws hold 100 distinct keys,
it has then generated exactly 100 distinct keys and, when none of them is
already stored, it inserts exactly 100 licenses and answers with these keys.
For every negative count the handler inserts no license and answers
`success: true` with an empty key list. So the number of keys returned equals
the requested count only when the count is between 1 and 10,000. -/
theorem C29_count_handling (rt : Runtime) (st : Store) (req : GenerateRequest)
    (env : Ambient) (fuel : Nat) :
    ((req.count = none ∨ req.count = some 0) →
      parsedCount req = 100 ∧
      apiAdminGenerate rt st req env fuel =
        apiAdminGenerate rt st { count := some 100 } env fuel ∧
      ((100 : Int) ≤ (((List.range fuel).map
          (fun b => generateLicenseKey env.random (0 + 16 * b))).toFinset.card : Int) →
        ∃ result, apiAdminGenerate rt st req env fuel = some result) ∧
      (∀ (st1 : Store) (r : Option Response),
        apiAdminGenerate rt st req env fuel = some (st1, r) →
        ∃ keys : List String,
          generateUniqueKeys env.random 100 fuel 0 [] = some keys ∧
          keys.length = 100 ∧ keys.Nodup ∧
          ((∀ k ∈ keys, ∀ l ∈ st, l.licenseKey ≠ k) →
            ∃ (extra : Store) (resp : Response),
              st1 = st ++ extra ∧ extra.length = 100 ∧
              extra.map (fun l => l.licenseKey) = keys ∧
              r = some resp ∧ resp.status = 200 ∧ resp.success = some true ∧
              resp.keys = some keys))) ∧
    (∀ n : Int, req.count = some n → n < 0 →
      apiAdminGenerate rt st req env fuel =
        some (st, some
          { messageResponse 200 true ("Generated " ++ toString n ++ " new license keys") with
            keys := some [] })) ∧
    (∀ (n : Int) (st1 : Store) (resp : Response) (keys : List String),
      req.count = some n →
      apiAdminGenerate rt st req env fuel = some (st1, some resp) →
      resp.keys = some keys → (keys.length : Int) = n → 1 ≤ n ∧ n ≤ 10000) := by
  refine ⟨?_, ?_, ?_⟩
  · intro hreq
    have hc : parsedCount req = 100 := by
      rcases hreq with h | h <;> simp [parsedCount, h]
    have heq : apiAdminGenerate rt st req env fuel =
        apiAdminGenerate rt st { count := some 100 } env fuel :=
      apiAdminGenerate_parsedCount rt st req _ env fuel (by rw [hc]; rfl)
    refine ⟨hc, heq, ?_, ?_⟩
    · intro hcard
      obtain ⟨keys, hk⟩ := generateUniqueKeys_stops env.random 100 fuel 0 []
        (by rw [List.toFinset_nil, Finset.empty_union]; exact hcard)
      unfold apiAdminGenerate
      rw [hc, if_neg (by decide), hk]
      simp only
      split
      · exact ⟨_, rfl⟩
      · exact ⟨_, rfl⟩
    · intro st1 r h
      unfold apiAdminGenerate at h
      rw [hc, if_neg (by decide)] at h
      cases hk : generateUniqueKeys env.random 100 fuel 0 [] with
      | none => rw [hk] at h; cases h
      | some keys =>
        rw [hk] at h
        obtain ⟨hnd, hlen⟩ := generateUniqueKeys_result env.random 100 fuel 0 [] keys
          List.nodup_nil (by simp) hk
        have hlen2 : keys.length = 100 := by omega
        refine ⟨keys, rfl, hlen2, hnd, ?_⟩
        intro hfresh
        obtain ⟨extra, hins, hkeys, _⟩ := insertMany_fresh env.clock keys 0 st hnd hfresh
        simp only [hins, Option.some.injEq, Prod.mk.injEq] at h
        obtain ⟨rfl, rfl⟩ := h
        refine ⟨extra, _, rfl, ?_, hkeys, rfl, rfl, rfl, rfl⟩
        rw [← hlen2, ← hkeys, List.length_map]
  · intro n hn hneg
    have hc : parsedCount req = n := by
      simp only [parsedCount, hn]
      rw [if_neg (by omega)]
    have hk : generateUniqueKeys env.random n fuel 0 [] = some [] := by
      cases fuel with
      | zero =>
        simp only [generateUniqueKeys, List.length_nil, Nat.cast_zero]
        rw [if_neg (by omega)]
      | succ m =>
        simp only [generateUniqueKeys, List.length_nil, Nat.cast_zero]
        rw [if_neg (by omega)]
    unfold apiAdminGenerate
    rw [hc, if_neg (by omega), hk]
    rfl
  · intro n st1 resp keys hn h hk hlen
    obtain ⟨hle, hmax⟩ := apiAdminGenerate_keys rt st st1 req env fuel resp keys h hk
    by_cases h0 : n = 0
    · subst h0
      have hc : parsedCount req = 100 := by simp [parsedCount, hn]
      rw [hc] at hmax
      omega
    · have hc : parsedCount req = n := by
        simp only [parsedCount, hn]
        rw [if_neg h0]
      rw [hc] at hmax hle
      omega

/-- C29, amended, at the scenario: a request without count and a request for
the count -5. -/
theorem C29_count_handling_witness :
    ((none : Option Int) = none ∨ (none : Option Int) = some 0) ∧
    (-5 : Int) < 0 ∧
    parsedCount { count := none } = 100 ∧
    apiAdminGenerate evalRuntime scenarioStore { count := none } digitEnv 100 =
      apiAdminGenerate evalRuntime scenarioStore { count := some 100 } digitEnv 100 ∧
    apiAdminGenerate evalRuntime scenarioStore { count := some (-5) } digitEnv 100 =
      some (scenarioStore, some
        { messageResponse 200 true ("Generated " ++ toString (-5 : Int) ++
            " new license keys") with
          keys := some [] }) :=
  ⟨Or.inl rfl, by decide,
    ((C29_count_handling evalRuntime scenarioStore { count := none } digitEnv 100).1
      (Or.inl rfl)).1,
    ((C29_count_handling evalRuntime scenarioStore { count := none } digitEnv 100).1
      (Or.inl rfl)).2.1,
    (C29_count_handling evalRuntime scenarioStore { count := some (-5) } digitEnv 100).2.1
      (-5) rfl (by decide)⟩

end LicenseServer
